import Mathlib

/-! RDM-X: packet codec, discovery and validation

A shallow embedding of the RDM protocol layer of the repository
(`src/src/rdm.cpp`, `src/src/rdm.h`, `src/src/validator.cpp`,
`src/src/rdm_x_api.cpp`) together with theorems about it.

Conventions of the embedding:

* a byte buffer is a `List Nat`; an element read `buf[i]` is `buf.getD i 0`;
* machine integers are `Nat`; a conversion to `uint8_t` or `uint16_t` that can
  lose bits is written `% 256` or `% 65536`, a mask `& 0xFF` is `&&& 0xFF`;
* a nullable pointer argument is an `Option`.
-/

namespace RdmX

/-! ## Constants (`src/src/rdm.h`) -/

def RDM_START_CODE : Nat := 0xCC
def RDM_SUB_START : Nat := 0x01

def RDM_CC_DISCOVERY : Nat := 0x10
def RDM_CC_DISCOVERY_RSP : Nat := 0x11
def RDM_CC_GET : Nat := 0x20
def RDM_CC_GET_RSP : Nat := 0x21
def RDM_CC_SET : Nat := 0x30
def RDM_CC_SET_RSP : Nat := 0x31

def PID_DISC_UNIQUE_BRANCH : Nat := 0x0001
def PID_DISC_MUTE : Nat := 0x0002
def PID_DISC_UN_MUTE : Nat := 0x0003
def PID_SUPPORTED_PARAMS : Nat := 0x0050
def PID_DEVICE_INFO : Nat := 0x0060
def PID_IDENTIFY_DEVICE : Nat := 0x1000

def RDM_BROADCAST_UID : Nat := 0xFFFFFFFFFFFF

/-! ## UID helpers and checksum (`src/src/rdm.cpp`, lines 25-48) -/

/-- The six bytes `PackUID` writes to `dst[0..5]` (`rdm.cpp` 25-32). -/
def PackUID (uid : Nat) : List Nat :=
  [ (uid >>> 40) &&& 0xFF,
    (uid >>> 32) &&& 0xFF,
    (uid >>> 24) &&& 0xFF,
    (uid >>> 16) &&& 0xFF,
    (uid >>> 8) &&& 0xFF,
    uid &&& 0xFF ]

/-- The value `UnpackUID` assembles from `src[0..5]` (`rdm.cpp` 34-40). -/
def UnpackUID (src : List Nat) : Nat :=
  (src.getD 0 0 <<< 40) |||
  (src.getD 1 0 <<< 32) |||
  (src.getD 2 0 <<< 24) |||
  (src.getD 3 0 <<< 16) |||
  (src.getD 4 0 <<< 8) ||| src.getD 5 0

/-- The loop of `RDMChecksum` (`rdm.cpp` 43-48): a `uint16_t` accumulator that
adds `data[i]` for `i = 0 .. len-1`, wrapping at every step. -/
def RDMChecksum (data : List Nat) (len : Nat) : Nat :=
  (List.range len).foldl (fun sum i => (sum + data.getD i 0) % 65536) 0

/-! ## Packet builder (`src/src/rdm.cpp`, lines 51-86) -/

/-- The bytes that end up in `pkt[24 .. 24+paramLen-1]`: the vector is created
zero-filled and `memcpy` runs only when `paramLen > 0 && paramData`. -/
def paramBytes (paramData : Option (List Nat)) (paramLen : Nat) : List Nat :=
  match paramData with
  | some d =>
    if paramLen > 0 then (List.range paramLen).map (fun i => d.getD i 0)
    else List.replicate paramLen 0
  | none => List.replicate paramLen 0

/-- The first `msgLen = 24 + paramLen` bytes of the packet, each index written
once by `BuildRDMPacket` (`rdm.cpp` 62-78). -/
def packetBody (destUID srcUID transNum portOrRespType msgCount subDevice
    commandClass pid : Nat) (paramData : Option (List Nat)) (paramLen : Nat) : List Nat :=
  [RDM_START_CODE, RDM_SUB_START, (24 + paramLen) % 256]
    ++ PackUID destUID
    ++ PackUID srcUID
    ++ [ transNum, portOrRespType, msgCount,
         (subDevice >>> 8) &&& 0xFF, subDevice &&& 0xFF,
         commandClass,
         (pid >>> 8) &&& 0xFF, pid &&& 0xFF,
         paramLen ]
    ++ paramBytes paramData paramLen

/-- `BuildRDMPacket` (`rdm.cpp` 51-86): the body followed by the checksum of the
first `msgLen` bytes, high byte first. -/
def BuildRDMPacket (destUID srcUID transNum portOrRespType msgCount subDevice
    commandClass pid : Nat) (paramData : Option (List Nat)) (paramLen : Nat) : List Nat :=
  let msgLen := 24 + paramLen
  let body := packetBody destUID srcUID transNum portOrRespType msgCount subDevice
    commandClass pid paramData paramLen
  let cksum := RDMChecksum body msgLen
  body ++ [(cksum >>> 8) &&& 0xFF, cksum &&& 0xFF]

/-- The checksum test `SendRDMCommand` applies to a received buffer
(`rdm_x_api.cpp` 258-274): `checksumValid` is `expected == computed` when
`rxLen >= 26` and `false` otherwise. -/
def checksumValid (rxBuf : List Nat) (rxLen : Nat) : Bool :=
  if rxLen ≥ 26 then
    let msgLen := rxLen - 2
    let expected := ((rxBuf.getD msgLen 0 <<< 8) ||| rxBuf.getD (msgLen + 1) 0) % 65536
    let computed := RDMChecksum rxBuf msgLen
    decide (expected = computed)
  else false

/-- Flip bit `k` of the byte at index `i` of a buffer. -/
def flipBit (buf : List Nat) (i k : Nat) : List Nat :=
  buf.set i (buf.getD i 0 ^^^ 2 ^ k)

/-! ## Specification-side notions used in the statements -/

/-- The `n`-byte big-endian representation of `u` (most significant byte
first), as the wire-layout table of the specification uses it. -/
def bigEndian : Nat → Nat → List Nat
  | 0, _ => []
  | n + 1, u => bigEndian n (u / 256) ++ [u % 256]

/-- The parameter data a caller passes: the pointed-to bytes, or none for a
null pointer. -/
def dataOf (paramData : Option (List Nat)) : List Nat := paramData.getD []

/-! ## Transport (`src/src/enttec_pro.h`) and session state -/

/-- The operations the protocol layer calls on the adapter object
(`EnttecPro`), over an explicit device state `σ`.  `ReceiveRDM` yields the new
state, the `int` it returns (`rxLen`) and the contents of the caller's receive
buffer after the call. -/
structure Transport (σ : Type) where
  SendRDM : σ → List Nat → σ × Bool
  SendRDMDiscovery : σ → List Nat → σ × Bool
  ReceiveRDM : σ → Nat → σ × Int × List Nat
  Purge : σ → σ

/-- The state of one session: the device and the file-static `uint8_t
s_transNum` (`rdm.cpp` 89). -/
structure Session (σ : Type) where
  dev : σ
  transNum : Nat

/-! ## Discovery helpers (`src/src/rdm.cpp`, lines 166-296) -/

/-- `SendDiscMute` (`rdm.cpp` 167-181): returns whether a response arrived. -/
def SendDiscMute {σ : Type} (T : Transport σ) (s : Session σ) (srcUID uid : Nat) :
    Session σ × Bool :=
  let pkt := BuildRDMPacket uid srcUID s.transNum 1 0 0 RDM_CC_DISCOVERY PID_DISC_MUTE none 0
  let tn := (s.transNum + 1) % 256
  let sent := T.SendRDM s.dev pkt
  if sent.2 = false then (⟨sent.1, tn⟩, false)
  else
    let rx := T.ReceiveRDM sent.1 256
    (⟨rx.1, tn⟩, decide (rx.2.1 > 0))

/-- `SendDiscUnMute` (`rdm.cpp` 184-192): broadcast, result of the send
ignored, then a purge. -/
def SendDiscUnMute {σ : Type} (T : Transport σ) (s : Session σ) (srcUID : Nat) : Session σ :=
  let pkt := BuildRDMPacket RDM_BROADCAST_UID srcUID s.transNum 1 0 0 RDM_CC_DISCOVERY
    PID_DISC_UN_MUTE none 0
  let tn := (s.transNum + 1) % 256
  let sent := T.SendRDM s.dev pkt
  ⟨T.Purge sent.1, tn⟩

/-- The preamble loop `while (offset < rxLen && rxBuf[offset] == 0xFE) offset++`
(`rdm.cpp` 254-256).  The loop can run at most `rxLen` times, which is the fuel
the caller passes. -/
def stripPreamble (rxBuf : List Nat) (rxLen : Nat) : Nat → Nat → Nat
  | 0, offset => offset
  | fuel + 1, offset =>
    if offset < rxLen ∧ rxBuf.getD offset 0 = 0xFE then
      stripPreamble rxBuf rxLen fuel (offset + 1)
    else offset

/-- The six bytes decoded from the encoded pairs (`rdm.cpp` 283-288). -/
def decodePairs (rxBuf : List Nat) (offset : Nat) : List Nat :=
  (List.range 6).map (fun i =>
    (rxBuf.getD (offset + i * 2) 0 &&& 0x55) ||| (rxBuf.getD (offset + i * 2 + 1) 0 &&& 0xAA))

/-- The part of `TryDiscBranch` after the receive (`rdm.cpp` 225-295): the
return value (`-1`, `0` or `1`) and the value of `*foundUID` afterwards. -/
def parseDiscResponse (rxLen : Int) (rxBuf : List Nat) (foundUID : Nat) : Int × Nat :=
  if rxLen ≤ 0 then (-1, foundUID)
  else
    let n := rxLen.toNat
    let offset0 := stripPreamble rxBuf n n 0
    let offset := if offset0 < n ∧ rxBuf.getD offset0 0 = 0xAA then offset0 + 1 else offset0
    let remaining : Int := rxLen - offset
    if remaining < 12 then
      if remaining > 0 then (0, foundUID) else (-1, foundUID)
    else
      (1, UnpackUID (decodePairs rxBuf offset))

/-- `TryDiscBranch` (`rdm.cpp` 199-296): new session state, return value and
`*foundUID` after the call. -/
def TryDiscBranch {σ : Type} (T : Transport σ) (s : Session σ) (srcUID lower upper : Nat)
    (foundUID : Nat) : Session σ × Int × Nat :=
  let pd := PackUID lower ++ PackUID upper
  let pkt := BuildRDMPacket RDM_BROADCAST_UID srcUID s.transNum 1 0 0 RDM_CC_DISCOVERY
    PID_DISC_UNIQUE_BRANCH (some pd) 12
  let tn := (s.transNum + 1) % 256
  let sent := T.SendRDMDiscovery s.dev pkt
  if sent.2 = false then (⟨sent.1, tn⟩, -1, foundUID)
  else
    let rx := T.ReceiveRDM sent.1 512
    (⟨rx.1, tn⟩, parseDiscResponse rx.2.1 rx.2.2 foundUID)

/-! ## Recursive discovery (`src/src/rdm.cpp`, lines 299-348) -/

/-- `DiscoverBranch` (`rdm.cpp` 299-328): new session state and the `found`
vector after the call. -/
def DiscoverBranch {σ : Type} (T : Transport σ) (srcUID : Nat) (s : Session σ)
    (lower upper : Nat) (found : List Nat) (depth : Nat) : Session σ × List Nat :=
  if depth ≥ 48 then (s, found)
  else
    let r := TryDiscBranch T s srcUID lower upper 0
    if r.2.1 = -1 then (r.1, found)
    else if r.2.1 = 1 then
      let found1 := found ++ [r.2.2]
      let m := SendDiscMute T r.1 srcUID r.2.2
      DiscoverBranch T srcUID m.1 lower upper found1 (depth + 1)
    else if r.2.1 = 0 then
      if lower ≥ upper then (r.1, found)
      else
        let mid := lower + (upper - lower) / 2
        let left := DiscoverBranch T srcUID r.1 lower mid found (depth + 1)
        DiscoverBranch T srcUID left.1 (mid + 1) upper left.2 (depth + 1)
    else (r.1, found)
termination_by 48 - depth

/-- `RDMDiscovery` (`rdm.cpp` 331-348). -/
def RDMDiscovery {σ : Type} (T : Transport σ) (s : Session σ) (srcUID : Nat) :
    Session σ × List Nat :=
  let s1 := SendDiscUnMute T s srcUID
  let s2 := SendDiscUnMute T s1 srcUID
  DiscoverBranch T srcUID s2 0x000000000000 0xFFFEFFFFFFFF [] 0

/-- One entry of the call log: the `lower`, `upper` and `depth` arguments of a
recursive call of `DiscoverBranch`. -/
structure BranchCall where
  lower : Nat
  upper : Nat
  depth : Nat
deriving DecidableEq

/-- `DiscoverBranch` with a log of the recursive calls it makes, in call order.
The first two components are computed exactly as in `DiscoverBranch`. -/
def DiscoverBranchLog {σ : Type} (T : Transport σ) (srcUID : Nat) (s : Session σ)
    (lower upper : Nat) (found : List Nat) (depth : Nat) :
    Session σ × List Nat × List BranchCall :=
  if depth ≥ 48 then (s, found, [])
  else
    let r := TryDiscBranch T s srcUID lower upper 0
    if r.2.1 = -1 then (r.1, found, [])
    else if r.2.1 = 1 then
      let found1 := found ++ [r.2.2]
      let m := SendDiscMute T r.1 srcUID r.2.2
      let again := DiscoverBranchLog T srcUID m.1 lower upper found1 (depth + 1)
      (again.1, again.2.1, ⟨lower, upper, depth + 1⟩ :: again.2.2)
    else if r.2.1 = 0 then
      if lower ≥ upper then (r.1, found, [])
      else
        let mid := lower + (upper - lower) / 2
        let left := DiscoverBranchLog T srcUID r.1 lower mid found (depth + 1)
        let right := DiscoverBranchLog T srcUID left.1 (mid + 1) upper left.2.1 (depth + 1)
        (right.1, right.2.1,
          ⟨lower, mid, depth + 1⟩ :: left.2.2 ++ ⟨mid + 1, upper, depth + 1⟩ :: right.2.2)
    else (r.1, found, [])
termination_by 48 - depth

/-! ## GET transaction (`src/src/rdm.h` 38-51, `src/src/rdm.cpp` 91-150) -/

inductive RDMResponseType where
  | ACK
  | ACK_TIMER
  | NACK
  | TIMEOUT
  | COLLISION
  | INVALID
deriving DecidableEq

/-- `struct RDMResponse` with its default member initialisers. -/
structure RDMResponse where
  type : RDMResponseType := RDMResponseType.TIMEOUT
  nackReason : Nat := 0
  data : List Nat := []
deriving DecidableEq

/-- The classification of a received buffer in `RDMGetCommand` (`rdm.cpp`
110-149), given the value `rxLen` returned by `ReceiveRDM` and the buffer. -/
def classifyResponse (rxLen : Int) (rxBuf : List Nat) : RDMResponse :=
  if rxLen ≤ 0 then { type := RDMResponseType.TIMEOUT }
  else if rxLen < 24 then { type := RDMResponseType.INVALID }
  else if rxBuf.getD 0 0 ≠ RDM_START_CODE then { type := RDMResponseType.INVALID }
  else
    let respType := rxBuf.getD 16 0
    let pdl := rxBuf.getD 23 0
    if respType = 0x00 then
      { type := RDMResponseType.ACK,
        data := if pdl > 0 ∧ (24 + pdl : Int) ≤ rxLen then
                  (List.range pdl).map (fun i => rxBuf.getD (24 + i) 0)
                else [] }
    else if respType = 0x01 then { type := RDMResponseType.ACK_TIMER }
    else if respType = 0x02 then
      { type := RDMResponseType.NACK,
        nackReason := if pdl ≥ 2 then
                        ((rxBuf.getD 24 0 <<< 8) ||| rxBuf.getD 25 0) % 65536
                      else 0 }
    else { type := RDMResponseType.INVALID }

/-- `RDMGetCommand` (`rdm.cpp` 91-150). -/
def RDMGetCommand {σ : Type} (T : Transport σ) (s : Session σ) (srcUID destUID pid : Nat)
    (paramData : Option (List Nat)) (paramLen : Nat) : Session σ × RDMResponse :=
  let pkt := BuildRDMPacket destUID srcUID s.transNum 1 0 0 RDM_CC_GET pid paramData paramLen
  let tn := (s.transNum + 1) % 256
  let sent := T.SendRDM s.dev pkt
  if sent.2 = false then (⟨sent.1, tn⟩, { type := RDMResponseType.TIMEOUT })
  else
    let rx := T.ReceiveRDM sent.1 512
    (⟨rx.1, tn⟩, classifyResponse rx.2.1 rx.2.2)

/-! ## Validator (`src/src/parameter_loader.h`, `src/src/validator.h`,
`src/src/validator.cpp`) -/

structure RDMParameter where
  pid : Nat := 0
  name : String := ""
  commandClass : String := ""
  isMandatory : Bool := false
  description : String := ""
deriving DecidableEq

inductive ValidationStatus where
  | GREEN
  | YELLOW
  | RED
deriving DecidableEq

structure ValidationResult where
  pid : Nat := 0
  name : String := ""
  isMandatory : Bool := false
  status : ValidationStatus := ValidationStatus.RED
  value : String := ""
  responseType : RDMResponseType := RDMResponseType.TIMEOUT
deriving DecidableEq

/-- One uppercase hexadecimal digit, as `%X` prints it. -/
def hexDigit (n : Nat) : Char :=
  if n < 10 then Char.ofNat (48 + n) else Char.ofNat (55 + n)

/-- `BytesToHex` (`validator.cpp` 9-21): `"%02X "` per byte, then the trailing
space is popped. -/
def BytesToHex (data : List Nat) (len : Nat) : String :=
  let out : List Char := (List.range len).foldl
    (fun out i => out ++ [hexDigit (data.getD i 0 / 16 % 16), hexDigit (data.getD i 0 % 16), ' '])
    []
  String.mk (if out ≠ [] ∧ out.getLast? = some ' ' then out.dropLast else out)

/-- The two bytes `reinterpret_cast<const uint8_t*>(&resp.nackReason)` points
to: the object representation of a `uint16_t` on the little-endian targets the
project is built for. -/
def nackReasonBytes (nackReason : Nat) : List Nat :=
  [nackReason % 256, nackReason / 256 % 256]

/-- The body of the loop of `ValidateFixture` for one catalog entry
(`validator.cpp` 34-89): new session state and the result pushed. -/
def validateParam {σ : Type} (T : Transport σ) (s : Session σ) (srcUID destUID : Nat)
    (param : RDMParameter) : Session σ × ValidationResult :=
  if param.pid ≤ 0x0003 then
    (s, { pid := param.pid, name := param.name, isMandatory := param.isMandatory,
          status := ValidationStatus.GREEN, value := "(discovery)",
          responseType := RDMResponseType.ACK })
  else
    let g := RDMGetCommand T s srcUID destUID param.pid none 0
    let resp := g.2
    match resp.type with
    | RDMResponseType.ACK =>
      (g.1, { pid := param.pid, name := param.name, isMandatory := param.isMandatory,
              status := ValidationStatus.GREEN,
              value := if resp.data ≠ [] then BytesToHex resp.data resp.data.length
                       else "(empty)",
              responseType := resp.type })
    | RDMResponseType.ACK_TIMER =>
      (g.1, { pid := param.pid, name := param.name, isMandatory := param.isMandatory,
              status := ValidationStatus.GREEN, value := "(ACK_TIMER)",
              responseType := resp.type })
    | _ =>
      (g.1, { pid := param.pid, name := param.name, isMandatory := param.isMandatory,
              status := if param.isMandatory then ValidationStatus.RED
                        else ValidationStatus.YELLOW,
              value := if resp.type = RDMResponseType.NACK then
                         "NACK (0x" ++ BytesToHex (nackReasonBytes resp.nackReason) 2 ++ ")"
                       else if resp.type = RDMResponseType.TIMEOUT then "TIMEOUT"
                       else "INVALID",
              responseType := resp.type })

/-- `ValidateFixture` (`validator.cpp` 24-93): the loop over the catalog,
pushing one result per iteration. -/
def ValidateFixture {σ : Type} (T : Transport σ) (s : Session σ) (srcUID destUID : Nat)
    (params : List RDMParameter) : Session σ × List ValidationResult :=
  params.foldl
    (fun acc param =>
      let r := validateParam T acc.1 srcUID destUID param
      (r.1, acc.2 ++ [r.2]))
    (s, [])

/-! ## Synthetic transports used in the statements -/

/-- The twelve encoded bytes of a discovery response for `uid`: each of the six
big-endian UID bytes `x` is sent as the pair `x | 0xAA`, `x | 0x55`. -/
def encodePairs (uid : Nat) : List Nat :=
  (PackUID uid).flatMap (fun x => [x ||| 0xAA, x ||| 0x55])

/-- A discovery response: `k` preamble bytes `0xFE`, the separator `0xAA`, the
encoded UID, and whatever follows it (the encoded checksum, or nothing). -/
def discResponse (k uid : Nat) (tail : List Nat) : List Nat :=
  List.replicate k 0xFE ++ [0xAA] ++ encodePairs uid ++ tail

/-- The four encoded checksum bytes a responder appends to its discovery
response (sum of the twelve encoded UID bytes). -/
def encodedChecksum (uid : Nat) : List Nat :=
  let cs := (encodePairs uid).sum % 65536
  [(cs >>> 8) ||| 0xAA, (cs >>> 8) ||| 0x55, (cs &&& 0xFF) ||| 0xAA, (cs &&& 0xFF) ||| 0x55]

/-- What the line carries when two or more responders answer at once: a short
garbled frame. -/
def garbledResponse : List Nat := [0xFE, 0xAA, 0xFF, 0xFF, 0xFF]

/-- A transport that accepts every send and delivers the same bytes `resp` on
every receive. -/
def constTransport (resp : List Nat) : Transport Unit where
  SendRDM := fun d _ => (d, true)
  SendRDMDiscovery := fun d _ => (d, true)
  ReceiveRDM := fun d _ => (d, (resp.length : Int), resp)
  Purge := fun d => d

/-- State of the ideal bus: the UIDs of all responders, those currently not
muted, and the bytes waiting to be received. -/
structure Bus where
  all : List Nat
  unmuted : List Nat
  pending : List Nat
deriving DecidableEq

/-- Whether `u` lies in the branch range `[lower, upper]`. -/
def inRange (lower upper u : Nat) : Bool := decide (lower ≤ u ∧ u ≤ upper)

/-- The answer of the ideal bus to a `DISC_UNIQUE_BRANCH` over `[lower, upper]`:
nothing when no unmuted responder lies in the range, the encoded response of
the responder when exactly one does, a garbled short frame otherwise. -/
def branchAnswer (unmuted : List Nat) (lower upper : Nat) : List Nat :=
  match unmuted.filter (inRange lower upper) with
  | [] => []
  | [u] => discResponse 7 u (encodedChecksum u)
  | _ :: _ :: _ => garbledResponse

/-- The ideal bus as a transport.  Requests are read off the packet bytes: a
`DISC_UNIQUE_BRANCH` is answered by `branchAnswer`; a `DISC_MUTE` silences the
addressed responder, which acknowledges; a broadcast `DISC_UN_MUTE` un-mutes
every responder and is not answered. -/
def idealBus : Transport Bus where
  SendRDMDiscovery := fun b pkt =>
    if pkt.getD 20 0 = RDM_CC_DISCOVERY
        ∧ pkt.getD 21 0 * 256 + pkt.getD 22 0 = PID_DISC_UNIQUE_BRANCH then
      ({ b with pending := branchAnswer b.unmuted (UnpackUID (pkt.drop 24))
                             (UnpackUID (pkt.drop 30)) }, true)
    else ({ b with pending := [] }, true)
  SendRDM := fun b pkt =>
    if pkt.getD 20 0 = RDM_CC_DISCOVERY
        ∧ pkt.getD 21 0 * 256 + pkt.getD 22 0 = PID_DISC_MUTE then
      let dest := UnpackUID (pkt.drop 3)
      ({ b with unmuted := b.unmuted.filter (fun u => decide (u ≠ dest)),
                pending := if dest ∈ b.all then
                    BuildRDMPacket (UnpackUID (pkt.drop 9)) dest (pkt.getD 15 0) 0 0 0
                      RDM_CC_DISCOVERY_RSP PID_DISC_MUTE (some [0, 0]) 2
                  else [] }, true)
    else if pkt.getD 20 0 = RDM_CC_DISCOVERY
        ∧ pkt.getD 21 0 * 256 + pkt.getD 22 0 = PID_DISC_UN_MUTE
        ∧ UnpackUID (pkt.drop 3) = RDM_BROADCAST_UID then
      ({ b with unmuted := b.all, pending := [] }, true)
    else ({ b with pending := [] }, true)
  ReceiveRDM := fun b maxLen =>
    ({ b with pending := [] },
     if b.pending = [] then -1 else ((min b.pending.length maxLen : Nat) : Int),
     b.pending.take maxLen)
  Purge := fun b => { b with pending := [] }

/-- The bus holding the responders `S`, all un-muted, nothing pending. -/
def busOf (S : List Nat) : Bus := { all := S, unmuted := S, pending := [] }

/-- The run of `DiscoverBranch` on the ideal bus, read on the list of unmuted
responders only; the first argument is the number of levels left, `48 - depth`.
Returns the unmuted responders and the found list afterwards. -/
def idealDiscover : Nat → List Nat → Nat → Nat → List Nat → List Nat × List Nat
  | 0, unmuted, _, _, found => (unmuted, found)
  | r + 1, unmuted, lower, upper, found =>
    match unmuted.filter (inRange lower upper) with
    | [] => (unmuted, found)
    | [u] =>
      idealDiscover r (unmuted.filter (fun v => decide (v ≠ u))) lower upper (found ++ [u])
    | _ :: _ :: _ =>
      if lower ≥ upper then (unmuted, found)
      else
        let mid := lower + (upper - lower) / 2
        let left := idealDiscover r unmuted lower mid found
        idealDiscover r left.1 (mid + 1) upper left.2

/-- The answer of the ideal bus to a branch request, as `TryDiscBranch`
classifies it: `-1` for no responder, `1` and the UID for one, `0` for a
collision. -/
def branchOutcome (unmuted : List Nat) (lower upper : Nat) : Int × Nat :=
  match unmuted.filter (inRange lower upper) with
  | [] => (-1, 0)
  | [u] => (1, u)
  | _ :: _ :: _ => (0, 0)

/-! ## Packets of the repository tests, used as concrete instances -/

/-- The packet of the test `BuildRDMPacket.ChecksumCorrectWithParam`
(`tests/cpp/test_rdm_core.cpp` 247-258). -/
def testBranchPacket : List Nat :=
  BuildRDMPacket RDM_BROADCAST_UID 0x454E00000001 0x00 0x01 0x00 0x0000 RDM_CC_DISCOVERY
    PID_DISC_UNIQUE_BRANCH
    (some [0x00, 0x00, 0xFF, 0xFF, 0xFF, 0xFF, 0xFF, 0xFF, 0x00, 0x00, 0xFF, 0xFF]) 12

/-- A GET of `DEVICE_INFO` with the field values the `BuildRDMPacket` tests use
one at a time (`tests/cpp/test_rdm_core.cpp` 169-224), all in one packet. -/
def testFieldsPacket : List Nat :=
  BuildRDMPacket 0xAABBCCDDEEFF 0x112233445566 0xAB 0x05 0x03 0x1234 RDM_CC_GET
    PID_DEVICE_INFO (some [0xDE, 0xAD, 0xBE]) 3

/-- The scenario packet of the specification: a GET (`0x20`) for PID `0x0060`
to `0xAABBCCDDEEFF` from `0x112233445566`, transaction number 0, no data. -/
def scenarioPacket : List Nat :=
  BuildRDMPacket 0xAABBCCDDEEFF 0x112233445566 0 0 0 0 0x20 0x0060 none 0

/-! ## UID text form (`src/src/rdm.cpp`, lines 11-23)

`snprintf` and `sscanf` belong to the C library; the two conversions the code
uses, `%0NX` and `%X`, are written out here as the C standard describes them. -/

/-- The conversion `%0wX` of a value below `16 ^ w`: exactly `w` uppercase
hexadecimal digits, most significant first, zero-padded. -/
def hexPad : Nat → Nat → List Char
  | 0, _ => []
  | w + 1, n => hexPad w (n / 16) ++ [hexDigit (n % 16)]

/-- `UIDToString` (`rdm.cpp` 11-17): `"%04X:%08X"` of the 16-bit manufacturer
part and the 32-bit device part; the 13 characters fit the 16-byte buffer. -/
def UIDToString (uid : Nat) : String :=
  let mfg := (uid >>> 32) &&& 0xFFFF
  let dev := uid &&& 0xFFFFFFFF
  String.mk (hexPad 4 mfg ++ [':'] ++ hexPad 8 dev)

/-- Value of a hexadecimal digit character of either case, if it is one. -/
def hexValue (c : Char) : Option Nat :=
  if '0' ≤ c ∧ c ≤ '9' then some (c.toNat - 48)
  else if 'A' ≤ c ∧ c ≤ 'F' then some (c.toNat - 55)
  else if 'a' ≤ c ∧ c ≤ 'f' then some (c.toNat - 87)
  else none

/-- White space as `isspace` sees it in the C locale. -/
def isSpaceC (c : Char) : Bool :=
  c = ' ' || c = '\t' || c = '\n' || c = '\x0b' || c = '\x0c' || c = '\r'

/-- The longest run of hexadecimal digits at the head of the input: value
accumulated, number of digits consumed, rest of the input. -/
def scanHexDigits : List Char → Nat → Nat → Nat × Nat × List Char
  | [], acc, n => (acc, n, [])
  | c :: cs, acc, n =>
    match hexValue c with
    | some v => scanHexDigits cs (acc * 16 + v) (n + 1)
    | none => (acc, n, c :: cs)

/-- The input after an optional sign, and whether the sign was `-`. -/
def dropSign (input : List Char) : Bool × List Char :=
  match input with
  | c :: cs => if c = '-' then (true, cs) else if c = '+' then (false, cs) else (false, input)
  | [] => (false, input)

/-- The input after an optional `0x` or `0X` that is followed by a digit. -/
def dropHexMark (input : List Char) : List Char :=
  match input with
  | z :: x :: d :: cs =>
    if z = '0' ∧ (x = 'x' ∨ x = 'X') ∧ (hexValue d).isSome then d :: cs else input
  | _ => input

/-- One `%X` conversion of `sscanf` into a `uint32_t`: white space is skipped,
an optional sign and an optional `0x` are accepted, then the longest run of
hexadecimal digits is converted.  `none` is a matching failure (no digit). -/
def scanX (input : List Char) : Option (Nat × List Char) :=
  let signed := dropSign (input.dropWhile isSpaceC)
  let r := scanHexDigits (dropHexMark signed.2) 0 0
  if r.2.1 = 0 then none
  else
    let v := r.1 % 4294967296
    some (if signed.1 then (4294967296 - v) % 4294967296 else v, r.2.2)

/-- `StringToUID` (`rdm.cpp` 19-23): `hi` and `lo` start at 0,
`sscanf(s.c_str(), "%X:%X", &hi, &lo)` assigns what it can convert, and the
result is `(uint64_t(hi) << 32) | lo`. -/
def StringToUID (s : String) : Nat :=
  let cstr := s.data.takeWhile (fun c => c ≠ '\x00')
  match scanX cstr with
  | none => (0 <<< 32) ||| 0
  | some (hi, rest) =>
    match rest with
    | c :: rest2 =>
      if c = ':' then
        match scanX rest2 with
        | none => (hi <<< 32) ||| 0
        | some (lo, _) => (hi <<< 32) ||| lo
      else (hi <<< 32) ||| 0
    | [] => (hi <<< 32) ||| 0

/-! ## Further synthetic transports and specification-side notions -/

/-- A transport that plays a script: its state is the list of responses still
to be delivered and the log of the packets sent so far.  Every send is
accepted and logged; every receive delivers the next response of the script,
or nothing (`-1`) when the script is exhausted. -/
def scriptedTransport : Transport (List (List Nat) × List (List Nat)) where
  SendRDM := fun d pkt => ((d.1, d.2 ++ [pkt]), true)
  SendRDMDiscovery := fun d pkt => ((d.1, d.2 ++ [pkt]), true)
  ReceiveRDM := fun d maxLen =>
    match d.1 with
    | [] => (d, -1, [])
    | r :: rs => ((rs, d.2), ((min r.length maxLen : Nat) : Int), r.take maxLen)
  Purge := fun d => d

/-- A well-formed GET response as a responder with UID `responder` sends it to
the controller: response type at offset 16, command class `GET_RSP`, the
parameter data, and a correct checksum. -/
def getResponse (controller responder transNum respType pid : Nat) (data : List Nat) :
    List Nat :=
  BuildRDMPacket controller responder transNum respType 0 0 RDM_CC_GET_RSP pid (some data)
    data.length

/-- The sixteen uppercase hexadecimal digits. -/
def hexChars : List Char := "0123456789ABCDEF".data

/-- A byte written as two uppercase hexadecimal digits, zero-padded. -/
def hexByte (b : Nat) : List Char := [hexChars.getD (b / 16) '?', hexChars.getD (b % 16) '?']

/-- The hex encoding of a byte sequence: the two-digit bytes in input order,
separated by single spaces. -/
def hexEncoding (data : List Nat) : List Char :=
  List.intercalate [' '] (data.map hexByte)

/-- The four uppercase hexadecimal digits of a 16-bit value, most significant
first. -/
def hexWord (r : Nat) : List Char :=
  [hexChars.getD (r / 4096 % 16) '?', hexChars.getD (r / 256 % 16) '?',
   hexChars.getD (r / 16 % 16) '?', hexChars.getD (r % 16) '?']

/-! ## Concrete responses and catalogs used as instances -/

/-- The controller UID of the application (`main.cpp` 75). -/
def kControllerUID : Nat := 0x454E540001

/-- A fixture UID. -/
def testFixtureUID : Nat := 0x454E00000001

/-- The bytes of the repository test `BytesToHex.ThreeBytes`. -/
def testBytes : List Nat := [0x0A, 0x1B, 0xFF]

/-- A NACK (response type `0x02`) for `DEVICE_INFO` with reason code `0x1234`. -/
def testNack : List Nat :=
  getResponse kControllerUID testFixtureUID 0 0x02 PID_DEVICE_INFO [0x12, 0x34]

/-- A NACK (response type `0x02`) for `DEVICE_INFO` with no parameter data. -/
def testNackNoData : List Nat :=
  getResponse kControllerUID testFixtureUID 0 0x02 PID_DEVICE_INFO []

/-- An ACK (response type `0x00`) for `DEVICE_INFO` carrying `testBytes`. -/
def testAck : List Nat :=
  getResponse kControllerUID testFixtureUID 0 0x00 PID_DEVICE_INFO testBytes

/-- An ACK (response type `0x00`) for `DEVICE_INFO` with no parameter data. -/
def testAckNoData : List Nat :=
  getResponse kControllerUID testFixtureUID 0 0x00 PID_DEVICE_INFO []

/-- `testAck` with bit 0 of its first parameter byte flipped, the checksum
bytes left as they were. -/
def testAckCorrupted : List Nat := flipBit testAck 24 0

/-- The 24 header bytes of `testAckNoData`, without the checksum. -/
def testAckHeaderOnly : List Nat := testAckNoData.take 24

/-- An ACK_OVERFLOW (response type `0x03`) for `DEVICE_INFO` carrying 20 bytes
of value `v`. -/
def testOverflow (v : Nat) : List Nat :=
  getResponse kControllerUID testFixtureUID 0 0x03 PID_DEVICE_INFO (List.replicate 20 v)

/-- The script of the overflow scenario: three 20-byte fragments, then an ACK
of 5 bytes. -/
def overflowScript : List (List Nat) :=
  [testOverflow 1, testOverflow 2, testOverflow 3,
   getResponse kControllerUID testFixtureUID 0 0x00 PID_DEVICE_INFO [9, 9, 9, 9, 9]]

/-- A mandatory catalog entry for `DEVICE_INFO`. -/
def deviceInfoEntry : RDMParameter :=
  { pid := PID_DEVICE_INFO, name := "DEVICE_INFO", commandClass := "GET_COMMAND (0x20)",
    isMandatory := true, description := "" }

/-- A catalog entry for the discovery PID `DISC_MUTE`. -/
def discMuteEntry : RDMParameter :=
  { pid := PID_DISC_MUTE, name := "DISC_MUTE", commandClass := "GET_COMMAND (0x20)",
    isMandatory := false, description := "" }


/-! ## Text form, bisection point and request sequences -/

/-- The `w` uppercase hexadecimal digits of `n`, most significant first and
zero-padded: digit `i` is `n / 16 ^ (w - 1 - i) % 16`. -/
def upperHex (w n : Nat) : List Char :=
  (List.range w).map (fun i => hexChars.getD (n / 16 ^ (w - 1 - i) % 16) '?')

/-- The bisection point of `DiscoverBranch` (`rdm.cpp` 323),
`uint64_t mid = lower + (upper - lower) / 2`, with the subtraction and the
addition reduced modulo `2 ^ 64` as the machine does. -/
def mid64 (lower upper : Nat) : Nat :=
  (lower + ((upper + 2 ^ 64 - lower) % 2 ^ 64) / 2) % 2 ^ 64

/-- A request of one of the four functions of `rdm.cpp` that build a packet
with `s_transNum++`. -/
inductive Request where
  | get (destUID pid : Nat) (paramData : Option (List Nat)) (paramLen : Nat)
  | mute (uid : Nat)
  | unMute
  | branch (lower upper : Nat)
deriving DecidableEq

/-- The session after one request. -/
def issue {σ : Type} (T : Transport σ) (srcUID : Nat) (s : Session σ) : Request → Session σ
  | Request.get destUID pid paramData paramLen =>
    (RDMGetCommand T s srcUID destUID pid paramData paramLen).1
  | Request.mute uid => (SendDiscMute T s srcUID uid).1
  | Request.unMute => SendDiscUnMute T s srcUID
  | Request.branch lower upper => (TryDiscBranch T s srcUID lower upper 0).1

/-- The session after a sequence of requests, issued in order. -/
def issueAll {σ : Type} (T : Transport σ) (srcUID : Nat) (s : Session σ)
    (reqs : List Request) : Session σ :=
  reqs.foldl (issue T srcUID) s

/-- The transport `T` with a record of every packet handed to `SendRDM` or
`SendRDMDiscovery`, in order, whether the send succeeds or not. -/
def recordSends {σ : Type} (T : Transport σ) : Transport (σ × List (List Nat)) where
  SendRDM := fun d pkt => (((T.SendRDM d.1 pkt).1, d.2 ++ [pkt]), (T.SendRDM d.1 pkt).2)
  SendRDMDiscovery := fun d pkt =>
    (((T.SendRDMDiscovery d.1 pkt).1, d.2 ++ [pkt]), (T.SendRDMDiscovery d.1 pkt).2)
  ReceiveRDM := fun d maxLen =>
    (((T.ReceiveRDM d.1 maxLen).1, d.2), (T.ReceiveRDM d.1 maxLen).2)
  Purge := fun d => (T.Purge d.1, d.2)

/-- A transport whose sends always fail. -/
def deadTransport : Transport Unit where
  SendRDM := fun d _ => (d, false)
  SendRDMDiscovery := fun d _ => (d, false)
  ReceiveRDM := fun d _ => (d, -1, [])
  Purge := fun d => d

/-- The twelve encoded UID bytes of `454E:00000001` with neither preamble nor
separator in front of them. -/
def bareUidResponse : List Nat := encodePairs testFixtureUID

/-- A discovery response that ends with the separator: one preamble byte and
`0xAA`, nothing after it. -/
def separatorOnlyResponse : List Nat := [0xFE, 0xAA]

/-- The 24 header bytes of the NACK `testNack` (parameter data length 2),
without the two reason bytes and without the checksum. -/
def testNackHeaderOnly : List Nat := testNack.take 24

/-- A transport that accepts every send and on every receive delivers the
bytes `resp` into a buffer whose remaining positions hold `stale` (what the
caller's uninitialised array happened to contain): the returned length is that
of `resp`. -/
def staleTransport (resp stale : List Nat) : Transport Unit where
  SendRDM := fun d _ => (d, true)
  SendRDMDiscovery := fun d _ => (d, true)
  ReceiveRDM := fun d _ => (d, (resp.length : Int), resp ++ stale)
  Purge := fun d => d

/-! ## Serial framing of the Enttec adapter (`src/src/enttec_pro.h` 15-28,
`src/src/enttec_pro.cpp` 109-152, 240-260, 288-293) -/

def PRO_START_CODE : Nat := 0x7E
def PRO_END_CODE : Nat := 0xE7
def PRO_HEADER_LENGTH : Nat := 4
def LABEL_TX_DMX : Nat := 6
def LABEL_TX_RDM : Nat := 7
def LABEL_TX_RDM_DISCOVERY : Nat := 11

/-- Status value `FT_OK` of the D2XX driver. -/
def FT_OK : Nat := 0

def FT_PURGE_RX : Nat := 1
def FT_PURGE_TX : Nat := 2

/-- The two calls of the D2XX driver that the send path uses, over a device
state `δ`.  `Write h bytes` is `FT_Write(h, bytes, n, &written)` with `n` the
length of `bytes`: new state, returned status, and the value stored in
`written`.  `Purge h mask` is `FT_Purge(h, mask)`. -/
structure Ftdi (δ : Type) where
  Write : δ → List Nat → δ × Nat × Nat
  Purge : δ → Nat → δ

/-- The `length` bytes at `data` that a call passes on. -/
def bytesAt (data : List Nat) (length : Nat) : List Nat :=
  (List.range length).map (fun i => data.getD i 0)

/-- `EnttecPro::SendPacket` (`enttec_pro.cpp` 109-152): handle after the call
and return value.  `handle` is `m_handle` (`none` when the device is not open),
`data` may be a null pointer, `length` is not negative.  The log callback is
left out. -/
def SendPacket {δ : Type} (F : Ftdi δ) (handle : Option δ) (label : Nat)
    (data : Option (List Nat)) (length : Nat) : Option δ × Bool :=
  match handle with
  | none => (none, false)
  | some h =>
    let header := [PRO_START_CODE, label, (length &&& 0xFF) % 256, (length >>> 8) % 256]
    let w1 := F.Write h header
    if w1.2.2 ≠ PRO_HEADER_LENGTH then (some w1.1, false)
    else
      match data with
      | some d =>
        if length > 0 then
          let w2 := F.Write w1.1 (bytesAt d length)
          if w2.2.2 ≠ length then (some w2.1, false)
          else
            let w3 := F.Write w2.1 [PRO_END_CODE]
            if w3.2.2 ≠ 1 then (some w3.1, false)
            else (some w3.1, decide (w3.2.1 = FT_OK))
        else
          let w3 := F.Write w1.1 [PRO_END_CODE]
          if w3.2.2 ≠ 1 then (some w3.1, false)
          else (some w3.1, decide (w3.2.1 = FT_OK))
      | none =>
        let w3 := F.Write w1.1 [PRO_END_CODE]
        if w3.2.2 ≠ 1 then (some w3.1, false)
        else (some w3.1, decide (w3.2.1 = FT_OK))

/-- `EnttecPro::PurgeInternal` (`enttec_pro.cpp` 288-293). -/
def PurgeInternal {δ : Type} (F : Ftdi δ) (handle : Option δ) : Option δ :=
  match handle with
  | some h => some (F.Purge (F.Purge h FT_PURGE_TX) FT_PURGE_RX)
  | none => none

/-- `EnttecPro::SendDMX` (`enttec_pro.cpp` 241-244). -/
def EnttecPro.SendDMX {δ : Type} (F : Ftdi δ) (handle : Option δ)
    (data : Option (List Nat)) (len : Nat) : Option δ × Bool :=
  SendPacket F handle LABEL_TX_DMX data len

/-- `EnttecPro::SendRDM` (`enttec_pro.cpp` 250-253). -/
def EnttecPro.SendRDM {δ : Type} (F : Ftdi δ) (handle : Option δ)
    (data : Option (List Nat)) (len : Nat) : Option δ × Bool :=
  SendPacket F handle LABEL_TX_RDM data len

/-- `EnttecPro::SendRDMDiscovery` (`enttec_pro.cpp` 256-260): purge, then
send. -/
def EnttecPro.SendRDMDiscovery {δ : Type} (F : Ftdi δ) (handle : Option δ)
    (data : Option (List Nat)) (len : Nat) : Option δ × Bool :=
  SendPacket F (PurgeInternal F handle) LABEL_TX_RDM_DISCOVERY data len

/-- The driver `F` with a record of the bytes it reports as written, in order:
of each write, the first `written` bytes. -/
def recordWrites {δ : Type} (F : Ftdi δ) : Ftdi (δ × List Nat) where
  Write := fun h bytes =>
    (((F.Write h.1 bytes).1, h.2 ++ bytes.take (F.Write h.1 bytes).2.2), (F.Write h.1 bytes).2)
  Purge := fun h mask => (F.Purge h.1 mask, h.2)

/-- A driver on which every write succeeds in full. -/
def okDriver : Ftdi Unit where
  Write := fun h bytes => (h, FT_OK, bytes.length)
  Purge := fun h _ => h

/-- A driver that accepts only the first two bytes of every write. -/
def shortDriver : Ftdi Unit where
  Write := fun h bytes => (h, FT_OK, min 2 bytes.length)
  Purge := fun h _ => h

/-! ## Timed command of the C API (`src/src/rdm_x_api.h` 34-52,
`src/src/rdm_x_api.cpp` 167-318) -/

def RDX_STATUS_ACK : Int := 0
def RDX_STATUS_ACK_TIMER : Int := 1
def RDX_STATUS_NACK : Int := 2
def RDX_STATUS_TIMEOUT : Int := 3
def RDX_STATUS_CHECKSUM_ERR : Int := 4
def RDX_STATUS_INVALID : Int := 5

/-- `RDX_Response` (`rdm_x_api.h` 43-52) as `memset(out, 0, sizeof(RDX_Response))`
leaves it: the `data` array has 231 elements. -/
structure RDX_Response where
  status : Int := 0
  nackReason : Int := 0
  dataLen : Int := 0
  data : List Nat := List.replicate 231 0
  latencyUs : Int := 0
  checksumValid : Bool := false
deriving DecidableEq

/-- `memcpy(dst, src + start, n)` on an array `dst`: element `i < n` becomes
`src[start + i]`, the elements from `n` on are kept.  A copy of more bytes than
`dst` has shows as a longer list. -/
def memcpyInto (dst src : List Nat) (start n : Nat) : List Nat :=
  (List.range n).map (fun i => src.getD (start + i) 0) ++ dst.drop n

/-- What `SendRDMCommand` makes of the received bytes (`rdm_x_api.cpp`
243-317), starting from the response `out` with its latency already set. -/
def fillResponse (out : RDX_Response) (rxLen : Int) (rxBuf : List Nat) : RDX_Response :=
  if rxLen ≤ 0 then { out with status := RDX_STATUS_TIMEOUT }
  else if rxLen ≥ 26 ∧ checksumValid rxBuf rxLen.toNat = false then
    let copyLen : Int := if rxLen > 231 then 231 else rxLen
    { out with checksumValid := false, status := RDX_STATUS_CHECKSUM_ERR,
               data := memcpyInto out.data rxBuf 0 copyLen.toNat, dataLen := copyLen }
  else
    let out1 := { out with checksumValid := checksumValid rxBuf rxLen.toNat }
    if rxLen < 24 then { out1 with status := RDX_STATUS_INVALID }
    else if rxBuf.getD 0 0 ≠ 0xCC then { out1 with status := RDX_STATUS_INVALID }
    else
      let respType := rxBuf.getD 16 0
      let pdl := rxBuf.getD 23 0
      if respType = 0x00 then
        if pdl > 0 ∧ (24 + pdl : Int) ≤ rxLen then
          let copyLen : Int := if pdl > 231 then 231 else pdl
          { out1 with status := RDX_STATUS_ACK,
                      data := memcpyInto out1.data rxBuf 24 copyLen.toNat, dataLen := copyLen }
        else { out1 with status := RDX_STATUS_ACK }
      else if respType = 0x01 then { out1 with status := RDX_STATUS_ACK_TIMER }
      else if respType = 0x02 then
        { out1 with status := RDX_STATUS_NACK,
                    nackReason := if pdl ≥ 2 then
                        (((rxBuf.getD 24 0 <<< 8) ||| rxBuf.getD 25 0 : Nat) : Int)
                      else out1.nackReason }
      else { out1 with status := RDX_STATUS_INVALID }

/-- `SendRDMCommand` (`rdm_x_api.cpp` 169-318) for a non-null `out`, over the
active driver `T`: session after the call (device state and the file's own
`s_transNum`), `*out`, and the return value.  `devOpen` is the driver's
`IsOpen()`, `srcUID` the value of `GetControllerUID()`, `latencyUs` the value
computed from the two timer readings. -/
def SendRDMCommand {σ : Type} (T : Transport σ) (devOpen : Bool) (s : Session σ)
    (srcUID destUID pid commandClass : Nat) (paramData : Option (List Nat)) (paramLen : Nat)
    (latencyUs : Int) : Session σ × RDX_Response × Bool :=
  let out : RDX_Response := {}
  if devOpen = false then (s, { out with status := RDX_STATUS_TIMEOUT }, false)
  else
    let pkt := BuildRDMPacket destUID srcUID s.transNum 1 0 0 commandClass pid paramData
      (paramLen % 256)
    let tn := (s.transNum + 1) % 256
    let sent := T.SendRDM (T.Purge s.dev) pkt
    if sent.2 = false then (⟨sent.1, tn⟩, { out with status := RDX_STATUS_TIMEOUT }, false)
    else
      let rx := T.ReceiveRDM sent.1 512
      (⟨rx.1, tn⟩, fillResponse { out with latencyUs := latencyUs } rx.2.1 rx.2.2, true)

/-! ## Parameter catalog loader (`src/src/parameter_loader.cpp`) -/

/-- `s.find_first_not_of(set)`: index of the first character not in `set`;
`none` is `npos`. -/
def findFirstNotOf (s set : List Char) : Option Nat :=
  match s with
  | [] => none
  | c :: cs => if c ∈ set then (findFirstNotOf cs set).map (fun i => i + 1) else some 0

/-- `s.find_last_not_of(set)`: index of the last character not in `set`. -/
def findLastNotOf (s set : List Char) : Option Nat :=
  match s with
  | [] => none
  | c :: cs =>
    match findLastNotOf cs set with
    | some i => some (i + 1)
    | none => if c ∈ set then none else some 0

/-- `Trim` (`parameter_loader.cpp` 11-16): `s.substr(start, end - start + 1)`,
or the empty string when every character is white space. -/
def Trim (s : List Char) : List Char :=
  match findFirstNotOf s " \t\r\n".data with
  | none => []
  | some start =>
    match findLastNotOf s " \t\r\n".data with
    | some last => (s.drop start).take (last - start + 1)
    | none => s.drop start

/-- `SplitCSVLine` (`parameter_loader.cpp` 19-38): the loop state is the fields
pushed so far, the field being read, and `inQuotes`. -/
def SplitCSVLine (line : List Char) : List (List Char) :=
  let st := line.foldl
    (fun (st : List (List Char) × List Char × Bool) c =>
      if c = '"' then (st.1, st.2.1, !st.2.2)
      else if c = ',' ∧ st.2.2 = false then (st.1 ++ [Trim st.2.1], [], st.2.2)
      else (st.1, st.2.1 ++ [c], st.2.2))
    ([], [], false)
  st.1 ++ [Trim st.2.1]

/-- `strtoul(str, nullptr, 16)` with a 32-bit `unsigned long`: white space is
skipped, an optional sign and an optional `0x` are accepted, the longest run of
hexadecimal digits is converted; no digit gives 0, a value above `ULONG_MAX`
gives `ULONG_MAX`, and a `-` negates in the unsigned type. -/
def strtoul16 (str : List Char) : Nat :=
  let signed := dropSign (str.dropWhile isSpaceC)
  let r := scanHexDigits (dropHexMark signed.2) 0 0
  if r.2.1 = 0 then 0
  else if r.1 > 4294967295 then 4294967295
  else if signed.1 then (4294967296 - r.1) % 4294967296
  else r.1

/-- `ParseHexPID` (`parameter_loader.cpp` 41-49); the result is a `uint16_t`. -/
def ParseHexPID (s : List Char) : Nat :=
  let cleaned0 := Trim s
  let cleaned :=
    if cleaned0.length ≥ 2 ∧ cleaned0.getD 0 ' ' = '0'
        ∧ (cleaned0.getD 1 ' ' = 'x' ∨ cleaned0.getD 1 ' ' = 'X') then
      cleaned0.drop 2
    else cleaned0
  if cleaned = [] then 0
  else strtoul16 (cleaned.takeWhile (fun c => c ≠ '\x00')) % 65536

/-- `hay.find(needle)`: index of the first occurrence, counted from `i`;
`none` is `npos`. -/
def stringFind (hay needle : List Char) (i : Nat) : Option Nat :=
  match hay with
  | [] => if needle = [] then some i else none
  | c :: cs =>
    if needle.isPrefixOf (c :: cs) then some i else stringFind cs needle (i + 1)

/-- The logical records of a file (`parameter_loader.cpp` 76-90): a record
ends at a newline that is not inside quotes; the quote characters stay in the
record; what follows the last newline is a record when it is not empty. -/
def splitRecords (content : List Char) : List (List Char) :=
  let st := content.foldl
    (fun (st : List (List Char) × List Char × Bool) c =>
      let inQ := if c = '"' then !st.2.2 else st.2.2
      if c = '\n' ∧ inQ = false then (st.1 ++ [st.2.1], [], inQ)
      else (st.1, st.2.1 ++ [c], inQ))
    ([], [], false)
  if st.2.1 ≠ [] then st.1 ++ [st.2.1] else st.1

/-- One pass of the loop body of `LoadParameters` (`parameter_loader.cpp`
94-114) on the record `rec`, with `params` the vector so far. -/
def loadRecord (params : List RDMParameter) (rec : List Char) : List RDMParameter :=
  let fields := SplitCSVLine rec
  if fields.length < 5 then params
  else
    let cmdClass := fields.getD 2 []
    if stringFind cmdClass "GET_COMMAND".data 0 = none then params
    else
      let pid := ParseHexPID (fields.getD 3 [])
      if pid = 0 then params
      else
        params ++ [{ pid := pid,
                     commandClass := String.mk cmdClass,
                     name := String.mk (fields.getD 4 []),
                     isMandatory := decide (Trim (fields.getD 1 []) = "Y".data),
                     description :=
                       if fields.length > 6 then String.mk (fields.getD 6 []) else "" }]

/-- `LoadParameters` (`parameter_loader.cpp` 62-118) on the content of the
file as read; `none` is a file that cannot be opened.  The loop starts at
record index 2. -/
def LoadParameters (file : Option (List Char)) : List RDMParameter :=
  match file with
  | none => []
  | some content => ((splitRecords content).drop 2).foldl loadRecord []

/-- The condition the catalog format puts on a record, on its fields: at
least five fields, `GET_COMMAND` inside field 2, and a PID in field 3 that
parses to a value other than 0. -/
def isGetRow (fields : List (List Char)) : Bool :=
  decide (5 ≤ fields.length) && decide ("GET_COMMAND".data <:+: fields.getD 2 [])
    && decide (ParseHexPID (fields.getD 3 []) ≠ 0)

/-- The parameter a qualifying record stands for. -/
def rowParameter (fields : List (List Char)) : RDMParameter :=
  { pid := ParseHexPID (fields.getD 3 []),
    commandClass := String.mk (fields.getD 2 []),
    name := String.mk (fields.getD 4 []),
    isMandatory := decide (Trim (fields.getD 1 []) = "Y".data),
    description := if fields.length > 6 then String.mk (fields.getD 6 []) else "" }

/-- The two header records of the repository's test fixtures. -/
def csvHeaders : String :=
  ",,Command Class,PID,Purpose,Payload,Description\n,Vaya Must have,,,,\n"

/-- A catalog with one SET row, one GET row without the mandatory mark, a
reserved row with PID 0, a GET row with a `0x` PID whose description is quoted
and spans two lines, and a GET row of four fields. -/
def csvMixed : String :=
  csvHeaders
    ++ ",Y,SET_COMMAND (0x30),0082,Set Device Label,Variable,See RDM Standard\n"
    ++ ",,GET_COMMAND (0x20),0060,Get Device Info,19 bytes,See RDM Standard\n"
    ++ ",,(reserved),0000,(reserved) - pad byte,,\n"
    ++ ", Y ,GET_COMMAND (0x20),0x00F0,Get DMX start address,2 bytes,\"first line,\nsecond\"\n"
    ++ ",Y,GET_COMMAND (0x20),0050\n"

/-! ## Arithmetic reading of the bit operations -/

theorem shr_and_ff (u k : Nat) : (u >>> k) &&& 0xFF = u / 2 ^ k % 256 := by
  rw [Nat.shiftRight_eq_div_pow]
  exact Nat.and_pow_two_sub_one_eq_mod _ 8

theorem and_ff (u : Nat) : u &&& 0xFF = u % 256 :=
  Nat.and_pow_two_sub_one_eq_mod u 8

theorem shl_or (a b k : Nat) (h : b < 2 ^ k) : (a <<< k) ||| b = a * 2 ^ k + b := by
  rw [Nat.shiftLeft_eq, Nat.mul_comm a, ← Nat.mul_add_lt_is_or h]

theorem xor_two_pow_cases (k : Nat) :
    ∀ b : Nat, b ^^^ 2 ^ k = b + 2 ^ k ∨ (b ^^^ 2 ^ k) + 2 ^ k = b := by
  induction k with
  | zero =>
    intro b
    have h1 : (b ^^^ 1) / 2 = b / 2 := by
      rw [Nat.xor_div_two]; simp
    have h2 := @Nat.xor_mod_two_eq_one b 1
    simp only [pow_zero]
    rcases Nat.mod_two_eq_zero_or_one b with hb | hb <;>
      rcases Nat.mod_two_eq_zero_or_one (b ^^^ 1) with hx | hx <;>
      simp [hb, hx] at h2 <;> omega
  | succ k ih =>
    intro b
    have h4 : 2 ^ (k + 1) = 2 * 2 ^ k := by rw [pow_succ]; ring
    rw [h4]
    have h1 : (b ^^^ 2 * 2 ^ k) / 2 = b / 2 ^^^ 2 ^ k := by
      rw [Nat.xor_div_two]; simp
    have h2 := @Nat.xor_mod_two_eq_one b (2 * 2 ^ k)
    have h3 : (2 * 2 ^ k) % 2 = 0 := by simp
    have h5 := ih (b / 2)
    rw [← h1] at h5
    generalize 2 ^ k = p at *
    generalize b ^^^ 2 * p = x at *
    rcases Nat.mod_two_eq_zero_or_one b with hb | hb <;>
      rcases Nat.mod_two_eq_zero_or_one x with hx | hx <;>
      simp [hb, hx] at h2 <;> omega

/-! ## Checksum as a sum -/

theorem RDMChecksum_succ (data : List Nat) (n : Nat) :
    RDMChecksum data (n + 1) = (RDMChecksum data n + data.getD n 0) % 65536 := by
  simp [RDMChecksum, List.range_succ, List.foldl_append]

theorem sum_take_succ (data : List Nat) (n : Nat) :
    (data.take (n + 1)).sum = (data.take n).sum + data.getD n 0 := by
  rw [List.take_succ, List.sum_append, List.getD_eq_getElem?_getD]
  cases data[n]? <;> simp

theorem RDMChecksum_eq_sum_take (data : List Nat) (len : Nat) :
    RDMChecksum data len = (data.take len).sum % 65536 := by
  induction len with
  | zero => simp [RDMChecksum]
  | succ n ih => rw [RDMChecksum_succ, sum_take_succ, ih]; omega


theorem RDMChecksum_lt (data : List Nat) (len : Nat) : RDMChecksum data len < 65536 := by
  rw [RDMChecksum_eq_sum_take]; omega

theorem RDMChecksum_append_left (a b : List Nat) :
    RDMChecksum (a ++ b) a.length = a.sum % 65536 := by
  rw [RDMChecksum_eq_sum_take, List.take_left]

theorem RDMChecksum_self (a : List Nat) : RDMChecksum a a.length = a.sum % 65536 := by
  rw [RDMChecksum_eq_sum_take, List.take_length]

theorem getD_append_at (a b : List Nat) (j : Nat) :
    (a ++ b).getD (a.length + j) 0 = b.getD j 0 := by
  simp [List.getD_eq_getElem?_getD, List.getElem?_append_right]

theorem getD_append_lt (a b : List Nat) (j : Nat) (h : j < a.length) :
    (a ++ b).getD j 0 = a.getD j 0 := by
  simp [List.getD_eq_getElem?_getD, List.getElem?_append_left h]

theorem hi_lo_eq (c : Nat) (h : c < 65536) :
    ((c >>> 8) &&& 0xFF) * 256 + (c &&& 0xFF) = c := by
  rw [shr_and_ff, and_ff]; omega

theorem hi_lo_or (c : Nat) (h : c < 65536) :
    ((((c >>> 8) &&& 0xFF) <<< 8) ||| (c &&& 0xFF)) % 65536 = c := by
  rw [shl_or _ _ 8 (by rw [and_ff]; omega)]
  have := hi_lo_eq c h
  omega

/-! ## Shape of a built packet -/

theorem paramBytes_length (paramData : Option (List Nat)) (paramLen : Nat) :
    (paramBytes paramData paramLen).length = paramLen := by
  cases paramData with
  | none => simp [paramBytes]
  | some d =>
    by_cases h : paramLen > 0 <;> simp [paramBytes, h]

theorem packetBody_length (destUID srcUID transNum portOrRespType msgCount subDevice
    commandClass pid : Nat) (paramData : Option (List Nat)) (paramLen : Nat) :
    (packetBody destUID srcUID transNum portOrRespType msgCount subDevice
      commandClass pid paramData paramLen).length = 24 + paramLen := by
  simp [packetBody, PackUID, paramBytes_length]; omega

theorem BuildRDMPacket_length (destUID srcUID transNum portOrRespType msgCount subDevice
    commandClass pid : Nat) (paramData : Option (List Nat)) (paramLen : Nat) :
    (BuildRDMPacket destUID srcUID transNum portOrRespType msgCount subDevice
      commandClass pid paramData paramLen).length = 26 + paramLen := by
  simp [BuildRDMPacket, packetBody_length]; omega

/-- A buffer made of a body and the two checksum bytes of a 16-bit value `c`
passes the received-packet check exactly when `c` is the body's checksum. -/
theorem checksumValid_body (body : List Nat) (c : Nat) (hc : c < 65536)
    (hlen : 24 ≤ body.length) :
    checksumValid (body ++ [(c >>> 8) &&& 0xFF, c &&& 0xFF]) (body.length + 2)
      = decide (c = body.sum % 65536) := by
  have h26 : body.length + 2 ≥ 26 := by omega
  simp only [checksumValid, h26, if_true, Nat.add_sub_cancel]
  have e0 := getD_append_at body [(c >>> 8) &&& 0xFF, c &&& 0xFF] 0
  have e1 := getD_append_at body [(c >>> 8) &&& 0xFF, c &&& 0xFF] 1
  simp only [Nat.add_zero, List.getD_cons_zero, List.getD_cons_succ] at e0 e1
  rw [e0, e1, hi_lo_or c hc, RDMChecksum_append_left]

/-- The checksum bytes of a built packet and the received-packet check. -/
theorem built_packet_checksum (destUID srcUID transNum portOrRespType msgCount
    subDevice commandClass pid : Nat) (paramData : Option (List Nat)) (paramLen : Nat)
    (hN : paramLen ≤ 255) :
    let pkt := BuildRDMPacket destUID srcUID transNum portOrRespType msgCount subDevice
      commandClass pid paramData paramLen
    pkt.getD (24 + paramLen) 0 * 256 + pkt.getD (24 + paramLen + 1) 0
        = RDMChecksum pkt (24 + paramLen)
      ∧ checksumValid pkt pkt.length = true := by
  intro pkt
  have hb := packetBody_length destUID srcUID transNum portOrRespType msgCount subDevice
    commandClass pid paramData paramLen
  generalize hbody : packetBody destUID srcUID transNum portOrRespType msgCount subDevice
    commandClass pid paramData paramLen = body at hb
  have hpkt : pkt = body ++ [(RDMChecksum body (24 + paramLen) >>> 8) &&& 0xFF,
      RDMChecksum body (24 + paramLen) &&& 0xFF] := by
    simp only [pkt, BuildRDMPacket, hbody]
  have hc := RDMChecksum_lt body (24 + paramLen)
  have hsum : RDMChecksum body (24 + paramLen) = body.sum % 65536 := by
    rw [← hb, RDMChecksum_self]
  generalize RDMChecksum body (24 + paramLen) = c at hpkt hc hsum
  constructor
  · have e0 := getD_append_at body [(c >>> 8) &&& 0xFF, c &&& 0xFF] 0
    have e1 := getD_append_at body [(c >>> 8) &&& 0xFF, c &&& 0xFF] 1
    simp only [Nat.add_zero, List.getD_cons_zero, List.getD_cons_succ, hb] at e0 e1
    rw [hpkt, e0, e1, hi_lo_eq c hc, ← hb, RDMChecksum_append_left, hsum]
  · have hl : pkt.length = body.length + 2 := by rw [hpkt]; simp
    rw [hl, hpkt, checksumValid_body body c hc (by omega)]
    simpa using hsum

/-- Claim C1: for all header fields and parameter data of length 0..255, the
last two bytes of the packet `BuildRDMPacket` returns, read big-endian, equal
`RDMChecksum` of the first `24 + N` bytes, and the received-packet checksum
check of `SendRDMCommand` accepts the packet. -/
theorem C1_built_packet_passes_checksum (destUID srcUID transNum portOrRespType msgCount
    subDevice commandClass pid : Nat) (paramData : Option (List Nat)) (paramLen : Nat)
    (pkt : List Nat)
    (hpkt : pkt = BuildRDMPacket destUID srcUID transNum portOrRespType msgCount subDevice
      commandClass pid paramData paramLen)
    (hN : paramLen ≤ 255) :
    pkt.getD (24 + paramLen) 0 * 256 + pkt.getD (24 + paramLen + 1) 0
        = RDMChecksum pkt (24 + paramLen)
      ∧ checksumValid pkt pkt.length = true := by
  subst hpkt
  exact built_packet_checksum destUID srcUID transNum portOrRespType msgCount subDevice
    commandClass pid paramData paramLen hN

/-- Witness for C1: the packet of the repository test `ChecksumCorrectWithParam`. -/
theorem C1_built_packet_passes_checksum_witness :
    12 ≤ 255
      ∧ (testBranchPacket.getD (24 + 12) 0 * 256 + testBranchPacket.getD (24 + 12 + 1) 0
            = RDMChecksum testBranchPacket (24 + 12)
          ∧ checksumValid testBranchPacket testBranchPacket.length = true) :=
  ⟨by decide,
   C1_built_packet_passes_checksum RDM_BROADCAST_UID 0x454E00000001 0x00 0x01 0x00 0x0000
     RDM_CC_DISCOVERY PID_DISC_UNIQUE_BRANCH
     (some [0x00, 0x00, 0xFF, 0xFF, 0xFF, 0xFF, 0xFF, 0xFF, 0x00, 0x00, 0xFF, 0xFF]) 12
     testBranchPacket rfl (by decide)⟩

/-! ## Single-bit corruption -/

theorem sum_set_add (l : List Nat) (i c : Nat) (h : i < l.length) :
    (l.set i c).sum + l.getD i 0 = l.sum + c := by
  induction l generalizing i with
  | nil => simp at h
  | cons a t ih =>
    cases i with
    | zero => simp; omega
    | succ j =>
      have := ih j (by simpa using h)
      simp only [List.set_cons_succ, List.sum_cons, List.getD_cons_succ]
      omega

theorem two_pow_le_128 (k : Nat) (hk : k < 8) : 1 ≤ 2 ^ k ∧ 2 ^ k ≤ 128 := by
  constructor
  · exact Nat.one_le_two_pow
  · calc 2 ^ k ≤ 2 ^ 7 := Nat.pow_le_pow_right (by decide) (by omega)
      _ = 128 := by norm_num

theorem flipBit_sum_ne (body : List Nat) (i k : Nat) (hi : i < body.length) (hk : k < 8) :
    body.sum % 65536 ≠ (body.set i (body.getD i 0 ^^^ 2 ^ k)).sum % 65536 := by
  have hs := sum_set_add body i (body.getD i 0 ^^^ 2 ^ k) hi
  have hp := two_pow_le_128 k hk
  rcases xor_two_pow_cases k (body.getD i 0) with h | h <;> omega

theorem flipBit_append (body tail : List Nat) (i k : Nat) (hi : i < body.length) :
    flipBit (body ++ tail) i k = body.set i (body.getD i 0 ^^^ 2 ^ k) ++ tail := by
  unfold flipBit
  rw [getD_append_lt body tail i hi, List.set_append, if_pos hi]

/-- A single flipped bit in the covered bytes of a built packet. -/
theorem built_packet_bit_flip (destUID srcUID transNum portOrRespType msgCount
    subDevice commandClass pid : Nat) (paramData : Option (List Nat)) (paramLen : Nat)
    (hN : paramLen ≤ 255) (i k : Nat) (hi : i < 24 + paramLen) (hk : k < 8) :
    let pkt := BuildRDMPacket destUID srcUID transNum portOrRespType msgCount subDevice
      commandClass pid paramData paramLen
    let bad := flipBit pkt i k
    bad.getD (24 + paramLen) 0 * 256 + bad.getD (24 + paramLen + 1) 0
        ≠ RDMChecksum bad (24 + paramLen)
      ∧ checksumValid bad bad.length = false := by
  intro pkt bad
  have hb := packetBody_length destUID srcUID transNum portOrRespType msgCount subDevice
    commandClass pid paramData paramLen
  generalize hbody : packetBody destUID srcUID transNum portOrRespType msgCount subDevice
    commandClass pid paramData paramLen = body at hb
  have hpkt : pkt = body ++ [(RDMChecksum body (24 + paramLen) >>> 8) &&& 0xFF,
      RDMChecksum body (24 + paramLen) &&& 0xFF] := by
    simp only [pkt, BuildRDMPacket, hbody]
  have hc := RDMChecksum_lt body (24 + paramLen)
  have hsum : RDMChecksum body (24 + paramLen) = body.sum % 65536 := by
    rw [← hb, RDMChecksum_self]
  generalize RDMChecksum body (24 + paramLen) = c at hpkt hc hsum
  have hi2 : i < body.length := by omega
  have hbad : bad = body.set i (body.getD i 0 ^^^ 2 ^ k) ++ [(c >>> 8) &&& 0xFF, c &&& 0xFF] := by
    simp only [bad, hpkt]; exact flipBit_append body _ i k hi2
  have hne := flipBit_sum_ne body i k hi2 hk
  generalize hbody2 : body.set i (body.getD i 0 ^^^ 2 ^ k) = body2 at hbad hne
  have hb2 : body2.length = 24 + paramLen := by rw [← hbody2]; simpa using hb
  constructor
  · have e0 := getD_append_at body2 [(c >>> 8) &&& 0xFF, c &&& 0xFF] 0
    have e1 := getD_append_at body2 [(c >>> 8) &&& 0xFF, c &&& 0xFF] 1
    simp only [Nat.add_zero, List.getD_cons_zero, List.getD_cons_succ, hb2] at e0 e1
    rw [hbad, e0, e1, hi_lo_eq c hc, ← hb2, RDMChecksum_append_left, hsum]
    exact hne
  · have hl : bad.length = body2.length + 2 := by rw [hbad]; simp
    rw [hl, hbad, checksumValid_body body2 c hc (by omega), hsum]
    simpa using hne

/-- Claim C2: flipping any single bit in any of the first `24 + N` bytes of a
packet produced by `BuildRDMPacket` gives a buffer whose trailing big-endian
16-bit value differs from `RDMChecksum` of the preceding `24 + N` bytes, so the
received-packet checksum check rejects it. -/
theorem C2_single_bit_flip_rejected (destUID srcUID transNum portOrRespType msgCount
    subDevice commandClass pid : Nat) (paramData : Option (List Nat)) (paramLen : Nat)
    (pkt bad : List Nat) (i k : Nat)
    (hpkt : pkt = BuildRDMPacket destUID srcUID transNum portOrRespType msgCount subDevice
      commandClass pid paramData paramLen)
    (hbad : bad = flipBit pkt i k)
    (hN : paramLen ≤ 255) (hi : i < 24 + paramLen) (hk : k < 8) :
    bad.getD (24 + paramLen) 0 * 256 + bad.getD (24 + paramLen + 1) 0
        ≠ RDMChecksum bad (24 + paramLen)
      ∧ checksumValid bad bad.length = false := by
  subst hpkt
  subst hbad
  exact built_packet_bit_flip destUID srcUID transNum portOrRespType msgCount subDevice
    commandClass pid paramData paramLen hN i k hi hk

/-- Witness for C2: bit 0 of the start code of the `ChecksumCorrectWithParam`
test packet is flipped. -/
theorem C2_single_bit_flip_rejected_witness :
    (12 ≤ 255 ∧ 0 < 24 + 12 ∧ 0 < 8)
      ∧ ((flipBit testBranchPacket 0 0).getD (24 + 12) 0 * 256
              + (flipBit testBranchPacket 0 0).getD (24 + 12 + 1) 0
            ≠ RDMChecksum (flipBit testBranchPacket 0 0) (24 + 12)
          ∧ checksumValid (flipBit testBranchPacket 0 0) (flipBit testBranchPacket 0 0).length
            = false) :=
  ⟨⟨by decide, by decide, by decide⟩,
   C2_single_bit_flip_rejected RDM_BROADCAST_UID 0x454E00000001 0x00 0x01 0x00 0x0000
     RDM_CC_DISCOVERY PID_DISC_UNIQUE_BRANCH
     (some [0x00, 0x00, 0xFF, 0xFF, 0xFF, 0xFF, 0xFF, 0xFF, 0x00, 0x00, 0xFF, 0xFF]) 12
     testBranchPacket (flipBit testBranchPacket 0 0) 0 0 rfl rfl
     (by decide) (by decide) (by decide)⟩

/-- Claim C5: `RDMChecksum` over a whole byte sequence is the sum of its bytes
modulo 65536; it is 0 on the empty sequence and wraps silently, 258 bytes of
`0xFF` giving `(258 * 255) mod 65536`. -/
theorem C5_checksum_is_sum_mod_65536 (data : List Nat) :
    RDMChecksum data data.length = data.sum % 65536
      ∧ RDMChecksum [] 0 = 0
      ∧ RDMChecksum (List.replicate 258 0xFF) 258 = (258 * 255) % 65536 := by
  refine ⟨RDMChecksum_self data, rfl, ?_⟩
  have h := RDMChecksum_self (List.replicate 258 0xFF)
  rw [List.length_replicate] at h
  rw [h, List.sum_replicate, smul_eq_mul]


/-! ## Wire layout and field round trip -/

theorem map_getD_range (d : List Nat) :
    (List.range d.length).map (fun i => d.getD i 0) = d := by
  apply List.ext_getElem
  · simp
  · intro i h1 h2
    simp at h1
    simp [List.getD_eq_getElem?_getD, List.getElem?_eq_getElem h1]

theorem paramBytes_eq_data (paramData : Option (List Nat)) (paramLen : Nat)
    (hlen : paramLen = (dataOf paramData).length) :
    paramBytes paramData paramLen = dataOf paramData := by
  cases paramData with
  | none => simp [dataOf] at hlen; simp [paramBytes, dataOf, hlen]
  | some d =>
    simp only [dataOf, Option.getD_some] at hlen ⊢
    by_cases h : paramLen > 0
    · simp only [paramBytes, h, if_true]; rw [hlen]; exact map_getD_range d
    · have h0 : paramLen = 0 := by omega
      have hd : d = [] := List.eq_nil_of_length_eq_zero (by omega)
      simp [paramBytes, h0, hd]

theorem PackUID_eq_bigEndian (u : Nat) : PackUID u = bigEndian 6 u := by
  simp only [PackUID, bigEndian, and_ff, Nat.shiftRight_eq_div_pow, List.nil_append,
    List.cons_append]
  have e1 : u / 256 / 256 / 256 / 256 / 256 % 256 = u / 2 ^ 40 % 256 := by
    simp only [Nat.div_div_eq_div_mul]; norm_num
  have e2 : u / 256 / 256 / 256 / 256 % 256 = u / 2 ^ 32 % 256 := by
    simp only [Nat.div_div_eq_div_mul]; norm_num
  have e3 : u / 256 / 256 / 256 % 256 = u / 2 ^ 24 % 256 := by
    simp only [Nat.div_div_eq_div_mul]; norm_num
  have e4 : u / 256 / 256 % 256 = u / 2 ^ 16 % 256 := by
    simp only [Nat.div_div_eq_div_mul]; norm_num
  have e5 : u / 256 % 256 = u / 2 ^ 8 % 256 := by norm_num
  rw [e1, e2, e3, e4, e5]

theorem word_eq_bigEndian (w : Nat) :
    [(w >>> 8) &&& 0xFF, w &&& 0xFF] = bigEndian 2 w := by
  simp only [bigEndian, and_ff, Nat.shiftRight_eq_div_pow, List.nil_append, List.cons_append]

theorem or_eq_add (k a b : Nat) (ha : a % 2 ^ k = 0) (hb : b < 2 ^ k) : a ||| b = a + b := by
  have h : a = 2 ^ k * (a / 2 ^ k) := by
    have := Nat.div_add_mod a (2 ^ k)
    omega
  rw [h, ← Nat.mul_add_lt_is_or hb]

theorem UnpackUID_bytes (b0 b1 b2 b3 b4 b5 : Nat) (rest : List Nat)
    (h1 : b1 < 256) (h2 : b2 < 256) (h3 : b3 < 256) (h4 : b4 < 256)
    (h5 : b5 < 256) :
    UnpackUID (b0 :: b1 :: b2 :: b3 :: b4 :: b5 :: rest)
      = b0 * 2 ^ 40 + b1 * 2 ^ 32 + b2 * 2 ^ 24 + b3 * 2 ^ 16 + b4 * 2 ^ 8 + b5 := by
  simp only [UnpackUID, List.getD_cons_zero, List.getD_cons_succ, Nat.shiftLeft_eq]
  rw [or_eq_add 40 (b0 * 2 ^ 40) (b1 * 2 ^ 32) (by norm_num) (by norm_num; omega)]
  rw [or_eq_add 32 _ (b2 * 2 ^ 24) (by norm_num; omega) (by norm_num; omega)]
  rw [or_eq_add 24 _ (b3 * 2 ^ 16) (by norm_num; omega) (by norm_num; omega)]
  rw [or_eq_add 16 _ (b4 * 2 ^ 8) (by norm_num; omega) (by norm_num; omega)]
  rw [or_eq_add 8 _ b5 (by norm_num; omega) (by norm_num; omega)]

theorem UnpackUID_PackUID (u : Nat) (h : u < 2 ^ 48) (rest : List Nat) :
    UnpackUID (PackUID u ++ rest) = u := by
  simp only [PackUID, and_ff, Nat.shiftRight_eq_div_pow, List.cons_append, List.nil_append]
  rw [UnpackUID_bytes _ _ _ _ _ _ rest (Nat.mod_lt _ (by decide))
    (Nat.mod_lt _ (by decide)) (Nat.mod_lt _ (by decide)) (Nat.mod_lt _ (by decide))
    (Nat.mod_lt _ (by decide))]
  norm_num at h ⊢
  omega

theorem BuildRDMPacket_layout (destUID srcUID transNum portOrRespType msgCount subDevice
    commandClass pid : Nat) (paramData : Option (List Nat)) (paramLen : Nat)
    (hlen : paramLen = (dataOf paramData).length) :
    ∃ c0 c1 : Nat,
      BuildRDMPacket destUID srcUID transNum portOrRespType msgCount subDevice
        commandClass pid paramData paramLen
      = [RDM_START_CODE, RDM_SUB_START, (24 + paramLen) % 256]
          ++ (PackUID destUID
          ++ (PackUID srcUID
          ++ ([transNum, portOrRespType, msgCount]
          ++ ([(subDevice >>> 8) &&& 0xFF, subDevice &&& 0xFF]
          ++ ([commandClass]
          ++ ([(pid >>> 8) &&& 0xFF, pid &&& 0xFF]
          ++ ([paramLen]
          ++ (dataOf paramData ++ [c0, c1])))))))) := by
  refine ⟨(RDMChecksum (packetBody destUID srcUID transNum portOrRespType msgCount subDevice
      commandClass pid paramData paramLen) (24 + paramLen) >>> 8) &&& 0xFF,
    RDMChecksum (packetBody destUID srcUID transNum portOrRespType msgCount subDevice
      commandClass pid paramData paramLen) (24 + paramLen) &&& 0xFF, ?_⟩
  simp only [BuildRDMPacket, packetBody, paramBytes_eq_data paramData paramLen hlen,
    List.append_assoc, List.cons_append, List.nil_append]

/-- Reading the header fields and the parameter data back from a built packet. -/
theorem BuildRDMPacket_fields (destUID srcUID transNum portOrRespType msgCount subDevice
    commandClass pid : Nat) (paramData : Option (List Nat)) (paramLen : Nat)
    (hdest : destUID < 2 ^ 48) (hsrc : srcUID < 2 ^ 48)
    (hsub : subDevice < 65536) (hpid : pid < 65536)
    (hlen : paramLen = (dataOf paramData).length) :
    let pkt := BuildRDMPacket destUID srcUID transNum portOrRespType msgCount subDevice
      commandClass pid paramData paramLen
    UnpackUID (pkt.drop 3) = destUID
      ∧ UnpackUID (pkt.drop 9) = srcUID
      ∧ pkt.getD 15 0 = transNum
      ∧ pkt.getD 16 0 = portOrRespType
      ∧ pkt.getD 17 0 = msgCount
      ∧ pkt.getD 18 0 * 256 + pkt.getD 19 0 = subDevice
      ∧ pkt.getD 20 0 = commandClass
      ∧ pkt.getD 21 0 * 256 + pkt.getD 22 0 = pid
      ∧ pkt.getD 23 0 = paramLen
      ∧ (pkt.drop 24).take (pkt.getD 23 0) = dataOf paramData := by
  intro pkt
  obtain ⟨c0, c1, h⟩ := BuildRDMPacket_layout destUID srcUID transNum portOrRespType
    msgCount subDevice commandClass pid paramData paramLen hlen
  have hp : pkt = _ := h
  have hd := UnpackUID_PackUID destUID hdest
  have hs := UnpackUID_PackUID srcUID hsrc
  rw [hp]
  generalize dataOf paramData = data at *
  simp only [PackUID, List.cons_append, List.nil_append] at hd hs ⊢
  simp only [List.drop_succ_cons, List.drop_zero, List.getD_cons_succ, List.getD_cons_zero]
  refine ⟨hd _, hs _, trivial, trivial, trivial, ?_, trivial, ?_, trivial,
    List.take_left' hlen.symm⟩
  · rw [shr_and_ff, and_ff]; omega
  · rw [shr_and_ff, and_ff]; omega

/-- The parameter data of a built packet, followed by the two checksum bytes,
start at offset 24. -/
theorem BuildRDMPacket_drop24 (destUID srcUID transNum portOrRespType msgCount subDevice
    commandClass pid : Nat) (paramData : Option (List Nat)) (paramLen : Nat)
    (hlen : paramLen = (dataOf paramData).length) :
    ∃ c0 c1 : Nat,
      (BuildRDMPacket destUID srcUID transNum portOrRespType msgCount subDevice
        commandClass pid paramData paramLen).drop 24 = dataOf paramData ++ [c0, c1] := by
  obtain ⟨c0, c1, h⟩ := BuildRDMPacket_layout destUID srcUID transNum portOrRespType
    msgCount subDevice commandClass pid paramData paramLen hlen
  refine ⟨c0, c1, ?_⟩
  rw [h]
  simp only [PackUID, List.cons_append, List.nil_append, List.drop_succ_cons, List.drop_zero]

/-- Claim C3: for UIDs below 2^48, in-range header fields and parameter data of
length `N ≤ 231`, reading the fields back from the output of `BuildRDMPacket`
at the wire-layout offsets returns exactly the encoded values. -/
theorem C3_fields_read_back (destUID srcUID transNum portOrRespType msgCount subDevice
    commandClass pid : Nat) (paramData : Option (List Nat)) (paramLen : Nat)
    (pkt : List Nat)
    (hpkt : pkt = BuildRDMPacket destUID srcUID transNum portOrRespType msgCount subDevice
      commandClass pid paramData paramLen)
    (hdest : destUID < 2 ^ 48) (hsrc : srcUID < 2 ^ 48)
    (hsub : subDevice < 65536) (hpid : pid < 65536)
    (hlen : paramLen = (dataOf paramData).length) (hN : paramLen ≤ 231) :
    UnpackUID (pkt.drop 3) = destUID
      ∧ UnpackUID (pkt.drop 9) = srcUID
      ∧ pkt.getD 15 0 = transNum
      ∧ pkt.getD 16 0 = portOrRespType
      ∧ pkt.getD 17 0 = msgCount
      ∧ pkt.getD 18 0 * 256 + pkt.getD 19 0 = subDevice
      ∧ pkt.getD 20 0 = commandClass
      ∧ pkt.getD 21 0 * 256 + pkt.getD 22 0 = pid
      ∧ pkt.getD 23 0 = paramLen
      ∧ (pkt.drop 24).take (pkt.getD 23 0) = dataOf paramData := by
  subst hpkt
  exact BuildRDMPacket_fields destUID srcUID transNum portOrRespType msgCount subDevice
    commandClass pid paramData paramLen hdest hsrc hsub hpid hlen

/-- Witness for C3: a GET of `DEVICE_INFO` carrying three data bytes. -/
theorem C3_fields_read_back_witness :
    (0xAABBCCDDEEFF < 2 ^ 48 ∧ 0x112233445566 < 2 ^ 48 ∧ 0x1234 < 65536
        ∧ PID_DEVICE_INFO < 65536 ∧ 3 = (dataOf (some [0xDE, 0xAD, 0xBE])).length ∧ 3 ≤ 231)
      ∧ (UnpackUID (testFieldsPacket.drop 3) = 0xAABBCCDDEEFF
          ∧ UnpackUID (testFieldsPacket.drop 9) = 0x112233445566
          ∧ testFieldsPacket.getD 15 0 = 0xAB
          ∧ testFieldsPacket.getD 16 0 = 0x05
          ∧ testFieldsPacket.getD 17 0 = 0x03
          ∧ testFieldsPacket.getD 18 0 * 256 + testFieldsPacket.getD 19 0 = 0x1234
          ∧ testFieldsPacket.getD 20 0 = RDM_CC_GET
          ∧ testFieldsPacket.getD 21 0 * 256 + testFieldsPacket.getD 22 0 = PID_DEVICE_INFO
          ∧ testFieldsPacket.getD 23 0 = 3
          ∧ (testFieldsPacket.drop 24).take (testFieldsPacket.getD 23 0)
              = dataOf (some [0xDE, 0xAD, 0xBE])) :=
  ⟨⟨by decide, by decide, by decide, by decide, rfl, by decide⟩,
   C3_fields_read_back 0xAABBCCDDEEFF 0x112233445566 0xAB 0x05 0x03 0x1234
     RDM_CC_GET PID_DEVICE_INFO (some [0xDE, 0xAD, 0xBE]) 3 testFieldsPacket rfl
     (by decide) (by decide) (by decide) (by decide) rfl (by decide)⟩

/-- Length and leading bytes of a built packet. -/
theorem built_packet_layout (destUID srcUID transNum portOrRespType msgCount subDevice
    commandClass pid : Nat) (paramData : Option (List Nat)) (paramLen : Nat)
    (hlen : paramLen = (dataOf paramData).length) (hN : paramLen ≤ 231) :
    let pkt := BuildRDMPacket destUID srcUID transNum portOrRespType msgCount subDevice
      commandClass pid paramData paramLen
    pkt.length = 26 + paramLen
      ∧ pkt.take (24 + paramLen)
        = [0xCC, 0x01, 24 + paramLen]
            ++ bigEndian 6 destUID
            ++ bigEndian 6 srcUID
            ++ [transNum, portOrRespType, msgCount]
            ++ bigEndian 2 subDevice
            ++ [commandClass]
            ++ bigEndian 2 pid
            ++ [paramLen]
            ++ dataOf paramData := by
  intro pkt
  refine ⟨BuildRDMPacket_length _ _ _ _ _ _ _ _ _ _, ?_⟩
  have hb := packetBody_length destUID srcUID transNum portOrRespType msgCount subDevice
    commandClass pid paramData paramLen
  have hp : pkt = packetBody destUID srcUID transNum portOrRespType msgCount subDevice
      commandClass pid paramData paramLen ++ _ := rfl
  rw [hp, List.take_left' hb]
  have hm : (24 + paramLen) % 256 = 24 + paramLen := Nat.mod_eq_of_lt (by omega)
  simp only [packetBody, paramBytes_eq_data paramData paramLen hlen, hm,
    PackUID_eq_bigEndian, ← word_eq_bigEndian, RDM_START_CODE, RDM_SUB_START,
    List.append_assoc, List.cons_append, List.nil_append]

/-- Claim C4: for parameter data of length `N ≤ 231`, `BuildRDMPacket` returns
exactly `26 + N` bytes whose first `24 + N` are `0xCC`, `0x01`, `24 + N`, the
destination and source UIDs big-endian, transaction number, port, message
count, sub-device big-endian, command class, PID big-endian, `N`, and the
parameter data. -/
theorem C4_wire_layout (destUID srcUID transNum portOrRespType msgCount subDevice
    commandClass pid : Nat) (paramData : Option (List Nat)) (paramLen : Nat)
    (pkt : List Nat)
    (hpkt : pkt = BuildRDMPacket destUID srcUID transNum portOrRespType msgCount subDevice
      commandClass pid paramData paramLen)
    (hlen : paramLen = (dataOf paramData).length) (hN : paramLen ≤ 231) :
    pkt.length = 26 + paramLen
      ∧ pkt.take (24 + paramLen)
        = [0xCC, 0x01, 24 + paramLen]
            ++ bigEndian 6 destUID
            ++ bigEndian 6 srcUID
            ++ [transNum, portOrRespType, msgCount]
            ++ bigEndian 2 subDevice
            ++ [commandClass]
            ++ bigEndian 2 pid
            ++ [paramLen]
            ++ dataOf paramData := by
  subst hpkt
  exact built_packet_layout destUID srcUID transNum portOrRespType msgCount subDevice
    commandClass pid paramData paramLen hlen hN

/-- Witness for C4: the GET for PID `0x0060` to `AABB:CCDDEEFF` from
`1122:33445566`, transaction number 0, no data; the whole 26-byte packet is
spelled out. -/
theorem C4_wire_layout_witness :
    (0 = (dataOf none).length ∧ 0 ≤ 231)
      ∧ (scenarioPacket.length = 26 + 0
          ∧ scenarioPacket.take (24 + 0)
            = [0xCC, 0x01, 24 + 0]
                ++ bigEndian 6 0xAABBCCDDEEFF
                ++ bigEndian 6 0x112233445566
                ++ [0, 0, 0]
                ++ bigEndian 2 0
                ++ [0x20]
                ++ bigEndian 2 0x0060
                ++ [0]
                ++ dataOf none)
      ∧ scenarioPacket
          = [0xCC, 0x01, 24, 0xAA, 0xBB, 0xCC, 0xDD, 0xEE, 0xFF,
             0x11, 0x22, 0x33, 0x44, 0x55, 0x66, 0, 0, 0, 0, 0, 0x20, 0x00, 0x60, 0,
             0x07, 0xC5] :=
  ⟨⟨rfl, by decide⟩,
   C4_wire_layout 0xAABBCCDDEEFF 0x112233445566 0 0 0 0 0x20 0x0060 none 0 scenarioPacket
     rfl rfl (by decide),
   by decide⟩

/-! ## Termination and depth bound of `DiscoverBranch` -/

theorem DiscoverBranch_base {σ : Type} (T : Transport σ) (srcUID : Nat) (s : Session σ)
    (lower upper : Nat) (found : List Nat) (depth : Nat) (h : depth ≥ 48) :
    DiscoverBranch T srcUID s lower upper found depth = (s, found) := by
  rw [DiscoverBranch, if_pos h]

theorem DiscoverBranchLog_base {σ : Type} (T : Transport σ) (srcUID : Nat) (s : Session σ)
    (lower upper : Nat) (found : List Nat) (depth : Nat) (h : depth ≥ 48) :
    DiscoverBranchLog T srcUID s lower upper found depth = (s, found, []) := by
  rw [DiscoverBranchLog, if_pos h]

theorem DiscoverBranchLog_spec {σ : Type} (T : Transport σ) (srcUID : Nat) :
    ∀ (n depth : Nat), 48 - depth = n →
      ∀ (s : Session σ) (lower upper : Nat) (found : List Nat),
        let out := DiscoverBranchLog T srcUID s lower upper found depth
        (out.1, out.2.1) = DiscoverBranch T srcUID s lower upper found depth
          ∧ (∀ c ∈ out.2.2, c.depth ≤ 48 ∧ depth < c.depth)
          ∧ out.2.2.length + 2 ≤ 2 ^ (n + 1) := by
  intro n
  induction n with
  | zero =>
    intro depth hn s lower upper found
    have h : depth ≥ 48 := by omega
    simp [DiscoverBranchLog_base T srcUID s lower upper found depth h,
      DiscoverBranch_base T srcUID s lower upper found depth h]
  | succ n ih =>
    intro depth hn s lower upper found
    have h : ¬ depth ≥ 48 := by omega
    have hn1 : 48 - (depth + 1) = n := by omega
    have hp : 2 ^ (n + 1 + 1) = 2 * 2 ^ (n + 1) := by rw [pow_succ]; ring
    have hp1 : 1 ≤ 2 ^ (n + 1) := Nat.one_le_two_pow
    rw [DiscoverBranchLog, DiscoverBranch]
    simp only [if_neg h]
    generalize TryDiscBranch T s srcUID lower upper 0 = r
    by_cases h1 : r.2.1 = -1
    · simp only [if_pos h1]
      refine ⟨trivial, ?_, ?_⟩
      · intro c hc; simp at hc
      · simp; omega
    · simp only [if_neg h1]
      by_cases h2 : r.2.1 = 1
      · simp only [if_pos h2]
        obtain ⟨e, hd, hl⟩ := ih (depth + 1) hn1 (SendDiscMute T r.1 srcUID r.2.2).1
          lower upper (found ++ [r.2.2])
        refine ⟨e, ?_, ?_⟩
        · intro c hc
          rcases List.mem_cons.mp hc with hc | hc
          · subst hc; simp; omega
          · have := hd c hc; omega
        · simp only [List.length_cons]; omega
      · simp only [if_neg h2]
        by_cases h3 : r.2.1 = 0
        · simp only [if_pos h3]
          by_cases h4 : lower ≥ upper
          · simp only [if_pos h4]
            refine ⟨trivial, ?_, ?_⟩
            · intro c hc; simp at hc
            · simp; omega
          · simp only [if_neg h4]
            obtain ⟨e1, hd1, hl1⟩ := ih (depth + 1) hn1 r.1 lower
              (lower + (upper - lower) / 2) found
            generalize DiscoverBranchLog T srcUID r.1 lower (lower + (upper - lower) / 2)
              found (depth + 1) = left at e1 hd1 hl1
            rw [← e1]
            obtain ⟨e2, hd2, hl2⟩ := ih (depth + 1) hn1 left.1
              (lower + (upper - lower) / 2 + 1) upper left.2.1
            refine ⟨e2, ?_, ?_⟩
            · intro c hc
              simp only [List.cons_append, List.mem_cons, List.mem_append] at hc
              rcases hc with hc | hc | hc | hc
              · subst hc; simp; omega
              · have := hd1 c hc; omega
              · subst hc; simp; omega
              · have := hd2 c hc; omega
            · simp only [List.cons_append, List.length_cons, List.length_append]
              omega
        · simp only [if_neg h3]
          refine ⟨trivial, ?_, ?_⟩
          · intro c hc; simp at hc
          · simp; omega

/-- Claim C8: for every transport (any device state type and any behaviour of
its operations) and every range, `DiscoverBranch` is a total function whose
run makes a bounded number of recursive calls (fewer than `2 ^ 49`), and the
depth argument of every recursive call is at most 48.  The call log is that of
`DiscoverBranchLog`, whose state and found list are those of `DiscoverBranch`. -/
theorem C8_discover_branch_terminates_depth_le_48 {σ : Type} (T : Transport σ)
    (srcUID : Nat) (s : Session σ) (lower upper : Nat) (found : List Nat) (depth : Nat) :
    ((DiscoverBranchLog T srcUID s lower upper found depth).1,
      (DiscoverBranchLog T srcUID s lower upper found depth).2.1)
        = DiscoverBranch T srcUID s lower upper found depth
      ∧ (∀ c ∈ (DiscoverBranchLog T srcUID s lower upper found depth).2.2, c.depth ≤ 48)
      ∧ (DiscoverBranchLog T srcUID s lower upper found depth).2.2.length < 2 ^ 49 := by
  obtain ⟨e, hd, hl⟩ := DiscoverBranchLog_spec T srcUID (48 - depth) depth rfl s lower upper
    found
  refine ⟨e, fun c hc => (hd c hc).1, ?_⟩
  have hle : 2 ^ (48 - depth + 1) ≤ 2 ^ 49 := Nat.pow_le_pow_right (by decide) (by omega)
  have : (DiscoverBranchLog T srcUID s lower upper found depth).2.2.length + 2
      ≤ 2 ^ (48 - depth + 1) := hl
  omega

/-! ## Decoding a discovery response -/

set_option maxRecDepth 100000 in
theorem pair_decode : ∀ x < 256, ((x ||| 0xAA) &&& 0x55) ||| ((x ||| 0x55) &&& 0xAA) = x := by
  decide

theorem getD_replicate_append (k v : Nat) (rest : List Nat) (j : Nat) (hj : j < k) :
    (List.replicate k v ++ rest).getD j 0 = v := by
  rw [getD_append_lt _ _ _ (by simpa using hj)]
  simp [List.getD_eq_getElem?_getD, List.getElem?_replicate, hj]

theorem getD_replicate_append_at (k v : Nat) (rest : List Nat) (j : Nat) :
    (List.replicate k v ++ rest).getD (k + j) 0 = rest.getD j 0 := by
  have h := getD_append_at (List.replicate k v) rest j
  simpa using h

theorem stripPreamble_replicate (k : Nat) (rest : List Nat) (n : Nat)
    (hn : k < n) (hx : rest.getD 0 0 ≠ 0xFE) :
    ∀ (fuel j : Nat), j ≤ k → k - j < fuel →
      stripPreamble (List.replicate k 0xFE ++ rest) n fuel j = k := by
  intro fuel
  induction fuel with
  | zero => intro j _ h; omega
  | succ f ih =>
    intro j hj hf
    rw [stripPreamble]
    by_cases hjk : j < k
    · have hg := getD_replicate_append k 0xFE rest j hjk
      rw [if_pos ⟨by omega, hg⟩]
      exact ih (j + 1) (by omega) (by omega)
    · have hjk2 : j = k := by omega
      subst hjk2
      have hg := getD_replicate_append_at j 0xFE rest 0
      rw [Nat.add_zero] at hg
      rw [if_neg]
      rintro ⟨_, h2⟩
      rw [hg] at h2
      exact hx h2

/-- The fuel `rxLen` is enough for the preamble loop: the value returned is
where the `while` condition first fails, and every byte skipped is `0xFE`. -/
theorem stripPreamble_stops (rxBuf : List Nat) (rxLen : Nat) :
    ∀ (fuel offset : Nat), rxLen - offset ≤ fuel →
      offset ≤ stripPreamble rxBuf rxLen fuel offset
        ∧ ¬ (stripPreamble rxBuf rxLen fuel offset < rxLen
            ∧ rxBuf.getD (stripPreamble rxBuf rxLen fuel offset) 0 = 0xFE)
        ∧ ∀ j, offset ≤ j → j < stripPreamble rxBuf rxLen fuel offset →
            rxBuf.getD j 0 = 0xFE := by
  intro fuel
  induction fuel with
  | zero =>
    intro offset h
    rw [stripPreamble]
    refine ⟨Nat.le_refl _, ?_, ?_⟩
    · rintro ⟨h1, _⟩; omega
    · intro j h1 h2; omega
  | succ f ih =>
    intro offset h
    rw [stripPreamble]
    by_cases hc : offset < rxLen ∧ rxBuf.getD offset 0 = 0xFE
    · rw [if_pos hc]
      obtain ⟨h1, h2, h3⟩ := ih (offset + 1) (by omega)
      refine ⟨by omega, h2, ?_⟩
      intro j hj1 hj2
      by_cases hj : j = offset
      · rw [hj]; exact hc.2
      · exact h3 j (by omega) hj2
    · rw [if_neg hc]
      refine ⟨Nat.le_refl _, hc, ?_⟩
      intro j h1 h2; omega

theorem decodePairs_append_pre (pre rest : List Nat) :
    decodePairs (pre ++ rest) pre.length = decodePairs rest 0 := by
  simp only [decodePairs, Nat.add_assoc, getD_append_at, Nat.zero_add]

theorem decodePairs_encoded (b0 b1 b2 b3 b4 b5 : Nat) (rest : List Nat)
    (h0 : b0 < 256) (h1 : b1 < 256) (h2 : b2 < 256) (h3 : b3 < 256) (h4 : b4 < 256)
    (h5 : b5 < 256) :
    decodePairs ((b0 ||| 0xAA) :: (b0 ||| 0x55) :: (b1 ||| 0xAA) :: (b1 ||| 0x55) ::
      (b2 ||| 0xAA) :: (b2 ||| 0x55) :: (b3 ||| 0xAA) :: (b3 ||| 0x55) ::
      (b4 ||| 0xAA) :: (b4 ||| 0x55) :: (b5 ||| 0xAA) :: (b5 ||| 0x55) :: rest) 0
      = [b0, b1, b2, b3, b4, b5] := by
  have e : List.range 6 = [0, 1, 2, 3, 4, 5] := rfl
  simp only [decodePairs, e, List.map_cons, List.map_nil, Nat.zero_add, Nat.zero_mul,
    Nat.one_mul, Nat.reduceMul, Nat.reduceAdd, List.getD_cons_zero, List.getD_cons_succ,
    pair_decode b0 h0, pair_decode b1 h1, pair_decode b2 h2, pair_decode b3 h3,
    pair_decode b4 h4, pair_decode b5 h5]

theorem decodePairs_encodePairs (u : Nat) (rest : List Nat) :
    decodePairs (encodePairs u ++ rest) 0 = PackUID u := by
  have hb : ∀ v : Nat, v &&& 0xFF < 256 := fun v => by rw [and_ff]; omega
  simp only [encodePairs, PackUID, List.flatMap_cons, List.flatMap_nil, List.cons_append,
    List.nil_append, List.append_nil]
  exact decodePairs_encoded _ _ _ _ _ _ rest (hb _) (hb _) (hb _) (hb _) (hb _) (hb _)

theorem encodePairs_length (u : Nat) : (encodePairs u).length = 12 := by
  simp [encodePairs, PackUID]

theorem discResponse_length (k u : Nat) (tail : List Nat) :
    (discResponse k u tail).length = k + 13 + tail.length := by
  simp [discResponse, encodePairs_length]; omega

/-- A well-formed discovery response is parsed as a single responder with the
encoded UID, whatever follows the response in the receive buffer. -/
theorem parseDiscResponse_discResponse (k u : Nat) (tail stale : List Nat) (foundUID : Nat)
    (hu : u < 2 ^ 48) :
    parseDiscResponse ((discResponse k u tail).length : Int) (discResponse k u tail ++ stale)
      foundUID = (1, u) := by
  have hlen := discResponse_length k u tail
  have hbuf : discResponse k u tail ++ stale
      = List.replicate k 0xFE ++ (0xAA :: (encodePairs u ++ (tail ++ stale))) := by
    simp [discResponse]
  have hbuf2 : discResponse k u tail ++ stale
      = (List.replicate k 0xFE ++ [0xAA]) ++ (encodePairs u ++ (tail ++ stale)) := by
    simp [discResponse]
  have hpre : (List.replicate k 0xFE ++ [0xAA]).length = k + 1 := by simp
  have hneg : ¬ ((discResponse k u tail).length : Int) ≤ 0 := by omega
  have hklt : k < (discResponse k u tail).length := by omega
  have hstrip : stripPreamble (discResponse k u tail ++ stale) (discResponse k u tail).length
      (discResponse k u tail).length 0 = k := by
    rw [hbuf]
    exact stripPreamble_replicate k _ _ (by omega) (by simp) _ 0 (by omega) (by omega)
  have hsep : (discResponse k u tail ++ stale).getD k 0 = 0xAA := by
    rw [hbuf]
    have := getD_replicate_append_at k 0xFE (0xAA :: (encodePairs u ++ (tail ++ stale))) 0
    simpa using this
  have hdec : decodePairs (discResponse k u tail ++ stale) (k + 1) = PackUID u := by
    rw [hbuf2, ← hpre, decodePairs_append_pre, decodePairs_encodePairs]
  have hun := UnpackUID_PackUID u hu []
  rw [List.append_nil] at hun
  unfold parseDiscResponse
  simp only [Int.toNat_ofNat]
  have hrem : ¬ (((discResponse k u tail).length : Int) - ((k + 1 : Nat) : Int) < 12) := by
    omega
  rw [if_neg hneg, hstrip, if_pos (And.intro hklt hsep), if_neg hrem, hdec, hun]

/-- Claim C9: when the transport accepts the branch request and delivers, for
a 48-bit UID `u` and `k ≤ 7`, the response `k × 0xFE, 0xAA`, the six pairs
`(x|0xAA, x|0x55)` of the big-endian bytes of `u`, and any following bytes,
`TryDiscBranch` returns 1 with `*foundUID = u`; and for every byte `x`,
`((x|0xAA) & 0x55) | ((x|0x55) & 0xAA) = x`. -/
theorem C9_disc_response_decodes_uid {σ : Type} (T : Transport σ) (s : Session σ)
    (srcUID lower upper u k : Nat) (tail stale : List Nat) (foundUID : Nat)
    (hu : u < 2 ^ 48) (hk : k ≤ 7)
    (hsend : (T.SendRDMDiscovery s.dev
        (BuildRDMPacket RDM_BROADCAST_UID srcUID s.transNum 1 0 0 RDM_CC_DISCOVERY
          PID_DISC_UNIQUE_BRANCH (some (PackUID lower ++ PackUID upper)) 12)).2 = true)
    (hrx : (T.ReceiveRDM (T.SendRDMDiscovery s.dev
        (BuildRDMPacket RDM_BROADCAST_UID srcUID s.transNum 1 0 0 RDM_CC_DISCOVERY
          PID_DISC_UNIQUE_BRANCH (some (PackUID lower ++ PackUID upper)) 12)).1 512).2
        = (((discResponse k u tail).length : Int), discResponse k u tail ++ stale)) :
    (TryDiscBranch T s srcUID lower upper foundUID).2 = (1, u)
      ∧ ∀ x < 256, ((x ||| 0xAA) &&& 0x55) ||| ((x ||| 0x55) &&& 0xAA) = x := by
  refine ⟨?_, pair_decode⟩
  unfold TryDiscBranch
  simp only [hsend, hrx, Bool.true_eq_false, if_false]
  exact parseDiscResponse_discResponse k u tail stale foundUID hu

/-- Witness for C9: a transport that always delivers the response of
`454E:00000001` with three preamble bytes and the encoded checksum. -/
theorem C9_disc_response_decodes_uid_witness :
    (0x454E00000001 < 2 ^ 48 ∧ 3 ≤ 7)
      ∧ ((TryDiscBranch
            (constTransport (discResponse 3 0x454E00000001 (encodedChecksum 0x454E00000001)))
            ⟨(), 0⟩ 0x454E540001 0 0xFFFEFFFFFFFF 0).2 = (1, 0x454E00000001)
          ∧ ∀ x < 256, ((x ||| 0xAA) &&& 0x55) ||| ((x ||| 0x55) &&& 0xAA) = x) :=
  ⟨⟨by decide, by decide⟩,
   C9_disc_response_decodes_uid
     (constTransport (discResponse 3 0x454E00000001 (encodedChecksum 0x454E00000001)))
     ⟨(), 0⟩ 0x454E540001 0 0xFFFEFFFFFFFF 0x454E00000001 3
     (encodedChecksum 0x454E00000001) [] 0 (by decide) (by decide) rfl
     (by simp [constTransport])⟩


/-! ## One validation result per catalog entry -/

theorem validateParam_fields {σ : Type} (T : Transport σ) (s : Session σ)
    (srcUID destUID : Nat) (param : RDMParameter) :
    (validateParam T s srcUID destUID param).2.pid = param.pid
      ∧ (validateParam T s srcUID destUID param).2.name = param.name
      ∧ (validateParam T s srcUID destUID param).2.isMandatory = param.isMandatory := by
  unfold validateParam
  by_cases h : param.pid ≤ 0x0003
  · simp only [if_pos h, and_self]
  · simp only [if_neg h]
    split <;> simp only [and_self]

theorem ValidateFixture_fold {σ : Type} (T : Transport σ) (srcUID destUID : Nat) :
    ∀ (params : List RDMParameter) (s : Session σ) (acc : List ValidationResult),
      ((params.foldl
          (fun acc param =>
            let r := validateParam T acc.1 srcUID destUID param
            (r.1, acc.2 ++ [r.2]))
          (s, acc)).2).map (fun r => (r.pid, r.name, r.isMandatory))
        = acc.map (fun r => (r.pid, r.name, r.isMandatory))
            ++ params.map (fun p => (p.pid, p.name, p.isMandatory)) := by
  intro params
  induction params with
  | nil => intro s acc; simp
  | cons p ps ih =>
    intro s acc
    have hf := validateParam_fields T s srcUID destUID p
    simp only [List.foldl_cons]
    rw [ih]
    simp [hf.1, hf.2.1, hf.2.2]

/-- Claim C10: for every catalog and every transport, `ValidateFixture` returns
exactly one result per catalog entry, in catalog order: the result list has
the length of the catalog and its `i`-th element carries the pid, name and
mandatory flag of the `i`-th entry, whatever the outcomes of the GETs. -/
theorem C10_one_result_per_entry_in_order {σ : Type} (T : Transport σ) (s : Session σ)
    (srcUID destUID : Nat) (params : List RDMParameter) :
    (ValidateFixture T s srcUID destUID params).2.length = params.length
      ∧ (ValidateFixture T s srcUID destUID params).2.map
            (fun r => (r.pid, r.name, r.isMandatory))
          = params.map (fun p => (p.pid, p.name, p.isMandatory))
      ∧ ∀ i : Nat,
          (((ValidateFixture T s srcUID destUID params).2)[i]?).map
              (fun r => (r.pid, r.name, r.isMandatory))
            = (params[i]?).map (fun p => (p.pid, p.name, p.isMandatory)) := by
  have hmap : (ValidateFixture T s srcUID destUID params).2.map
        (fun r => (r.pid, r.name, r.isMandatory))
      = params.map (fun p => (p.pid, p.name, p.isMandatory)) := by
    have := ValidateFixture_fold T srcUID destUID params s []
    simpa [ValidateFixture] using this
  refine ⟨?_, hmap, ?_⟩
  · have := congrArg List.length hmap
    simpa using this
  · intro i
    have := congrArg (fun l => l[i]?) hmap
    simpa using this

/-! ## `DiscoverBranch` on the ideal bus -/

/-- What a responder reads off a request packet: destination, command class,
PID, and the parameter data at offset 24. -/
theorem BuildRDMPacket_request (destUID srcUID transNum portOrRespType msgCount subDevice
    commandClass pid : Nat) (paramData : Option (List Nat)) (paramLen : Nat)
    (hdest : destUID < 2 ^ 48) (hpid : pid < 65536)
    (hlen : paramLen = (dataOf paramData).length) :
    let pkt := BuildRDMPacket destUID srcUID transNum portOrRespType msgCount subDevice
      commandClass pid paramData paramLen
    UnpackUID (pkt.drop 3) = destUID
      ∧ pkt.getD 20 0 = commandClass
      ∧ pkt.getD 21 0 * 256 + pkt.getD 22 0 = pid
      ∧ ∃ c0 c1 : Nat, pkt.drop 24 = dataOf paramData ++ [c0, c1] := by
  intro pkt
  obtain ⟨c0, c1, h⟩ := BuildRDMPacket_layout destUID srcUID transNum portOrRespType
    msgCount subDevice commandClass pid paramData paramLen hlen
  have hp : pkt = _ := h
  have hd := UnpackUID_PackUID destUID hdest
  rw [hp]
  generalize dataOf paramData = data at *
  simp only [PackUID, List.cons_append, List.nil_append] at hd ⊢
  simp only [List.drop_succ_cons, List.drop_zero, List.getD_cons_succ, List.getD_cons_zero]
  refine ⟨hd _, trivial, ?_, c0, c1, rfl⟩
  rw [shr_and_ff, and_ff]; omega

theorem parseDiscResponse_none (rxBuf : List Nat) (foundUID : Nat) :
    parseDiscResponse (-1) rxBuf foundUID = (-1, foundUID) := by
  simp [parseDiscResponse]

theorem parseDiscResponse_garbled (foundUID : Nat) :
    parseDiscResponse 5 garbledResponse foundUID = (0, foundUID) := by
  simp [parseDiscResponse, garbledResponse, stripPreamble]

theorem idealBus_receive (all unmuted pending : List Nat) (maxLen : Nat)
    (h0 : pending ≠ []) (hmax : pending.length ≤ maxLen) :
    idealBus.ReceiveRDM ⟨all, unmuted, pending⟩ maxLen
      = (⟨all, unmuted, []⟩, (pending.length : Int), pending) := by
  simp [idealBus, h0, hmax, List.take_of_length_le hmax]

theorem idealBus_receive_nil (all unmuted : List Nat) (maxLen : Nat) :
    idealBus.ReceiveRDM ⟨all, unmuted, []⟩ maxLen = (⟨all, unmuted, []⟩, -1, []) := by
  simp [idealBus]

theorem encodedChecksum_length (u : Nat) : (encodedChecksum u).length = 4 := by
  simp [encodedChecksum]

theorem branch_parse (unmuted : List Nat) (lower upper : Nat) (hupper : upper < 2 ^ 48)
    (all : List Nat) :
    let rx := idealBus.ReceiveRDM ⟨all, unmuted, branchAnswer unmuted lower upper⟩ 512
    rx.1 = ⟨all, unmuted, []⟩
      ∧ parseDiscResponse rx.2.1 rx.2.2 0 = branchOutcome unmuted lower upper := by
  intro rx
  simp only [rx, branchAnswer, branchOutcome]
  generalize hf : unmuted.filter (inRange lower upper) = fl
  rcases fl with _ | ⟨u, _ | ⟨v, rest⟩⟩
  · dsimp only
    rw [idealBus_receive_nil]
    exact ⟨rfl, parseDiscResponse_none _ _⟩
  · dsimp only
    have hu : u ∈ unmuted.filter (inRange lower upper) := by rw [hf]; simp
    have hr := (List.mem_filter.mp hu).2
    simp only [inRange, decide_eq_true_eq] at hr
    have hlen := discResponse_length 7 u (encodedChecksum u)
    rw [encodedChecksum_length] at hlen
    rw [idealBus_receive _ _ _ 512 (by intro h; rw [h] at hlen; simp at hlen) (by omega)]
    refine ⟨rfl, ?_⟩
    have := parseDiscResponse_discResponse 7 u (encodedChecksum u) [] 0 (by omega)
    rw [List.append_nil] at this
    exact this
  · dsimp only
    rw [idealBus_receive _ _ _ 512 (by simp [garbledResponse]) (by simp [garbledResponse])]
    exact ⟨rfl, parseDiscResponse_garbled 0⟩

theorem TryDiscBranch_of_exchange {σ : Type} (T : Transport σ) (s : Session σ)
    (srcUID lower upper foundUID : Nat) (d1 d2 : σ) (rxLen : Int) (rxBuf : List Nat)
    (hsend : T.SendRDMDiscovery s.dev
        (BuildRDMPacket RDM_BROADCAST_UID srcUID s.transNum 1 0 0 RDM_CC_DISCOVERY
          PID_DISC_UNIQUE_BRANCH (some (PackUID lower ++ PackUID upper)) 12) = (d1, true))
    (hrx : T.ReceiveRDM d1 512 = (d2, rxLen, rxBuf)) :
    TryDiscBranch T s srcUID lower upper foundUID
      = (⟨d2, (s.transNum + 1) % 256⟩, parseDiscResponse rxLen rxBuf foundUID) := by
  unfold TryDiscBranch
  simp only [hsend, hrx, Bool.true_eq_false, if_false]

theorem TryDiscBranch_idealBus (b : Bus) (tn srcUID lower upper : Nat)
    (hlower : lower < 2 ^ 48) (hupper : upper < 2 ^ 48) :
    TryDiscBranch idealBus ⟨b, tn⟩ srcUID lower upper 0
      = (⟨⟨b.all, b.unmuted, []⟩, (tn + 1) % 256⟩, branchOutcome b.unmuted lower upper) := by
  obtain ⟨hd, hcc, hpid, c0, c1, h24⟩ := BuildRDMPacket_request RDM_BROADCAST_UID srcUID tn
    1 0 0 RDM_CC_DISCOVERY PID_DISC_UNIQUE_BRANCH (some (PackUID lower ++ PackUID upper)) 12
    (by decide) (by decide) rfl
  simp only [dataOf, Option.getD_some] at h24
  obtain ⟨hrx1, hrx2⟩ := branch_parse b.unmuted lower upper hupper b.all
  rw [← hrx2]
  refine TryDiscBranch_of_exchange idealBus ⟨b, tn⟩ srcUID lower upper 0
    ⟨b.all, b.unmuted, branchAnswer b.unmuted lower upper⟩ _ _ _ ?_ ?_
  · show idealBus.SendRDMDiscovery b _ = _
    generalize BuildRDMPacket RDM_BROADCAST_UID srcUID tn 1 0 0 RDM_CC_DISCOVERY
      PID_DISC_UNIQUE_BRANCH (some (PackUID lower ++ PackUID upper)) 12 = pkt
      at hd hcc hpid h24
    have h30 : pkt.drop 30 = PackUID upper ++ [c0, c1] := by
      have : pkt.drop 30 = (pkt.drop 24).drop 6 := by rw [List.drop_drop]
      rw [this, h24]
      simp [PackUID]
    have hlo : UnpackUID (pkt.drop 24) = lower := by
      rw [h24, List.append_assoc]; exact UnpackUID_PackUID lower hlower _
    have hhi : UnpackUID (pkt.drop 30) = upper := by
      rw [h30]; exact UnpackUID_PackUID upper hupper _
    simp only [idealBus, hcc, hpid, hlo, hhi, and_self, if_true]
  · rw [← hrx1]


theorem idealBus_receive_state (b : Bus) (maxLen : Nat) :
    (idealBus.ReceiveRDM b maxLen).1 = ⟨b.all, b.unmuted, []⟩ := rfl

theorem SendDiscMute_of_exchange {σ : Type} (T : Transport σ) (s : Session σ)
    (srcUID uid : Nat) (d1 : σ)
    (hsend : T.SendRDM s.dev
        (BuildRDMPacket uid srcUID s.transNum 1 0 0 RDM_CC_DISCOVERY PID_DISC_MUTE none 0)
        = (d1, true)) :
    (SendDiscMute T s srcUID uid).1 = ⟨(T.ReceiveRDM d1 256).1, (s.transNum + 1) % 256⟩ := by
  unfold SendDiscMute
  simp only [hsend, Bool.true_eq_false, if_false]

theorem SendDiscMute_idealBus (b : Bus) (tn srcUID uid : Nat) (huid : uid < 2 ^ 48) :
    (SendDiscMute idealBus ⟨b, tn⟩ srcUID uid).1
      = ⟨⟨b.all, b.unmuted.filter (fun v => decide (v ≠ uid)), []⟩, (tn + 1) % 256⟩ := by
  obtain ⟨hd, hcc, hpid, -⟩ := BuildRDMPacket_request uid srcUID tn
    1 0 0 RDM_CC_DISCOVERY PID_DISC_MUTE none 0 huid (by decide) rfl
  have hsend : idealBus.SendRDM b
      (BuildRDMPacket uid srcUID tn 1 0 0 RDM_CC_DISCOVERY PID_DISC_MUTE none 0)
      = (⟨b.all, b.unmuted.filter (fun v => decide (v ≠ uid)),
          if uid ∈ b.all then
            BuildRDMPacket (UnpackUID ((BuildRDMPacket uid srcUID tn 1 0 0 RDM_CC_DISCOVERY
                PID_DISC_MUTE none 0).drop 9)) uid
              ((BuildRDMPacket uid srcUID tn 1 0 0 RDM_CC_DISCOVERY PID_DISC_MUTE none 0).getD
                15 0) 0 0 0 RDM_CC_DISCOVERY_RSP PID_DISC_MUTE (some [0, 0]) 2
          else []⟩, true) := by
    generalize BuildRDMPacket uid srcUID tn 1 0 0 RDM_CC_DISCOVERY PID_DISC_MUTE none 0 = pkt
      at hd hcc hpid
    simp only [idealBus, hcc, hpid, hd, and_self, if_true]
  rw [SendDiscMute_of_exchange idealBus ⟨b, tn⟩ srcUID uid _ hsend, idealBus_receive_state]

theorem SendDiscUnMute_of_exchange {σ : Type} (T : Transport σ) (s : Session σ)
    (srcUID : Nat) (d1 : σ) (ok : Bool)
    (hsend : T.SendRDM s.dev
        (BuildRDMPacket RDM_BROADCAST_UID srcUID s.transNum 1 0 0 RDM_CC_DISCOVERY
          PID_DISC_UN_MUTE none 0) = (d1, ok)) :
    SendDiscUnMute T s srcUID = ⟨T.Purge d1, (s.transNum + 1) % 256⟩ := by
  unfold SendDiscUnMute
  simp only [hsend]

theorem SendDiscUnMute_idealBus (b : Bus) (tn srcUID : Nat) :
    SendDiscUnMute idealBus ⟨b, tn⟩ srcUID = ⟨⟨b.all, b.all, []⟩, (tn + 1) % 256⟩ := by
  obtain ⟨hd, hcc, hpid, -⟩ := BuildRDMPacket_request RDM_BROADCAST_UID srcUID tn
    1 0 0 RDM_CC_DISCOVERY PID_DISC_UN_MUTE none 0 (by decide) (by decide) rfl
  have hne : ¬ (PID_DISC_UN_MUTE = PID_DISC_MUTE) := by decide
  have hsend : idealBus.SendRDM b
      (BuildRDMPacket RDM_BROADCAST_UID srcUID tn 1 0 0 RDM_CC_DISCOVERY
        PID_DISC_UN_MUTE none 0) = (⟨b.all, b.all, []⟩, true) := by
    generalize BuildRDMPacket RDM_BROADCAST_UID srcUID tn 1 0 0 RDM_CC_DISCOVERY
      PID_DISC_UN_MUTE none 0 = pkt at hd hcc hpid
    simp only [idealBus, hcc, hpid, hd, hne, and_false, and_self, if_true, if_false]
  rw [SendDiscUnMute_of_exchange idealBus ⟨b, tn⟩ srcUID _ true hsend]
  rfl

theorem mid_bounds (lower upper : Nat) (h : ¬ lower ≥ upper) (hupper : upper < 2 ^ 48) :
    lower + (upper - lower) / 2 < 2 ^ 48 ∧ lower + (upper - lower) / 2 + 1 < 2 ^ 48 := by
  have hp : (2 : Nat) ^ 48 = 281474976710656 := by norm_num
  rw [hp] at hupper ⊢
  omega

/-- On the ideal bus `DiscoverBranch` does what `idealDiscover` computes on the
list of unmuted responders. -/
theorem DiscoverBranch_idealBus (srcUID : Nat) :
    ∀ (r depth : Nat), 48 - depth = r →
      ∀ (b : Bus) (tn lower upper : Nat) (found : List Nat),
        lower < 2 ^ 48 → upper < 2 ^ 48 →
        (DiscoverBranch idealBus srcUID ⟨b, tn⟩ lower upper found depth).2
            = (idealDiscover r b.unmuted lower upper found).2
          ∧ (DiscoverBranch idealBus srcUID ⟨b, tn⟩ lower upper found depth).1.dev.unmuted
            = (idealDiscover r b.unmuted lower upper found).1
          ∧ (DiscoverBranch idealBus srcUID ⟨b, tn⟩ lower upper found depth).1.dev.all
            = b.all := by
  intro r
  induction r with
  | zero =>
    intro depth hr b tn lower upper found _ _
    rw [DiscoverBranch_base _ _ _ _ _ _ _ (by omega)]
    exact ⟨rfl, rfl, rfl⟩
  | succ r ih =>
    intro depth hr b tn lower upper found hlower hupper
    have hd : ¬ depth ≥ 48 := by omega
    have hr1 : 48 - (depth + 1) = r := by omega
    rw [DiscoverBranch, if_neg hd, TryDiscBranch_idealBus b tn srcUID lower upper hlower hupper]
    simp only [idealDiscover, branchOutcome]
    generalize hf : b.unmuted.filter (inRange lower upper) = fl
    rcases fl with _ | ⟨u, _ | ⟨v, rest⟩⟩
    · dsimp only
      rw [if_pos rfl]
      exact ⟨rfl, rfl, rfl⟩
    · dsimp only
      have hu : u ∈ b.unmuted.filter (inRange lower upper) := by rw [hf]; simp
      have hrange := (List.mem_filter.mp hu).2
      simp only [inRange, decide_eq_true_eq] at hrange
      rw [if_neg (by decide), if_pos rfl,
        SendDiscMute_idealBus _ _ srcUID u (by omega)]
      exact ih (depth + 1) hr1 ⟨b.all, b.unmuted.filter (fun v => decide (v ≠ u)), []⟩
        (((tn + 1) % 256 + 1) % 256) lower upper (found ++ [u]) hlower hupper
    · dsimp only
      rw [if_neg (by decide), if_neg (by decide), if_pos rfl]
      by_cases hlu : lower ≥ upper
      · rw [if_pos hlu, if_pos hlu]
        exact ⟨rfl, rfl, rfl⟩
      · rw [if_neg hlu, if_neg hlu]
        have hm := mid_bounds lower upper hlu hupper
        obtain ⟨e1, e2, e3⟩ := ih (depth + 1) hr1 ⟨b.all, b.unmuted, []⟩ ((tn + 1) % 256)
          lower (lower + (upper - lower) / 2) found hlower hm.1
        generalize DiscoverBranch idealBus srcUID
          ⟨⟨b.all, b.unmuted, []⟩, (tn + 1) % 256⟩ lower (lower + (upper - lower) / 2)
          found (depth + 1) = left at e1 e2 e3
        obtain ⟨f1, f2, f3⟩ := ih (depth + 1) hr1 left.1.dev left.1.transNum
          (lower + (upper - lower) / 2 + 1) upper left.2 hm.2 hupper
        dsimp only at e1 e2 e3
        exact ⟨f1.trans (by rw [e1, e2]), f2.trans (by rw [e1, e2]), f3.trans e3⟩

theorem RDMDiscovery_idealBus_start (b : Bus) (tn srcUID : Nat) :
    RDMDiscovery idealBus ⟨b, tn⟩ srcUID
      = DiscoverBranch idealBus srcUID ⟨⟨b.all, b.all, []⟩, ((tn + 1) % 256 + 1) % 256⟩
          0x000000000000 0xFFFEFFFFFFFF [] 0 := by
  unfold RDMDiscovery
  simp only [SendDiscUnMute_idealBus]

/-- The whole discovery on the ideal bus, read on the list of responders. -/
theorem RDMDiscovery_idealBus (b : Bus) (tn srcUID : Nat) :
    (RDMDiscovery idealBus ⟨b, tn⟩ srcUID).2
      = (idealDiscover 48 b.all 0x000000000000 0xFFFEFFFFFFFF []).2 := by
  rw [RDMDiscovery_idealBus_start]
  exact (DiscoverBranch_idealBus srcUID 48 0 rfl ⟨b.all, b.all, []⟩
    (((tn + 1) % 256 + 1) % 256) 0x000000000000 0xFFFEFFFFFFFF [] (by norm_num)
    (by norm_num)).1


/-- Claim C6: over the ideal bus every responder on the bus is enumerated by
`RDMDiscovery`.  The code does not do this: with the two responders
`454E:00000000` and `454E:00000001` on the bus, which share their range down
to depth 47, the call for each single-UID range is made at depth 48 and
returns at once, so the returned list is empty; two responders that are
separated earlier (`454E:00000001`, `454E:00000002`) are both found. -/
theorem C6_adjacent_responders_are_missed (tn srcUID : Nat) :
    (RDMDiscovery idealBus ⟨busOf [0x454E00000000, 0x454E00000001], tn⟩ srcUID).2 = []
      ∧ (RDMDiscovery idealBus ⟨busOf [0x454E00000001, 0x454E00000002], tn⟩ srcUID).2
          = [0x454E00000001, 0x454E00000002] := by
  rw [RDMDiscovery_idealBus, RDMDiscovery_idealBus]
  decide

/-! ## Duplicates in the found list -/

theorem DiscoverBranch_constTransport (k u : Nat) (tail : List Nat) (hu : u < 2 ^ 48)
    (srcUID : Nat) :
    ∀ (r depth : Nat), 48 - depth = r →
      ∀ (s : Session Unit) (lower upper : Nat) (found : List Nat),
        (DiscoverBranch (constTransport (discResponse k u tail)) srcUID s lower upper found
          depth).2 = found ++ List.replicate r u := by
  intro r
  induction r with
  | zero =>
    intro depth hr s lower upper found
    rw [DiscoverBranch_base _ _ _ _ _ _ _ (by omega)]
    simp
  | succ r ih =>
    intro depth hr s lower upper found
    have hd : ¬ depth ≥ 48 := by omega
    have hr1 : 48 - (depth + 1) = r := by omega
    have hp := parseDiscResponse_discResponse k u tail [] 0 hu
    rw [List.append_nil] at hp
    have ht := TryDiscBranch_of_exchange (constTransport (discResponse k u tail)) s srcUID
      lower upper 0 s.dev s.dev ((discResponse k u tail).length : Int) (discResponse k u tail)
      rfl rfl
    rw [hp] at ht
    rw [DiscoverBranch, if_neg hd, ht]
    dsimp only
    rw [if_neg (by decide), if_pos rfl, ih (depth + 1) hr1]
    simp [List.replicate_succ]

/-- Counterexample to C7: a transport that deterministically reports the single
responder `454E:00000001` for every branch request makes `RDMDiscovery` return
that UID 48 times. -/
theorem C7_counterexample :
    (RDMDiscovery (constTransport (discResponse 0 0x454E00000001 [])) ⟨(), 0⟩
        0x454E540001).2 = List.replicate 48 0x454E00000001
      ∧ ¬ (RDMDiscovery (constTransport (discResponse 0 0x454E00000001 [])) ⟨(), 0⟩
        0x454E540001).2.Nodup := by
  have h : (RDMDiscovery (constTransport (discResponse 0 0x454E00000001 [])) ⟨(), 0⟩
      0x454E540001).2 = List.replicate 48 0x454E00000001 := by
    unfold RDMDiscovery
    have := DiscoverBranch_constTransport 0 0x454E00000001 [] (by norm_num) 0x454E540001 48 0
      rfl
    simp only [this, List.nil_append]
  refine ⟨h, ?_⟩
  rw [h, List.nodup_replicate]
  decide

theorem idealDiscover_nodup :
    ∀ (r : Nat) (unmuted : List Nat) (lower upper : Nat) (found : List Nat),
      found.Nodup → (∀ x ∈ found, x ∉ unmuted) →
      (idealDiscover r unmuted lower upper found).2.Nodup
        ∧ ∀ x ∈ (idealDiscover r unmuted lower upper found).2,
            x ∉ (idealDiscover r unmuted lower upper found).1 := by
  intro r
  induction r with
  | zero =>
    intro unmuted lower upper found hn hd
    exact ⟨hn, hd⟩
  | succ r ih =>
    intro unmuted lower upper found hn hd
    simp only [idealDiscover]
    generalize hf : unmuted.filter (inRange lower upper) = fl
    rcases fl with _ | ⟨u, _ | ⟨v, rest⟩⟩
    · exact ⟨hn, hd⟩
    · dsimp only
      have hu : u ∈ unmuted.filter (inRange lower upper) := by rw [hf]; simp
      have hmem : u ∈ unmuted := (List.mem_filter.mp hu).1
      have hnot : u ∉ found := fun h => hd u h hmem
      apply ih
      · rw [List.nodup_append]
        refine ⟨hn, List.nodup_singleton u, ?_⟩
        intro x hx hx2
        rw [List.mem_singleton] at hx2
        subst hx2
        exact hnot hx
      · intro x hx hx2
        have hx3 := List.mem_filter.mp hx2
        rcases List.mem_append.mp hx with h | h
        · exact hd x h hx3.1
        · rw [List.mem_singleton] at h
          subst h
          simp at hx3
    · dsimp only
      by_cases hlu : lower ≥ upper
      · rw [if_pos hlu]
        exact ⟨hn, hd⟩
      · rw [if_neg hlu]
        obtain ⟨h1, h2⟩ := ih unmuted lower (lower + (upper - lower) / 2) found hn hd
        exact ih _ _ _ _ h1 h2

/-- Claim C7 (amended): on the ideal bus, where a muted responder no longer
answers a branch request, the UID list `RDMDiscovery` returns contains no
duplicates, for every set of responders, muted or not at the start. -/
theorem C7_no_duplicates_on_ideal_bus (b : Bus) (tn srcUID : Nat) :
    (RDMDiscovery idealBus ⟨b, tn⟩ srcUID).2.Nodup := by
  rw [RDMDiscovery_idealBus]
  exact (idealDiscover_nodup 48 b.all 0x000000000000 0xFFFEFFFFFFFF [] List.nodup_nil
    (fun x hx => by simp at hx)).1


/-! ## UID text round trip -/

set_option maxRecDepth 100000 in
theorem hexDigit_table : ∀ n < 16,
    hexValue (hexDigit n) = some n ∧ isSpaceC (hexDigit n) = false
      ∧ hexDigit n ≠ '-' ∧ hexDigit n ≠ '+' ∧ hexDigit n ≠ 'x' ∧ hexDigit n ≠ 'X'
      ∧ hexDigit n ≠ '\x00' ∧ hexDigit n ≠ ':' ∧ hexDigit n ≠ ' '
      ∧ hexDigit n = hexChars.getD n '?' := by
  decide

theorem hexValue_hexDigit (x : Nat) : hexValue (hexDigit (x % 16)) = some (x % 16) :=
  (hexDigit_table (x % 16) (Nat.mod_lt _ (by decide))).1

theorem isSpaceC_hexDigit (x : Nat) : isSpaceC (hexDigit (x % 16)) = false :=
  (hexDigit_table (x % 16) (Nat.mod_lt _ (by decide))).2.1

theorem hexDigit_ne_minus (x : Nat) : (hexDigit (x % 16) = '-') = False :=
  eq_false (hexDigit_table (x % 16) (Nat.mod_lt _ (by decide))).2.2.1

theorem hexDigit_ne_plus (x : Nat) : (hexDigit (x % 16) = '+') = False :=
  eq_false (hexDigit_table (x % 16) (Nat.mod_lt _ (by decide))).2.2.2.1

theorem hexDigit_ne_x (x : Nat) : (hexDigit (x % 16) = 'x') = False :=
  eq_false (hexDigit_table (x % 16) (Nat.mod_lt _ (by decide))).2.2.2.2.1

theorem hexDigit_ne_X (x : Nat) : (hexDigit (x % 16) = 'X') = False :=
  eq_false (hexDigit_table (x % 16) (Nat.mod_lt _ (by decide))).2.2.2.2.2.1

theorem hexDigit_ne_nul (x : Nat) : (hexDigit (x % 16) = '\x00') = False :=
  eq_false (hexDigit_table (x % 16) (Nat.mod_lt _ (by decide))).2.2.2.2.2.2.1

theorem hexDigit_ne_colon (x : Nat) : (hexDigit (x % 16) = ':') = False :=
  eq_false (hexDigit_table (x % 16) (Nat.mod_lt _ (by decide))).2.2.2.2.2.2.2.1

theorem hexDigit_ne_space (x : Nat) : (hexDigit (x % 16) = ' ') = False :=
  eq_false (hexDigit_table (x % 16) (Nat.mod_lt _ (by decide))).2.2.2.2.2.2.2.2.1

theorem hexDigit_eq_hexChars (x : Nat) : hexDigit (x % 16) = hexChars.getD (x % 16) '?' :=
  (hexDigit_table (x % 16) (Nat.mod_lt _ (by decide))).2.2.2.2.2.2.2.2.2

/-- A run of at least two `%X`-printed digits, followed by nothing or by a
character that is no hexadecimal digit, is converted to the value the digits
spell, and the input is left at that character. -/
theorem scanX_digits (a b : Nat) (ds rest : List Char) (v k : Nat)
    (hscan : scanHexDigits (hexDigit (a % 16) :: hexDigit (b % 16) :: ds ++ rest) 0 0
      = (v, k + 2, rest)) :
    scanX (hexDigit (a % 16) :: hexDigit (b % 16) :: ds ++ rest)
      = some (v % 4294967296, rest) := by
  have hdw : List.dropWhile isSpaceC (hexDigit (a % 16) :: hexDigit (b % 16) :: ds ++ rest)
      = hexDigit (a % 16) :: hexDigit (b % 16) :: ds ++ rest := by
    simp [List.dropWhile, isSpaceC_hexDigit]
  have hsign : dropSign (hexDigit (a % 16) :: hexDigit (b % 16) :: ds ++ rest)
      = (false, hexDigit (a % 16) :: hexDigit (b % 16) :: ds ++ rest) := by
    simp [dropSign, hexDigit_ne_minus, hexDigit_ne_plus]
  have hmark : dropHexMark (hexDigit (a % 16) :: hexDigit (b % 16) :: ds ++ rest)
      = hexDigit (a % 16) :: hexDigit (b % 16) :: ds ++ rest := by
    unfold dropHexMark
    split
    · rename_i z x d cs heq
      simp only [List.cons_append, List.cons.injEq] at heq
      have hx : x = hexDigit (b % 16) := heq.2.1.symm
      rw [if_neg]
      rintro ⟨_, h2, _⟩
      rw [hx] at h2
      rcases h2 with h2 | h2
      · exact (hexDigit_ne_x b).mp h2
      · exact (hexDigit_ne_X b).mp h2
    · rfl
  unfold scanX
  simp only [hdw, hsign, hmark, hscan]
  simp


theorem scanHexDigits_digit (x : Nat) (cs : List Char) (acc n : Nat) :
    scanHexDigits (hexDigit (x % 16) :: cs) acc n
      = scanHexDigits cs (acc * 16 + x % 16) (n + 1) := by
  simp only [scanHexDigits, hexValue_hexDigit]

theorem scanHexDigits_colon (cs : List Char) (acc n : Nat) :
    scanHexDigits (':' :: cs) acc n = (acc, n, ':' :: cs) := by
  have h : hexValue ':' = none := by decide
  simp only [scanHexDigits, h]

theorem scanHexDigits_nil (acc n : Nat) : scanHexDigits [] acc n = (acc, n, []) := by
  simp only [scanHexDigits]

theorem hexPad_four (m : Nat) :
    hexPad 4 m = [hexDigit (m / 16 / 16 / 16 % 16), hexDigit (m / 16 / 16 % 16),
      hexDigit (m / 16 % 16), hexDigit (m % 16)] := by
  simp only [hexPad, List.nil_append, List.cons_append]

theorem hexPad_eight (d : Nat) :
    hexPad 8 d = [hexDigit (d / 16 / 16 / 16 / 16 / 16 / 16 / 16 % 16),
      hexDigit (d / 16 / 16 / 16 / 16 / 16 / 16 % 16),
      hexDigit (d / 16 / 16 / 16 / 16 / 16 % 16), hexDigit (d / 16 / 16 / 16 / 16 % 16),
      hexDigit (d / 16 / 16 / 16 % 16), hexDigit (d / 16 / 16 % 16),
      hexDigit (d / 16 % 16), hexDigit (d % 16)] := by
  simp only [hexPad, List.nil_append, List.cons_append]

/-- Parsing the text `UIDToString` prints for manufacturer part `m` and device
part `d` gives the two parts back. -/
theorem StringToUID_of_parts (m d : Nat) (hm : m < 65536) (hd : d < 4294967296) :
    StringToUID (String.mk (hexPad 4 m ++ [':'] ++ hexPad 8 d)) = (m <<< 32) ||| d := by
  have hcolon : (':' = '\x00') = False := by decide
  have h1 : scanX (hexPad 4 m ++ [':'] ++ hexPad 8 d)
      = some (m, ':' :: hexPad 8 d) := by
    have hs := scanX_digits (m / 16 / 16 / 16) (m / 16 / 16)
      [hexDigit (m / 16 % 16), hexDigit (m % 16)] (':' :: hexPad 8 d)
      ((((0 * 16 + m / 16 / 16 / 16 % 16) * 16 + m / 16 / 16 % 16) * 16 + m / 16 % 16) * 16
        + m % 16) 2
      (by simp only [List.cons_append, List.nil_append, scanHexDigits_digit,
            scanHexDigits_colon])
    rw [hexPad_four]
    simp only [List.cons_append, List.nil_append] at hs ⊢
    rw [hs]
    congr 2
    omega
  have h2 : scanX (hexPad 8 d) = some (d, []) := by
    have hs := scanX_digits (d / 16 / 16 / 16 / 16 / 16 / 16 / 16)
      (d / 16 / 16 / 16 / 16 / 16 / 16)
      [hexDigit (d / 16 / 16 / 16 / 16 / 16 % 16), hexDigit (d / 16 / 16 / 16 / 16 % 16),
        hexDigit (d / 16 / 16 / 16 % 16), hexDigit (d / 16 / 16 % 16),
        hexDigit (d / 16 % 16), hexDigit (d % 16)] []
      ((((((((0 * 16 + d / 16 / 16 / 16 / 16 / 16 / 16 / 16 % 16) * 16
        + d / 16 / 16 / 16 / 16 / 16 / 16 % 16) * 16
        + d / 16 / 16 / 16 / 16 / 16 % 16) * 16 + d / 16 / 16 / 16 / 16 % 16) * 16
        + d / 16 / 16 / 16 % 16) * 16 + d / 16 / 16 % 16) * 16 + d / 16 % 16) * 16 + d % 16) 6
      (by simp only [List.cons_append, List.nil_append, List.append_nil, scanHexDigits_digit,
            scanHexDigits_nil])
    rw [hexPad_eight]
    simp only [List.cons_append, List.nil_append, List.append_nil] at hs ⊢
    rw [hs]
    congr 2
    omega
  have h0 : List.takeWhile (fun c => decide (c ≠ '\x00')) (hexPad 4 m ++ [':'] ++ hexPad 8 d)
      = hexPad 4 m ++ [':'] ++ hexPad 8 d := by
    rw [hexPad_four, hexPad_eight]
    simp only [List.cons_append, List.nil_append, List.takeWhile, ne_eq, hexDigit_ne_nul,
      hcolon, not_false_eq_true, decide_True]
  unfold StringToUID
  simp only [h0, h1, h2, if_true]


theorem and_ffff (u : Nat) : u &&& 0xFFFF = u % 65536 :=
  Nat.and_pow_two_sub_one_eq_mod u 16

theorem and_ffffffff (u : Nat) : u &&& 0xFFFFFFFF = u % 4294967296 :=
  Nat.and_pow_two_sub_one_eq_mod u 32

theorem StringToUID_UIDToString (u : Nat) (hu : u < 2 ^ 48) :
    StringToUID (UIDToString u) = u := by
  have hp : (2 : Nat) ^ 48 = 281474976710656 := by norm_num
  rw [hp] at hu
  unfold UIDToString
  simp only []
  rw [StringToUID_of_parts _ _ (by rw [and_ffff]; omega) (by rw [and_ffffffff]; omega)]
  rw [shl_or _ _ 32 (by rw [and_ffffffff]; norm_num; omega)]
  rw [and_ffff, and_ffffffff, Nat.shiftRight_eq_div_pow]
  norm_num
  omega

/-- Claim C20: for every 48-bit UID `u`, `StringToUID (UIDToString u) = u`; the
text of `0` is `"0000:00000000"` and the text of the all-ones UID is
`"FFFF:FFFFFFFF"`. -/
theorem C20_uid_text_round_trip (u : Nat) (hu : u < 2 ^ 48) :
    StringToUID (UIDToString u) = u
      ∧ UIDToString 0 = "0000:00000000"
      ∧ StringToUID (UIDToString 0) = 0
      ∧ UIDToString 0xFFFFFFFFFFFF = "FFFF:FFFFFFFF"
      ∧ StringToUID (UIDToString 0xFFFFFFFFFFFF) = 0xFFFFFFFFFFFF :=
  ⟨StringToUID_UIDToString u hu, by decide, StringToUID_UIDToString 0 (by norm_num),
    by decide, StringToUID_UIDToString 0xFFFFFFFFFFFF (by norm_num)⟩

/-- Witness for C20: the UID `454E:54000001` of the repository test
`UIDToString.TypicalDevice`. -/
theorem C20_uid_text_round_trip_witness :
    0x454E54000001 < 2 ^ 48
      ∧ (StringToUID (UIDToString 0x454E54000001) = 0x454E54000001
          ∧ UIDToString 0 = "0000:00000000"
          ∧ StringToUID (UIDToString 0) = 0
          ∧ UIDToString 0xFFFFFFFFFFFF = "FFFF:FFFFFFFF"
          ∧ StringToUID (UIDToString 0xFFFFFFFFFFFF) = 0xFFFFFFFFFFFF) :=
  ⟨by norm_num, C20_uid_text_round_trip 0x454E54000001 (by norm_num)⟩


/-! ## `BytesToHex` -/

/-- The characters `BytesToHex` appends for one byte. -/
theorem bytesToHex_loop (data : List Nat) :
    ∀ n, n ≤ data.length →
      (List.range n).foldl
          (fun out i =>
            out ++ [hexDigit (data.getD i 0 / 16 % 16), hexDigit (data.getD i 0 % 16), ' '])
          []
        = (data.take n).flatMap (fun b => [hexDigit (b / 16 % 16), hexDigit (b % 16), ' ']) := by
  intro n
  induction n with
  | zero => intro _; simp
  | succ n ih =>
    intro h
    have hn : n < data.length := by omega
    rw [List.range_succ, List.foldl_append, ih (by omega), List.take_succ,
      List.flatMap_append, List.getElem?_eq_getElem hn]
    simp [List.getD_eq_getElem?_getD, List.getElem?_eq_getElem hn]

theorem hexByte_eq (b : Nat) (hb : b < 256) :
    [hexDigit (b / 16 % 16), hexDigit (b % 16)] = hexByte b := by
  have h : b / 16 % 16 = b / 16 := Nat.mod_eq_of_lt (by omega)
  rw [hexByte, hexDigit_eq_hexChars, hexDigit_eq_hexChars, h]

theorem intercalate_cons_cons (a b : List Char) (t : List (List Char)) :
    List.intercalate [' '] (a :: b :: t) = a ++ ' ' :: List.intercalate [' '] (b :: t) := by
  simp [List.intercalate]

theorem intercalate_single (a : List Char) : List.intercalate [' '] [a] = a := by
  simp [List.intercalate]

/-- The loop output for a non-empty byte sequence is its hex encoding followed
by one space. -/
theorem triples_eq_hexEncoding (data : List Nat) (hbytes : ∀ b ∈ data, b < 256)
    (hne : data ≠ []) :
    data.flatMap (fun b => [hexDigit (b / 16 % 16), hexDigit (b % 16), ' '])
      = hexEncoding data ++ [' '] := by
  induction data with
  | nil => exact absurd rfl hne
  | cons b t ih =>
    have hb : b < 256 := hbytes b (List.mem_cons_self b t)
    have hbe := hexByte_eq b hb
    have ht : ∀ x ∈ t, x < 256 := fun x hx => hbytes x (List.mem_cons_of_mem b hx)
    cases t with
    | nil =>
      simp only [List.flatMap_cons, List.flatMap_nil, List.append_nil, hexEncoding,
        List.map_cons, List.map_nil, intercalate_single]
      rw [← hbe]
      rfl
    | cons c t2 =>
      have ih2 := ih ht (by simp)
      rw [List.flatMap_cons, ih2]
      simp only [hexEncoding, List.map_cons, intercalate_cons_cons]
      rw [← hbe]
      simp

theorem hexChars_ne_space (n : Nat) : hexChars.getD n '?' ≠ ' ' := by
  by_cases h : n < 16
  · have : ∀ k < 16, hexChars.getD k '?' ≠ ' ' := by decide
    exact this n h
  · have hl : hexChars.length ≤ n := by
      have : hexChars.length = 16 := rfl
      omega
    have : hexChars.getD n '?' = '?' := by
      rw [List.getD_eq_getElem?_getD, List.getElem?_eq_none hl]
      rfl
    rw [this]; decide

theorem hexByte_length (b : Nat) : (hexByte b).length = 2 := rfl

theorem hexEncoding_cons_cons (b c : Nat) (t : List Nat) :
    hexEncoding (b :: c :: t) = hexByte b ++ ' ' :: hexEncoding (c :: t) := by
  simp only [hexEncoding, List.map_cons, intercalate_cons_cons]

theorem hexEncoding_single (b : Nat) : hexEncoding [b] = hexByte b := by
  simp only [hexEncoding, List.map_cons, List.map_nil, intercalate_single]

theorem hexEncoding_length (data : List Nat) :
    (hexEncoding data).length = 3 * data.length - 1 := by
  induction data with
  | nil => rfl
  | cons b t ih =>
    cases t with
    | nil => rw [hexEncoding_single, hexByte_length]; rfl
    | cons c t2 =>
      rw [hexEncoding_cons_cons, List.length_append, List.length_cons, ih, hexByte_length]
      simp only [List.length_cons]
      omega

theorem hexEncoding_head (data : List Nat) : (hexEncoding data).head? ≠ some ' ' := by
  cases data with
  | nil => simp [hexEncoding, List.intercalate]
  | cons b t =>
    cases t with
    | nil =>
      simp only [hexEncoding_single, hexByte, List.head?_cons, ne_eq, Option.some.injEq]
      exact hexChars_ne_space _
    | cons c t2 =>
      simp only [hexEncoding_cons_cons, hexByte, List.cons_append, List.head?_cons, ne_eq,
        Option.some.injEq]
      exact hexChars_ne_space _

theorem hexEncoding_last (data : List Nat) : (hexEncoding data).getLast? ≠ some ' ' := by
  induction data with
  | nil => simp [hexEncoding, List.intercalate]
  | cons b t ih =>
    cases t with
    | nil =>
      simp only [hexEncoding_single, hexByte, List.getLast?_cons_cons, List.getLast?_singleton,
        ne_eq, Option.some.injEq]
      exact hexChars_ne_space _
    | cons c t2 =>
      have hlen := hexEncoding_length (c :: t2)
      rw [hexEncoding_cons_cons]
      generalize hexEncoding (c :: t2) = X at ih hlen
      cases X with
      | nil => exfalso; rw [List.length_nil, List.length_cons] at hlen; omega
      | cons x xs =>
        simp only [hexByte, List.cons_append, List.nil_append, List.getLast?_cons_cons]
        exact ih

/-- `BytesToHex` of a whole byte sequence is its hex encoding. -/
theorem BytesToHex_eq_hexEncoding (data : List Nat) (hbytes : ∀ b ∈ data, b < 256) :
    BytesToHex data data.length = String.mk (hexEncoding data) := by
  unfold BytesToHex
  simp only []
  rw [bytesToHex_loop data data.length (Nat.le_refl _), List.take_length]
  by_cases hne : data = []
  · subst hne
    simp [hexEncoding, List.intercalate]
  · rw [triples_eq_hexEncoding data hbytes hne]
    rw [if_pos ⟨by simp, List.getLast?_concat _⟩, List.dropLast_concat]


/-- Claim C19: for every byte sequence of length `n`, `BytesToHex` returns the
empty string when `n = 0` and otherwise exactly `3n - 1` characters: each byte
as two uppercase hexadecimal digits, zero-padded, in input order, separated by
single spaces, with no leading or trailing space. -/
theorem C19_bytes_to_hex_format (data : List Nat) (hbytes : ∀ b ∈ data, b < 256) :
    BytesToHex data data.length = String.mk (hexEncoding data)
      ∧ (data = [] → BytesToHex data data.length = "")
      ∧ (data ≠ [] → (BytesToHex data data.length).length = 3 * data.length - 1)
      ∧ (BytesToHex data data.length).data.head? ≠ some ' '
      ∧ (BytesToHex data data.length).data.getLast? ≠ some ' ' := by
  have h := BytesToHex_eq_hexEncoding data hbytes
  refine ⟨h, ?_, ?_, ?_, ?_⟩
  · intro hd
    rw [h, hd]
    rfl
  · intro _
    rw [h, String.length_mk, hexEncoding_length]
  · rw [h]
    exact hexEncoding_head data
  · rw [h]
    exact hexEncoding_last data

/-- Witness for C19: the bytes `0A 1B FF` of the repository test
`BytesToHex.ThreeBytes`. -/
theorem C19_bytes_to_hex_format_witness :
    (∀ b ∈ testBytes, b < 256)
      ∧ (BytesToHex testBytes testBytes.length = String.mk (hexEncoding testBytes)
          ∧ (testBytes = [] → BytesToHex testBytes testBytes.length = "")
          ∧ (testBytes ≠ [] →
              (BytesToHex testBytes testBytes.length).length = 3 * testBytes.length - 1)
          ∧ (BytesToHex testBytes testBytes.length).data.head? ≠ some ' '
          ∧ (BytesToHex testBytes testBytes.length).data.getLast? ≠ some ' ')
      ∧ BytesToHex testBytes testBytes.length = "0A 1B FF" :=
  ⟨by decide, C19_bytes_to_hex_format testBytes (by decide), by decide⟩


/-! ## Classification of a GET response -/

theorem RDMGetCommand_of_exchange {σ : Type} (T : Transport σ) (s : Session σ)
    (srcUID destUID pid : Nat) (paramData : Option (List Nat)) (paramLen : Nat)
    (rxLen : Int) (rxBuf : List Nat)
    (hsend : (T.SendRDM s.dev
        (BuildRDMPacket destUID srcUID s.transNum 1 0 0 RDM_CC_GET pid paramData paramLen)).2
        = true)
    (hrx : (T.ReceiveRDM (T.SendRDM s.dev
        (BuildRDMPacket destUID srcUID s.transNum 1 0 0 RDM_CC_GET pid paramData paramLen)).1
        512).2 = (rxLen, rxBuf)) :
    RDMGetCommand T s srcUID destUID pid paramData paramLen
      = (⟨(T.ReceiveRDM (T.SendRDM s.dev
            (BuildRDMPacket destUID srcUID s.transNum 1 0 0 RDM_CC_GET pid paramData
              paramLen)).1 512).1, (s.transNum + 1) % 256⟩,
         classifyResponse rxLen rxBuf) := by
  unfold RDMGetCommand
  simp only [hsend, hrx, Bool.true_eq_false, if_false]

theorem classifyResponse_short (rxLen : Int) (rxBuf : List Nat) (h1 : 1 ≤ rxLen)
    (h2 : rxLen ≤ 23) :
    classifyResponse rxLen rxBuf = { type := RDMResponseType.INVALID } := by
  unfold classifyResponse
  rw [if_neg (by omega), if_pos (by omega)]

theorem classifyResponse_overflow (rxLen : Int) (rxBuf : List Nat) (h1 : 24 ≤ rxLen)
    (h3 : rxBuf.getD 16 0 = 0x03) :
    classifyResponse rxLen rxBuf = { type := RDMResponseType.INVALID } := by
  unfold classifyResponse
  rw [if_neg (by omega), if_neg (by omega)]
  by_cases hs : rxBuf.getD 0 0 ≠ RDM_START_CODE
  · rw [if_pos hs]
  · rw [if_neg hs]
    simp only [h3]
    rfl

theorem classifyResponse_nack (rxLen : Int) (rxBuf : List Nat) (h1 : 24 ≤ rxLen)
    (h2 : rxBuf.getD 0 0 = RDM_START_CODE) (h3 : rxBuf.getD 16 0 = 0x02) :
    classifyResponse rxLen rxBuf
      = { type := RDMResponseType.NACK,
          nackReason := if rxBuf.getD 23 0 ≥ 2 then
              ((rxBuf.getD 24 0 <<< 8) ||| rxBuf.getD 25 0) % 65536
            else 0 } := by
  unfold classifyResponse
  rw [if_neg (by omega), if_neg (by omega), if_neg (not_not.mpr h2)]
  simp only [h3]
  rfl

/-- Claim C12 (amended): when the transport accepts the GET and answers with a
response (at least 24 bytes) whose response-type byte is `0x03`
(ACK_OVERFLOW), `RDMGetCommand` does not re-issue the GET: it has sent one
packet, received once, advanced the transaction number by one, and returns
INVALID with no data. -/
theorem C12_overflow_is_invalid_no_reissue {σ : Type} (T : Transport σ) (s : Session σ)
    (srcUID destUID pid : Nat) (paramData : Option (List Nat)) (paramLen : Nat)
    (rxLen : Int) (rxBuf : List Nat)
    (hsend : (T.SendRDM s.dev
        (BuildRDMPacket destUID srcUID s.transNum 1 0 0 RDM_CC_GET pid paramData paramLen)).2
        = true)
    (hrx : (T.ReceiveRDM (T.SendRDM s.dev
        (BuildRDMPacket destUID srcUID s.transNum 1 0 0 RDM_CC_GET pid paramData paramLen)).1
        512).2 = (rxLen, rxBuf))
    (hlen : 24 ≤ rxLen) (htype : rxBuf.getD 16 0 = 0x03) :
    RDMGetCommand T s srcUID destUID pid paramData paramLen
      = (⟨(T.ReceiveRDM (T.SendRDM s.dev
            (BuildRDMPacket destUID srcUID s.transNum 1 0 0 RDM_CC_GET pid paramData
              paramLen)).1 512).1, (s.transNum + 1) % 256⟩,
         { type := RDMResponseType.INVALID, nackReason := 0, data := [] }) := by
  rw [RDMGetCommand_of_exchange T s srcUID destUID pid paramData paramLen rxLen rxBuf hsend hrx,
    classifyResponse_overflow rxLen rxBuf hlen htype]

/-- Witness for C12 (amended): the overflow script on the scripted transport. -/
theorem C12_overflow_is_invalid_no_reissue_witness :
    ((24 : Int) ≤ ((testOverflow 1).length : Int) ∧ (testOverflow 1).getD 16 0 = 0x03)
      ∧ RDMGetCommand scriptedTransport ⟨(overflowScript, []), 0⟩ kControllerUID testFixtureUID
          PID_DEVICE_INFO none 0
        = (⟨(scriptedTransport.ReceiveRDM (scriptedTransport.SendRDM (overflowScript, [])
              (BuildRDMPacket testFixtureUID kControllerUID 0 1 0 0 RDM_CC_GET PID_DEVICE_INFO
                none 0)).1 512).1, (0 + 1) % 256⟩,
           { type := RDMResponseType.INVALID, nackReason := 0, data := [] }) :=
  ⟨⟨by decide, by decide⟩,
   C12_overflow_is_invalid_no_reissue scriptedTransport ⟨(overflowScript, []), 0⟩
     kControllerUID testFixtureUID PID_DEVICE_INFO none 0
     ((testOverflow 1).length : Int) (testOverflow 1) rfl (by decide) (by decide) (by decide)⟩

/-- Counterexample to C12: three ACK_OVERFLOW fragments of 20 bytes followed by
an ACK of 5 bytes are scripted; `RDMGetCommand` returns INVALID with no data
(not 65 bytes), has sent a single packet, and three responses of the script
are still unread. -/
theorem C12_counterexample :
    (RDMGetCommand scriptedTransport ⟨(overflowScript, []), 0⟩ kControllerUID testFixtureUID
        PID_DEVICE_INFO none 0).2
        = { type := RDMResponseType.INVALID, nackReason := 0, data := [] }
      ∧ (RDMGetCommand scriptedTransport ⟨(overflowScript, []), 0⟩ kControllerUID
          testFixtureUID PID_DEVICE_INFO none 0).2.data.length ≠ 65
      ∧ (RDMGetCommand scriptedTransport ⟨(overflowScript, []), 0⟩ kControllerUID
          testFixtureUID PID_DEVICE_INFO none 0).1.dev.2.length = 1
      ∧ (RDMGetCommand scriptedTransport ⟨(overflowScript, []), 0⟩ kControllerUID
          testFixtureUID PID_DEVICE_INFO none 0).1.dev.1.length = 3 := by
  decide


/-- Claim C13: a response of at least 26 bytes whose trailing two bytes do not
equal the checksum of the preceding bytes is classified INVALID.  The code does
not do this: `RDMGetCommand` never looks at the checksum.  The 29-byte ACK
`testAckCorrupted`, whose first parameter byte has one bit flipped and which
the checksum test of `SendRDMCommand` rejects, is returned as ACK with the
corrupted data. -/
theorem C13_bad_checksum_is_classified_ack :
    testAckCorrupted.length = 29
      ∧ checksumValid testAckCorrupted testAckCorrupted.length = false
      ∧ (RDMGetCommand (constTransport testAckCorrupted) ⟨(), 0⟩ kControllerUID
          testFixtureUID PID_DEVICE_INFO none 0).2
        = { type := RDMResponseType.ACK, nackReason := 0, data := [0x0B, 0x1B, 0xFF] } := by
  decide

/-- Claim C14 (amended): for every received response of at least 24 bytes with
start code `0xCC` whose response-type byte is `0x02`, `RDMGetCommand` returns
NACK whatever the parameter data length; when that length is at least 2 and at
least 26 bytes were received (so that bytes 24 and 25 are received bytes), the
reason code is bytes 24 and 25 read big-endian, and when the length is less
than 2 the reason code is 0. -/
theorem C14_nack_whatever_the_data_length {σ : Type} (T : Transport σ) (s : Session σ)
    (srcUID destUID pid : Nat) (paramData : Option (List Nat)) (paramLen : Nat)
    (rxLen : Int) (rxBuf : List Nat)
    (hsend : (T.SendRDM s.dev
        (BuildRDMPacket destUID srcUID s.transNum 1 0 0 RDM_CC_GET pid paramData paramLen)).2
        = true)
    (hrx : (T.ReceiveRDM (T.SendRDM s.dev
        (BuildRDMPacket destUID srcUID s.transNum 1 0 0 RDM_CC_GET pid paramData paramLen)).1
        512).2 = (rxLen, rxBuf))
    (hlen : 24 ≤ rxLen) (hstart : rxBuf.getD 0 0 = RDM_START_CODE)
    (htype : rxBuf.getD 16 0 = 0x02)
    (hb24 : rxBuf.getD 24 0 < 256) (hb25 : rxBuf.getD 25 0 < 256) :
    (RDMGetCommand T s srcUID destUID pid paramData paramLen).2.type = RDMResponseType.NACK
      ∧ (2 ≤ rxBuf.getD 23 0 → 26 ≤ rxLen →
          (RDMGetCommand T s srcUID destUID pid paramData paramLen).2.nackReason
            = rxBuf.getD 24 0 * 256 + rxBuf.getD 25 0)
      ∧ (rxBuf.getD 23 0 < 2 →
          (RDMGetCommand T s srcUID destUID pid paramData paramLen).2.nackReason = 0) := by
  rw [RDMGetCommand_of_exchange T s srcUID destUID pid paramData paramLen rxLen rxBuf hsend hrx,
    classifyResponse_nack rxLen rxBuf hlen hstart htype]
  refine ⟨rfl, ?_, ?_⟩
  · intro h _
    simp only [if_pos h]
    have hp : (2 : Nat) ^ 8 = 256 := by norm_num
    rw [shl_or _ _ 8 (by rw [hp]; exact hb25), hp]
    exact Nat.mod_eq_of_lt (by omega)
  · intro h
    have h' : ¬ rxBuf.getD 23 0 ≥ 2 := by omega
    simp only [if_neg h']

/-- Witness for C14 (amended): the 28-byte NACK with reason code `0x1234`. -/
theorem C14_nack_whatever_the_data_length_witness :
    ((24 : Int) ≤ (testNack.length : Int) ∧ testNack.getD 0 0 = RDM_START_CODE
        ∧ testNack.getD 16 0 = 0x02 ∧ testNack.getD 24 0 < 256 ∧ testNack.getD 25 0 < 256
        ∧ 2 ≤ testNack.getD 23 0 ∧ (26 : Int) ≤ (testNack.length : Int))
      ∧ ((RDMGetCommand (constTransport testNack) ⟨(), 0⟩ kControllerUID testFixtureUID
            PID_DEVICE_INFO none 0).2.type = RDMResponseType.NACK
          ∧ (2 ≤ testNack.getD 23 0 → (26 : Int) ≤ (testNack.length : Int) →
              (RDMGetCommand (constTransport testNack) ⟨(), 0⟩ kControllerUID testFixtureUID
                PID_DEVICE_INFO none 0).2.nackReason
                = testNack.getD 24 0 * 256 + testNack.getD 25 0)
          ∧ (testNack.getD 23 0 < 2 →
              (RDMGetCommand (constTransport testNack) ⟨(), 0⟩ kControllerUID testFixtureUID
                PID_DEVICE_INFO none 0).2.nackReason = 0))
      ∧ (RDMGetCommand (constTransport testNack) ⟨(), 0⟩ kControllerUID testFixtureUID
            PID_DEVICE_INFO none 0).2.nackReason = 0x1234 :=
  ⟨⟨by decide, by decide, by decide, by decide, by decide, by decide, by decide⟩,
   C14_nack_whatever_the_data_length (constTransport testNack) ⟨(), 0⟩ kControllerUID
     testFixtureUID PID_DEVICE_INFO none 0 (testNack.length : Int) testNack rfl rfl
     (by decide) (by decide) (by decide) (by decide) (by decide),
   by decide⟩

/-- Counterexample to C14: a response of type `0x02` whose parameter data
length is 0 is returned as NACK (reason code 0), not as INVALID. -/
theorem C14_counterexample :
    testNackNoData.getD 16 0 = 0x02
      ∧ testNackNoData.getD 23 0 = 0
      ∧ (RDMGetCommand (constTransport testNackNoData) ⟨(), 0⟩ kControllerUID testFixtureUID
          PID_DEVICE_INFO none 0).2
        = { type := RDMResponseType.NACK, nackReason := 0, data := [] }
      ∧ (RDMGetCommand (constTransport testNackNoData) ⟨(), 0⟩ kControllerUID testFixtureUID
          PID_DEVICE_INFO none 0).2.type ≠ RDMResponseType.INVALID := by
  decide

/-- Claim C15 (amended): for every received response of 1 to 23 bytes, of any
contents, `RDMGetCommand` returns INVALID with no data. -/
theorem C15_shorter_than_header_is_invalid {σ : Type} (T : Transport σ) (s : Session σ)
    (srcUID destUID pid : Nat) (paramData : Option (List Nat)) (paramLen : Nat)
    (rxLen : Int) (rxBuf : List Nat)
    (hsend : (T.SendRDM s.dev
        (BuildRDMPacket destUID srcUID s.transNum 1 0 0 RDM_CC_GET pid paramData paramLen)).2
        = true)
    (hrx : (T.ReceiveRDM (T.SendRDM s.dev
        (BuildRDMPacket destUID srcUID s.transNum 1 0 0 RDM_CC_GET pid paramData paramLen)).1
        512).2 = (rxLen, rxBuf))
    (hmin : 1 ≤ rxLen) (hmax : rxLen ≤ 23) :
    (RDMGetCommand T s srcUID destUID pid paramData paramLen).2
      = { type := RDMResponseType.INVALID, nackReason := 0, data := [] } := by
  rw [RDMGetCommand_of_exchange T s srcUID destUID pid paramData paramLen rxLen rxBuf hsend hrx,
    classifyResponse_short rxLen rxBuf hmin hmax]

/-- Witness for C15 (amended): the first 23 bytes of an ACK. -/
theorem C15_shorter_than_header_is_invalid_witness :
    ((1 : Int) ≤ ((testAck.take 23).length : Int) ∧ ((testAck.take 23).length : Int) ≤ 23)
      ∧ (RDMGetCommand (constTransport (testAck.take 23)) ⟨(), 0⟩ kControllerUID
          testFixtureUID PID_DEVICE_INFO none 0).2
        = { type := RDMResponseType.INVALID, nackReason := 0, data := [] } :=
  ⟨⟨by decide, by decide⟩,
   C15_shorter_than_header_is_invalid (constTransport (testAck.take 23)) ⟨(), 0⟩
     kControllerUID testFixtureUID PID_DEVICE_INFO none 0 ((testAck.take 23).length : Int)
     (testAck.take 23) rfl rfl (by decide) (by decide)⟩

/-- Counterexample to C15: the 24 header bytes of an ACK, with no checksum
bytes, are shorter than 26 bytes and are returned as ACK. -/
theorem C15_counterexample :
    testAckHeaderOnly.length = 24
      ∧ (RDMGetCommand (constTransport testAckHeaderOnly) ⟨(), 0⟩ kControllerUID
          testFixtureUID PID_DEVICE_INFO none 0).2
        = { type := RDMResponseType.ACK, nackReason := 0, data := [] }
      ∧ (RDMGetCommand (constTransport testAckHeaderOnly) ⟨(), 0⟩ kControllerUID
          testFixtureUID PID_DEVICE_INFO none 0).2.type ≠ RDMResponseType.INVALID := by
  decide


/-! ## Results of `ValidateFixture` entry by entry -/

theorem ValidateFixture_acc {σ : Type} (T : Transport σ) (srcUID destUID : Nat) :
    ∀ (params : List RDMParameter) (s : Session σ) (acc : List ValidationResult),
      params.foldl
          (fun acc param =>
            let r := validateParam T acc.1 srcUID destUID param
            (r.1, acc.2 ++ [r.2]))
          (s, acc)
        = ((ValidateFixture T s srcUID destUID params).1,
           acc ++ (ValidateFixture T s srcUID destUID params).2) := by
  intro params
  induction params with
  | nil => intro s acc; simp [ValidateFixture]
  | cons p ps ih =>
    intro s acc
    simp only [ValidateFixture, List.foldl_cons, List.nil_append]
    rw [ih, ih _ [(validateParam T s srcUID destUID p).2]]
    simp

theorem ValidateFixture_cons {σ : Type} (T : Transport σ) (s : Session σ)
    (srcUID destUID : Nat) (p : RDMParameter) (ps : List RDMParameter) :
    ValidateFixture T s srcUID destUID (p :: ps)
      = ((ValidateFixture T (validateParam T s srcUID destUID p).1 srcUID destUID ps).1,
         (validateParam T s srcUID destUID p).2
           :: (ValidateFixture T (validateParam T s srcUID destUID p).1 srcUID destUID ps).2) := by
  have h := ValidateFixture_acc T srcUID destUID ps (validateParam T s srcUID destUID p).1
    [(validateParam T s srcUID destUID p).2]
  simp only [ValidateFixture, List.foldl_cons, List.nil_append] at h ⊢
  rw [h]
  rfl

theorem ValidateFixture_append {σ : Type} (T : Transport σ) (srcUID destUID : Nat) :
    ∀ (pre post : List RDMParameter) (s : Session σ),
      ValidateFixture T s srcUID destUID (pre ++ post)
        = ((ValidateFixture T (ValidateFixture T s srcUID destUID pre).1 srcUID destUID post).1,
           (ValidateFixture T s srcUID destUID pre).2
             ++ (ValidateFixture T (ValidateFixture T s srcUID destUID pre).1 srcUID destUID
                  post).2) := by
  intro pre
  induction pre with
  | nil => intro post s; simp [ValidateFixture]
  | cons p ps ih =>
    intro post s
    rw [List.cons_append, ValidateFixture_cons, ih, ValidateFixture_cons]
    rfl

theorem ValidateFixture_length {σ : Type} (T : Transport σ) (srcUID destUID : Nat) :
    ∀ (params : List RDMParameter) (s : Session σ),
      (ValidateFixture T s srcUID destUID params).2.length = params.length := by
  intro params
  induction params with
  | nil => intro s; rfl
  | cons p ps ih => intro s; rw [ValidateFixture_cons]; simp [ih]

/-- The result at the position of an entry is what the loop body produces for
it in the session state reached after the entries before it. -/
theorem ValidateFixture_entry {σ : Type} (T : Transport σ) (s : Session σ)
    (srcUID destUID : Nat) (pre post : List RDMParameter) (p : RDMParameter) :
    ((ValidateFixture T s srcUID destUID (pre ++ p :: post)).2)[pre.length]?
      = some (validateParam T (ValidateFixture T s srcUID destUID pre).1 srcUID destUID p).2 := by
  rw [ValidateFixture_append, ValidateFixture_cons]
  have hl := ValidateFixture_length T srcUID destUID pre s
  simp only []
  rw [← hl, List.getElem?_append_right (Nat.le_refl _)]
  simp

/-- The session state after an entry is the one the loop body leaves. -/
theorem ValidateFixture_state_after {σ : Type} (T : Transport σ) (s : Session σ)
    (srcUID destUID : Nat) (pre : List RDMParameter) (p : RDMParameter) :
    (ValidateFixture T s srcUID destUID (pre ++ [p])).1
      = (validateParam T (ValidateFixture T s srcUID destUID pre).1 srcUID destUID p).1 := by
  rw [ValidateFixture_append, ValidateFixture_cons]
  rfl

theorem validateParam_discovery {σ : Type} (T : Transport σ) (s : Session σ)
    (srcUID destUID : Nat) (p : RDMParameter) (h : p.pid ≤ 0x0003) :
    validateParam T s srcUID destUID p
      = (s, { pid := p.pid, name := p.name, isMandatory := p.isMandatory,
              status := ValidationStatus.GREEN, value := "(discovery)",
              responseType := RDMResponseType.ACK }) := by
  unfold validateParam
  rw [if_pos h]

/-- The result of the loop body for a queried entry, by outcome of the GET. -/
theorem validateParam_queried {σ : Type} (T : Transport σ) (s : Session σ)
    (srcUID destUID : Nat) (p : RDMParameter) (h : p.pid > 0x0003) (resp : RDMResponse)
    (hresp : resp = (RDMGetCommand T s srcUID destUID p.pid none 0).2) :
    (validateParam T s srcUID destUID p).2.responseType = resp.type
      ∧ (resp.type = RDMResponseType.ACK →
          (validateParam T s srcUID destUID p).2.status = ValidationStatus.GREEN
            ∧ (validateParam T s srcUID destUID p).2.value
                = if resp.data ≠ [] then BytesToHex resp.data resp.data.length else "(empty)")
      ∧ (resp.type = RDMResponseType.ACK_TIMER →
          (validateParam T s srcUID destUID p).2.status = ValidationStatus.GREEN
            ∧ (validateParam T s srcUID destUID p).2.value = "(ACK_TIMER)")
      ∧ (resp.type ≠ RDMResponseType.ACK → resp.type ≠ RDMResponseType.ACK_TIMER →
          (validateParam T s srcUID destUID p).2.status
              = (if p.isMandatory then ValidationStatus.RED else ValidationStatus.YELLOW)
            ∧ (validateParam T s srcUID destUID p).2.value
                = if resp.type = RDMResponseType.NACK then
                    "NACK (0x" ++ BytesToHex (nackReasonBytes resp.nackReason) 2 ++ ")"
                  else if resp.type = RDMResponseType.TIMEOUT then "TIMEOUT"
                  else "INVALID") := by
  subst hresp
  unfold validateParam
  rw [if_neg (by omega)]
  simp only []
  generalize (RDMGetCommand T s srcUID destUID p.pid none 0) = g
  rcases g with ⟨s1, ⟨ty, reason, data⟩⟩
  cases ty <;> simp


/-- Claim C11: for every queried catalog entry (PID above the discovery PIDs),
the status `ValidateFixture` assigns is the documented function of the GET
outcome and the mandatory flag: GREEN for Ack or AckTimer, RED for Nack,
Timeout or Invalid on a mandatory entry, YELLOW for these on an optional one.
The outcome is that of the GET issued in the session state reached after the
entries before it. -/
theorem C11_status_is_function_of_outcome {σ : Type} (T : Transport σ) (s : Session σ)
    (srcUID destUID : Nat) (pre post : List RDMParameter) (p : RDMParameter)
    (resp : RDMResponse) (vr : ValidationResult)
    (hpid : p.pid > 0x0003)
    (hresp : resp = (RDMGetCommand T (ValidateFixture T s srcUID destUID pre).1 srcUID destUID
      p.pid none 0).2)
    (hvr : ((ValidateFixture T s srcUID destUID (pre ++ p :: post)).2)[pre.length]? = some vr) :
    vr.responseType = resp.type
      ∧ (resp.type = RDMResponseType.ACK ∨ resp.type = RDMResponseType.ACK_TIMER →
          vr.status = ValidationStatus.GREEN)
      ∧ (resp.type = RDMResponseType.NACK ∨ resp.type = RDMResponseType.TIMEOUT
            ∨ resp.type = RDMResponseType.INVALID →
          p.isMandatory = true → vr.status = ValidationStatus.RED)
      ∧ (resp.type = RDMResponseType.NACK ∨ resp.type = RDMResponseType.TIMEOUT
            ∨ resp.type = RDMResponseType.INVALID →
          p.isMandatory = false → vr.status = ValidationStatus.YELLOW) := by
  rw [ValidateFixture_entry] at hvr
  have hv := (Option.some.inj hvr).symm
  obtain ⟨h1, h2, h3, h4⟩ := validateParam_queried T (ValidateFixture T s srcUID destUID pre).1
    srcUID destUID p hpid resp hresp
  rw [hv]
  refine ⟨h1, ?_, ?_, ?_⟩
  · rintro (h | h)
    · exact (h2 h).1
    · exact (h3 h).1
  · intro h hm
    have := (h4 (by rcases h with h | h | h <;> rw [h] <;> decide)
      (by rcases h with h | h | h <;> rw [h] <;> decide)).1
    rw [this, hm]
    rfl
  · intro h hm
    have := (h4 (by rcases h with h | h | h <;> rw [h] <;> decide)
      (by rcases h with h | h | h <;> rw [h] <;> decide)).1
    rw [this, hm]
    rfl

/-- Witness for C11: a catalog of `DISC_MUTE` and the mandatory `DEVICE_INFO`
against a fixture that answers every GET with a NACK: the second result is
RED. -/
theorem C11_status_is_function_of_outcome_witness :
    (deviceInfoEntry.pid > 0x0003
        ∧ ({ type := RDMResponseType.NACK, nackReason := 0x1234, data := [] } : RDMResponse)
            = (RDMGetCommand (constTransport testNack)
                (ValidateFixture (constTransport testNack) ⟨(), 0⟩ kControllerUID
                  testFixtureUID [discMuteEntry]).1
                kControllerUID testFixtureUID deviceInfoEntry.pid none 0).2
        ∧ ((ValidateFixture (constTransport testNack) ⟨(), 0⟩ kControllerUID testFixtureUID
              ([discMuteEntry] ++ deviceInfoEntry :: [])).2)[[discMuteEntry].length]?
            = some { pid := 0x0060, name := "DEVICE_INFO", isMandatory := true,
                     status := ValidationStatus.RED, value := "NACK (0x34 12)",
                     responseType := RDMResponseType.NACK })
      ∧ (RDMResponseType.NACK = RDMResponseType.NACK
          ∧ (RDMResponseType.NACK = RDMResponseType.ACK
                ∨ RDMResponseType.NACK = RDMResponseType.ACK_TIMER →
              ValidationStatus.RED = ValidationStatus.GREEN)
          ∧ (RDMResponseType.NACK = RDMResponseType.NACK
                ∨ RDMResponseType.NACK = RDMResponseType.TIMEOUT
                ∨ RDMResponseType.NACK = RDMResponseType.INVALID →
              deviceInfoEntry.isMandatory = true → ValidationStatus.RED = ValidationStatus.RED)
          ∧ (RDMResponseType.NACK = RDMResponseType.NACK
                ∨ RDMResponseType.NACK = RDMResponseType.TIMEOUT
                ∨ RDMResponseType.NACK = RDMResponseType.INVALID →
              deviceInfoEntry.isMandatory = false →
              ValidationStatus.RED = ValidationStatus.YELLOW)) :=
  ⟨⟨by decide, by decide, by decide⟩,
   C11_status_is_function_of_outcome (constTransport testNack) ⟨(), 0⟩ kControllerUID
     testFixtureUID [discMuteEntry] [] deviceInfoEntry
     { type := RDMResponseType.NACK, nackReason := 0x1234, data := [] }
     { pid := 0x0060, name := "DEVICE_INFO", isMandatory := true,
       status := ValidationStatus.RED, value := "NACK (0x34 12)",
       responseType := RDMResponseType.NACK }
     (by decide) (by decide) (by decide)⟩

/-- Claim C16: for every catalog entry whose PID is `DISC_UNIQUE_BRANCH`,
`DISC_MUTE` or `DISC_UN_MUTE`, `ValidateFixture` sends no GET: the session
state (device state and transaction number) after the entry is the state
before it, and the result of the entry has status GREEN and display value
`"(discovery)"`. -/
theorem C16_discovery_pids_are_not_queried {σ : Type} (T : Transport σ) (s : Session σ)
    (srcUID destUID : Nat) (pre post : List RDMParameter) (p : RDMParameter)
    (hpid : p.pid = PID_DISC_UNIQUE_BRANCH ∨ p.pid = PID_DISC_MUTE ∨ p.pid = PID_DISC_UN_MUTE) :
    (ValidateFixture T s srcUID destUID (pre ++ [p])).1
        = (ValidateFixture T s srcUID destUID pre).1
      ∧ ((ValidateFixture T s srcUID destUID (pre ++ p :: post)).2)[pre.length]?
        = some { pid := p.pid, name := p.name, isMandatory := p.isMandatory,
                 status := ValidationStatus.GREEN, value := "(discovery)",
                 responseType := RDMResponseType.ACK } := by
  have h3 : p.pid ≤ 0x0003 := by
    rcases hpid with h | h | h <;> rw [h] <;> decide
  rw [ValidateFixture_state_after, ValidateFixture_entry, validateParam_discovery _ _ _ _ _ h3]
  exact ⟨rfl, rfl⟩

/-- Witness for C16: `DISC_MUTE` followed by `DEVICE_INFO` on the scripted
transport, which logs every packet: after the first entry no packet is logged
and the transaction number is still 7; after the second one packet is logged
and the transaction number is 8. -/
theorem C16_discovery_pids_are_not_queried_witness :
    (discMuteEntry.pid = PID_DISC_UNIQUE_BRANCH ∨ discMuteEntry.pid = PID_DISC_MUTE
        ∨ discMuteEntry.pid = PID_DISC_UN_MUTE)
      ∧ ((ValidateFixture scriptedTransport ⟨([testAck], []), 7⟩ kControllerUID testFixtureUID
            ([] ++ [discMuteEntry])).1
          = (ValidateFixture scriptedTransport ⟨([testAck], []), 7⟩ kControllerUID
              testFixtureUID []).1
        ∧ ((ValidateFixture scriptedTransport ⟨([testAck], []), 7⟩ kControllerUID
              testFixtureUID ([] ++ discMuteEntry :: [deviceInfoEntry])).2)[
              ([] : List RDMParameter).length]?
          = some { pid := discMuteEntry.pid, name := discMuteEntry.name,
                   isMandatory := discMuteEntry.isMandatory,
                   status := ValidationStatus.GREEN, value := "(discovery)",
                   responseType := RDMResponseType.ACK })
      ∧ (ValidateFixture scriptedTransport ⟨([testAck], []), 7⟩ kControllerUID testFixtureUID
            [discMuteEntry]).1.dev = ([testAck], [])
      ∧ (ValidateFixture scriptedTransport ⟨([testAck], []), 7⟩ kControllerUID testFixtureUID
            [discMuteEntry]).1.transNum = 7
      ∧ (ValidateFixture scriptedTransport ⟨([testAck], []), 7⟩ kControllerUID testFixtureUID
            [discMuteEntry, deviceInfoEntry]).1.dev.2.length = 1
      ∧ (ValidateFixture scriptedTransport ⟨([testAck], []), 7⟩ kControllerUID testFixtureUID
            [discMuteEntry, deviceInfoEntry]).1.transNum = 8 :=
  ⟨by decide,
   C16_discovery_pids_are_not_queried scriptedTransport ⟨([testAck], []), 7⟩ kControllerUID
     testFixtureUID [] [deviceInfoEntry] discMuteEntry (by decide),
   by decide, by decide, by decide, by decide⟩

/-- Claim C17: for a Nack with reason code `R` the display value is
`"NACK (0xRRRR)"` with `R` as four contiguous hexadecimal digits, most
significant first.  The code does not produce this: it prints the two bytes of
the stored reason code through `BytesToHex`, in memory order and separated by
a space.  For the reason code `0x1234` the display value is `"NACK (0x34 12)"`,
not `"NACK (0x1234)"`; and whatever the two bytes are, `BytesToHex` of two
bytes has five characters, so the value never has the claimed form. -/
theorem C17_nack_display_is_not_four_digits :
    (RDMGetCommand (constTransport testNack) ⟨(), 0⟩ kControllerUID testFixtureUID
        PID_DEVICE_INFO none 0).2
        = { type := RDMResponseType.NACK, nackReason := 0x1234, data := [] }
      ∧ (ValidateFixture (constTransport testNack) ⟨(), 0⟩ kControllerUID testFixtureUID
          [deviceInfoEntry]).2.map (fun r => r.value) = ["NACK (0x34 12)"]
      ∧ "NACK (0x" ++ String.mk (hexWord 0x1234) ++ ")" = "NACK (0x1234)"
      ∧ "NACK (0x34 12)" ≠ "NACK (0x" ++ String.mk (hexWord 0x1234) ++ ")"
      ∧ ∀ a b : Nat, (BytesToHex [a, b] 2).length = 5 := by
  refine ⟨by decide, by decide, by decide, by decide, ?_⟩
  intro a b
  rfl


/-- Claim C18 (amended): for every queried catalog entry whose GET outcome is
Ack with payload `d`, the display value is `BytesToHex(d)` when `d` is not
empty and the literal `"(empty)"` when `d` is empty. -/
theorem C18_ack_display_value {σ : Type} (T : Transport σ) (s : Session σ)
    (srcUID destUID : Nat) (pre post : List RDMParameter) (p : RDMParameter)
    (resp : RDMResponse) (vr : ValidationResult)
    (hpid : p.pid > 0x0003)
    (hresp : resp = (RDMGetCommand T (ValidateFixture T s srcUID destUID pre).1 srcUID destUID
      p.pid none 0).2)
    (hack : resp.type = RDMResponseType.ACK)
    (hvr : ((ValidateFixture T s srcUID destUID (pre ++ p :: post)).2)[pre.length]? = some vr) :
    (resp.data ≠ [] → vr.value = BytesToHex resp.data resp.data.length)
      ∧ (resp.data = [] → vr.value = "(empty)") := by
  rw [ValidateFixture_entry] at hvr
  have hv := (Option.some.inj hvr).symm
  obtain ⟨-, h2, -, -⟩ := validateParam_queried T (ValidateFixture T s srcUID destUID pre).1
    srcUID destUID p hpid resp hresp
  rw [hv, (h2 hack).2]
  constructor
  · intro h; rw [if_pos h]
  · intro h; rw [if_neg (not_not.mpr h)]

/-- Witness for C18 (amended): an ACK carrying `0A 1B FF`. -/
theorem C18_ack_display_value_witness :
    (deviceInfoEntry.pid > 0x0003
        ∧ ({ type := RDMResponseType.ACK, nackReason := 0, data := testBytes } : RDMResponse)
            = (RDMGetCommand (constTransport testAck)
                (ValidateFixture (constTransport testAck) ⟨(), 0⟩ kControllerUID
                  testFixtureUID []).1
                kControllerUID testFixtureUID deviceInfoEntry.pid none 0).2
        ∧ RDMResponseType.ACK = RDMResponseType.ACK
        ∧ ((ValidateFixture (constTransport testAck) ⟨(), 0⟩ kControllerUID testFixtureUID
              ([] ++ deviceInfoEntry :: [])).2)[([] : List RDMParameter).length]?
            = some { pid := 0x0060, name := "DEVICE_INFO", isMandatory := true,
                     status := ValidationStatus.GREEN, value := "0A 1B FF",
                     responseType := RDMResponseType.ACK })
      ∧ ((testBytes ≠ [] → "0A 1B FF" = BytesToHex testBytes testBytes.length)
          ∧ (testBytes = [] → "0A 1B FF" = "(empty)")) :=
  ⟨⟨by decide, by decide, rfl, by decide⟩,
   C18_ack_display_value (constTransport testAck) ⟨(), 0⟩ kControllerUID testFixtureUID
     [] [] deviceInfoEntry
     { type := RDMResponseType.ACK, nackReason := 0, data := testBytes }
     { pid := 0x0060, name := "DEVICE_INFO", isMandatory := true,
       status := ValidationStatus.GREEN, value := "0A 1B FF",
       responseType := RDMResponseType.ACK }
     (by decide) (by decide) rfl (by decide)⟩

/-- Counterexample to C18: for an ACK with an empty payload the display value
is `"(empty)"`, which is not `BytesToHex` of the empty payload (the empty
string). -/
theorem C18_counterexample :
    (RDMGetCommand (constTransport testAckNoData) ⟨(), 0⟩ kControllerUID testFixtureUID
        PID_DEVICE_INFO none 0).2
        = { type := RDMResponseType.ACK, nackReason := 0, data := [] }
      ∧ (ValidateFixture (constTransport testAckNoData) ⟨(), 0⟩ kControllerUID testFixtureUID
          [deviceInfoEntry]).2.map (fun r => r.value) = ["(empty)"]
      ∧ BytesToHex [] 0 = ""
      ∧ "(empty)" ≠ BytesToHex [] 0 := by
  decide


/-! ## Text form of a UID -/

theorem upperHex_succ (w n : Nat) :
    upperHex (w + 1) n = upperHex w (n / 16) ++ [hexChars.getD (n % 16) '?'] := by
  unfold upperHex
  rw [List.range_succ, List.map_append]
  congr 1
  · apply List.map_congr_left
    intro i hi
    have hiw : i < w := List.mem_range.mp hi
    have e : w + 1 - 1 - i = (w - 1 - i) + 1 := by omega
    rw [e, pow_succ, Nat.mul_comm, ← Nat.div_div_eq_div_mul]
  · simp

theorem hexPad_eq_upperHex : ∀ (w n : Nat), hexPad w n = upperHex w n := by
  intro w
  induction w with
  | zero => intro n; simp [hexPad, upperHex]
  | succ w ih =>
    intro n
    rw [hexPad, ih, upperHex_succ, hexDigit_eq_hexChars]

theorem upperHex_length (w n : Nat) : (upperHex w n).length = w := by
  simp [upperHex]

theorem upperHex_mem (w n : Nat) : ∀ c ∈ upperHex w n, c ∈ hexChars := by
  intro c hc
  unfold upperHex at hc
  obtain ⟨i, -, rfl⟩ := List.mem_map.mp hc
  have hlt : n / 16 ^ (w - 1 - i) % 16 < hexChars.length :=
    Nat.mod_lt _ (by decide)
  rw [List.getD_eq_getElem _ _ hlt]
  exact List.getElem_mem _

theorem UIDToString_data (u : Nat) (hu : u < 2 ^ 48) :
    (UIDToString u).data = upperHex 4 (u / 2 ^ 32) ++ [':'] ++ upperHex 8 (u % 2 ^ 32) := by
  have hp : (2 : Nat) ^ 48 = 281474976710656 := by norm_num
  have hq : (2 : Nat) ^ 32 = 4294967296 := by norm_num
  rw [hp] at hu
  have hm : (u >>> 32) &&& 0xFFFF = u / 2 ^ 32 := by
    rw [and_ffff, Nat.shiftRight_eq_div_pow, hq]; omega
  have hd : u &&& 0xFFFFFFFF = u % 2 ^ 32 := by rw [and_ffffffff, hq]
  unfold UIDToString
  simp only [hm, hd, hexPad_eq_upperHex]

/-- Claim C21: for every 48-bit UID `u`, `UIDToString u` has exactly 13
characters: the four uppercase hexadecimal digits of the manufacturer ID
(bits 47..32, `u / 2^32`), a colon at index 4, and the eight uppercase
hexadecimal digits of the device ID (bits 31..0, `u % 2^32`), both zero-padded
and most significant digit first; every digit is one of `0123456789ABCDEF`. -/
theorem C21_uid_text_is_thirteen_characters (u : Nat) (hu : u < 2 ^ 48) :
    (UIDToString u).length = 13
      ∧ (UIDToString u).data = upperHex 4 (u / 2 ^ 32) ++ [':'] ++ upperHex 8 (u % 2 ^ 32)
      ∧ (UIDToString u).data.getD 4 ' ' = ':'
      ∧ (upperHex 4 (u / 2 ^ 32)).length = 4
      ∧ (upperHex 8 (u % 2 ^ 32)).length = 8
      ∧ ∀ c ∈ upperHex 4 (u / 2 ^ 32) ++ upperHex 8 (u % 2 ^ 32), c ∈ hexChars := by
  have hdata := UIDToString_data u hu
  have h4 := upperHex_length 4 (u / 2 ^ 32)
  have h8 := upperHex_length 8 (u % 2 ^ 32)
  refine ⟨?_, hdata, ?_, h4, h8, ?_⟩
  · show (UIDToString u).data.length = 13
    rw [hdata]
    simp only [List.length_append, h4, h8, List.length_singleton]
  · rw [hdata, List.append_assoc]
    have e := List.getD_append_right (upperHex 4 (u / 2 ^ 32)) ([':'] ++ upperHex 8 (u % 2 ^ 32))
      ' ' 4 (by omega)
    rw [e, h4]
    rfl
  · intro c hc
    rcases List.mem_append.mp hc with h | h
    · exact upperHex_mem _ _ c h
    · exact upperHex_mem _ _ c h

/-- Witness for C21: the controller UID `454E:54000001` of the repository
test. -/
theorem C21_uid_text_is_thirteen_characters_witness :
    0x454E54000001 < 2 ^ 48
      ∧ ((UIDToString 0x454E54000001).length = 13
        ∧ (UIDToString 0x454E54000001).data
            = upperHex 4 (0x454E54000001 / 2 ^ 32) ++ [':']
              ++ upperHex 8 (0x454E54000001 % 2 ^ 32)
        ∧ (UIDToString 0x454E54000001).data.getD 4 ' ' = ':'
        ∧ (upperHex 4 (0x454E54000001 / 2 ^ 32)).length = 4
        ∧ (upperHex 8 (0x454E54000001 % 2 ^ 32)).length = 8
        ∧ ∀ c ∈ upperHex 4 (0x454E54000001 / 2 ^ 32)
            ++ upperHex 8 (0x454E54000001 % 2 ^ 32), c ∈ hexChars) :=
  ⟨by decide, C21_uid_text_is_thirteen_characters 0x454E54000001 (by decide)⟩

theorem UIDToString_example : UIDToString 0x454E54000001 = "454E:54000001" := by decide

/-! ## Bisection on a collision -/

theorem DiscoverBranchLog_collision {σ : Type} (T : Transport σ) (srcUID : Nat)
    (s : Session σ) (lower upper : Nat) (found : List Nat) (depth : Nat)
    (hdepth : depth < 48) (hcoll : (TryDiscBranch T s srcUID lower upper 0).2.1 = 0) :
    DiscoverBranchLog T srcUID s lower upper found depth
      = if lower ≥ upper then ((TryDiscBranch T s srcUID lower upper 0).1, found, [])
        else
          ((DiscoverBranchLog T srcUID
              (DiscoverBranchLog T srcUID (TryDiscBranch T s srcUID lower upper 0).1 lower
                (lower + (upper - lower) / 2) found (depth + 1)).1
              (lower + (upper - lower) / 2 + 1) upper
              (DiscoverBranchLog T srcUID (TryDiscBranch T s srcUID lower upper 0).1 lower
                (lower + (upper - lower) / 2) found (depth + 1)).2.1 (depth + 1)).1,
           (DiscoverBranchLog T srcUID
              (DiscoverBranchLog T srcUID (TryDiscBranch T s srcUID lower upper 0).1 lower
                (lower + (upper - lower) / 2) found (depth + 1)).1
              (lower + (upper - lower) / 2 + 1) upper
              (DiscoverBranchLog T srcUID (TryDiscBranch T s srcUID lower upper 0).1 lower
                (lower + (upper - lower) / 2) found (depth + 1)).2.1 (depth + 1)).2.1,
           ⟨lower, lower + (upper - lower) / 2, depth + 1⟩
             :: (DiscoverBranchLog T srcUID (TryDiscBranch T s srcUID lower upper 0).1 lower
                  (lower + (upper - lower) / 2) found (depth + 1)).2.2
             ++ ⟨lower + (upper - lower) / 2 + 1, upper, depth + 1⟩
               :: (DiscoverBranchLog T srcUID
                    (DiscoverBranchLog T srcUID (TryDiscBranch T s srcUID lower upper 0).1
                      lower (lower + (upper - lower) / 2) found (depth + 1)).1
                    (lower + (upper - lower) / 2 + 1) upper
                    (DiscoverBranchLog T srcUID (TryDiscBranch T s srcUID lower upper 0).1
                      lower (lower + (upper - lower) / 2) found (depth + 1)).2.1
                    (depth + 1)).2.2) := by
  have h : ¬ depth ≥ 48 := by omega
  have h1 : ¬ (TryDiscBranch T s srcUID lower upper 0).2.1 = -1 := by rw [hcoll]; decide
  have h2 : ¬ (TryDiscBranch T s srcUID lower upper 0).2.1 = 1 := by rw [hcoll]; decide
  rw [DiscoverBranchLog]
  simp only [if_neg h, if_neg h1, if_neg h2, if_pos hcoll]

theorem mid64_eq (lower upper : Nat) (hle : lower ≤ upper) (hupper : upper < 2 ^ 64) :
    mid64 lower upper = lower + (upper - lower) / 2 := by
  have hp : (2 : Nat) ^ 64 = 18446744073709551616 := by norm_num
  unfold mid64
  rw [hp] at hupper ⊢
  have e : (upper + 18446744073709551616 - lower) % 18446744073709551616 = upper - lower := by
    omega
  rw [e]
  omega

/-- Claim C26: in `DiscoverBranch` (below the depth limit), when the branch
request over `[lower, upper]` reports a collision: if `lower ≥ upper` the call
returns at once, in the session state the branch request left, with the found
list unchanged and no recursive call; if `lower < upper` it makes exactly two
direct recursive calls, first on `[lower, mid]` and then, in the state and with
the found list the first one left, on `[mid + 1, upper]`, where
`mid = lower + (upper - lower) / 2`, and returns what the second call returns. -/
theorem C26_collision_stops_or_bisects {σ : Type} (T : Transport σ) (srcUID : Nat)
    (s : Session σ) (lower upper : Nat) (found : List Nat) (depth : Nat)
    (hdepth : depth < 48) (hcoll : (TryDiscBranch T s srcUID lower upper 0).2.1 = 0) :
    (lower ≥ upper →
        DiscoverBranchLog T srcUID s lower upper found depth
            = ((TryDiscBranch T s srcUID lower upper 0).1, found, [])
          ∧ DiscoverBranch T srcUID s lower upper found depth
            = ((TryDiscBranch T s srcUID lower upper 0).1, found))
      ∧ (lower < upper →
          ∀ (left right : Session σ × List Nat × List BranchCall),
            left = DiscoverBranchLog T srcUID (TryDiscBranch T s srcUID lower upper 0).1
              lower (lower + (upper - lower) / 2) found (depth + 1) →
            right = DiscoverBranchLog T srcUID left.1 (lower + (upper - lower) / 2 + 1)
              upper left.2.1 (depth + 1) →
            DiscoverBranchLog T srcUID s lower upper found depth
                = (right.1, right.2.1,
                    ⟨lower, lower + (upper - lower) / 2, depth + 1⟩ :: left.2.2
                      ++ ⟨lower + (upper - lower) / 2 + 1, upper, depth + 1⟩ :: right.2.2)
              ∧ DiscoverBranch T srcUID s lower upper found depth = (right.1, right.2.1)) := by
  have hlog := DiscoverBranchLog_collision T srcUID s lower upper found depth hdepth hcoll
  have hspec := (DiscoverBranchLog_spec T srcUID (48 - depth) depth rfl s lower upper found).1
  constructor
  · intro hge
    rw [if_pos hge] at hlog
    refine ⟨hlog, ?_⟩
    rw [← hspec, hlog]
  · intro hlt left right hleft hright
    have hnge : ¬ lower ≥ upper := by omega
    rw [if_neg hnge, ← hleft, ← hright] at hlog
    refine ⟨hlog, ?_⟩
    rw [← hspec, hlog]

/-- Witness for C26: a line that always carries a garbled frame, at depth 47,
on the single-UID range `[5, 5]`. -/
theorem C26_collision_stops_or_bisects_witness :
    (47 < 48
        ∧ (TryDiscBranch (constTransport garbledResponse) ⟨(), 0⟩ kControllerUID 5 5 0).2.1 = 0
        ∧ 5 ≥ 5)
      ∧ DiscoverBranchLog (constTransport garbledResponse) kControllerUID ⟨(), 0⟩ 5 5 [] 47
          = ((TryDiscBranch (constTransport garbledResponse) ⟨(), 0⟩ kControllerUID 5 5 0).1,
              [], [])
      ∧ DiscoverBranch (constTransport garbledResponse) kControllerUID ⟨(), 0⟩ 5 5 [] 47
          = ((TryDiscBranch (constTransport garbledResponse) ⟨(), 0⟩ kControllerUID 5 5 0).1,
              []) :=
  ⟨⟨by decide, by decide, by decide⟩,
   (C26_collision_stops_or_bisects (constTransport garbledResponse) kControllerUID ⟨(), 0⟩
      5 5 [] 47 (by decide) (by decide)).1 (by decide)⟩

/-- The bisecting half of C26 on the same line, range `[4, 5]` at depth 47: the
two recursive calls are on `[4, 4]` and `[5, 5]`, and being at depth 48 they
return at once. -/
theorem DiscoverBranchLog_garbled_bisects :
    DiscoverBranchLog (constTransport garbledResponse) kControllerUID ⟨(), 0⟩ 4 5 [] 47
      = (⟨(), 1⟩, [], [⟨4, 4, 48⟩, ⟨5, 5, 48⟩]) := by
  have hc : (TryDiscBranch (constTransport garbledResponse) ⟨(), 0⟩ kControllerUID 4 5 0).2.1
      = 0 := by decide
  rw [DiscoverBranchLog_collision _ _ _ _ _ _ _ (by decide) hc, if_neg (by decide)]
  rw [DiscoverBranchLog_base _ _ _ _ _ _ 48 (by decide)]
  rw [DiscoverBranchLog_base _ _ _ _ _ _ 48 (by decide)]
  rfl

/-! ## Arithmetic of the bisection point -/

/-- Claim C28: for every `lower < upper` below `2 ^ 48`, the bisection point
computed in 64-bit unsigned arithmetic (`mid64`) equals the exact value
`lower + (upper - lower) / 2` (nothing wraps, and `mid + 1` does not wrap
either), and `lower ≤ mid < upper`; hence `[lower, mid]` and `[mid + 1, upper]`
are both non-empty, disjoint, cover `[lower, upper]` exactly, and each holds
strictly fewer UIDs than `[lower, upper]`.  These are the two ranges
`DiscoverBranch` recurses into on a collision. -/
theorem C28_bisection_point_splits_the_range (lower upper : Nat) (hlt : lower < upper)
    (hupper : upper < 2 ^ 48) :
    mid64 lower upper = lower + (upper - lower) / 2
      ∧ lower + (upper - lower) / 2 + 1 < 2 ^ 64
      ∧ lower ≤ mid64 lower upper ∧ mid64 lower upper < upper
      ∧ (∀ u, (lower ≤ u ∧ u ≤ upper)
          ↔ ((lower ≤ u ∧ u ≤ mid64 lower upper) ∨ (mid64 lower upper + 1 ≤ u ∧ u ≤ upper)))
      ∧ (∀ u, ¬ ((lower ≤ u ∧ u ≤ mid64 lower upper)
          ∧ (mid64 lower upper + 1 ≤ u ∧ u ≤ upper)))
      ∧ mid64 lower upper - lower + 1 < upper - lower + 1
      ∧ upper - (mid64 lower upper + 1) + 1 < upper - lower + 1
      ∧ (∀ (σ : Type) (T : Transport σ) (srcUID : Nat) (s : Session σ) (found : List Nat)
          (depth : Nat), depth < 48 → (TryDiscBranch T s srcUID lower upper 0).2.1 = 0 →
          (DiscoverBranchLog T srcUID s lower upper found depth).2.2.head?
              = some ⟨lower, mid64 lower upper, depth + 1⟩
            ∧ ⟨mid64 lower upper + 1, upper, depth + 1⟩
              ∈ (DiscoverBranchLog T srcUID s lower upper found depth).2.2) := by
  have hp : (2 : Nat) ^ 48 = 281474976710656 := by norm_num
  have hq : (2 : Nat) ^ 64 = 18446744073709551616 := by norm_num
  have hm := mid64_eq lower upper (Nat.le_of_lt hlt) (by rw [hp] at hupper; rw [hq]; omega)
  rw [hm, hq]
  rw [hp] at hupper
  refine ⟨rfl, by omega, by omega, by omega, ?_, ?_, by omega, by omega, ?_⟩
  · intro u; omega
  · intro u; omega
  · intro σ T srcUID s found depth hdepth hcoll
    rw [DiscoverBranchLog_collision T srcUID s lower upper found depth hdepth hcoll,
      if_neg (by omega)]
    refine ⟨rfl, ?_⟩
    simp

/-- Witness for C28: the full range `[0, FFFE:FFFFFFFF]` that `RDMDiscovery`
starts from. -/
theorem C28_bisection_point_splits_the_range_witness :
    (0 < 0xFFFEFFFFFFFF ∧ 0xFFFEFFFFFFFF < 2 ^ 48)
      ∧ mid64 0 0xFFFEFFFFFFFF = 0 + (0xFFFEFFFFFFFF - 0) / 2
      ∧ 0 ≤ mid64 0 0xFFFEFFFFFFFF ∧ mid64 0 0xFFFEFFFFFFFF < 0xFFFEFFFFFFFF :=
  ⟨⟨by decide, by decide⟩,
   (C28_bisection_point_splits_the_range 0 0xFFFEFFFFFFFF (by decide) (by decide)).1,
   (C28_bisection_point_splits_the_range 0 0xFFFEFFFFFFFF (by decide) (by decide)).2.2.1,
   (C28_bisection_point_splits_the_range 0 0xFFFEFFFFFFFF (by decide) (by decide)).2.2.2.1⟩

theorem mid64_full_range : mid64 0 0xFFFEFFFFFFFF = 0x7FFF7FFFFFFF := by decide

/-! ## Discovery responses without separator or without UID bytes -/

/-- The preamble loop on a buffer that starts with `k` bytes `0xFE` followed,
within the received length, by a byte that is not `0xFE`, or by the end of the
received bytes: it stops at offset `k`. -/
theorem stripPreamble_prefix (k : Nat) (rest : List Nat) (n : Nat) (hn : k ≤ n)
    (hx : k < n → rest.getD 0 0 ≠ 0xFE) :
    ∀ (fuel j : Nat), j ≤ k → k - j ≤ fuel →
      stripPreamble (List.replicate k 0xFE ++ rest) n fuel j = k := by
  intro fuel
  induction fuel with
  | zero =>
    intro j hj hf
    rw [stripPreamble]
    omega
  | succ f ih =>
    intro j hj hf
    rw [stripPreamble]
    by_cases hjk : j < k
    · have hg := getD_replicate_append k 0xFE rest j hjk
      rw [if_pos ⟨by omega, hg⟩]
      exact ih (j + 1) (by omega) (by omega)
    · have hjk2 : j = k := by omega
      subst hjk2
      have hg := getD_replicate_append_at j 0xFE rest 0
      rw [Nat.add_zero] at hg
      rw [if_neg]
      rintro ⟨h1, h2⟩
      rw [hg] at h2
      exact hx h1 h2

theorem getD_zero_of_head (rest stale : List Nat) (v : Nat) (hne : rest ≠ [])
    (h : rest.head? ≠ some v) : (rest ++ stale).getD 0 0 ≠ v := by
  cases rest with
  | nil => exact absurd rfl hne
  | cons a t =>
    intro e
    apply h
    simp only [List.cons_append, List.getD_cons_zero] at e
    simp [e]

theorem decodePairs_append_left (rest stale : List Nat) (h : 12 ≤ rest.length) :
    decodePairs (rest ++ stale) 0 = decodePairs rest 0 := by
  have e : List.range 6 = [0, 1, 2, 3, 4, 5] := rfl
  simp only [decodePairs, e, List.map_cons, List.map_nil, Nat.zero_add, Nat.zero_mul,
    Nat.one_mul, Nat.reduceMul, Nat.reduceAdd]
  rw [getD_append_lt rest stale 0 (by omega), getD_append_lt rest stale 1 (by omega),
    getD_append_lt rest stale 2 (by omega), getD_append_lt rest stale 3 (by omega),
    getD_append_lt rest stale 4 (by omega), getD_append_lt rest stale 5 (by omega),
    getD_append_lt rest stale 6 (by omega), getD_append_lt rest stale 7 (by omega),
    getD_append_lt rest stale 8 (by omega), getD_append_lt rest stale 9 (by omega),
    getD_append_lt rest stale 10 (by omega), getD_append_lt rest stale 11 (by omega)]

/-- A received response of `k` preamble bytes followed by `rest`, where `rest`
starts neither with `0xFE` nor with the separator `0xAA` (or is empty): the
separator is not required, the number of bytes after the preamble decides. -/
theorem parseDiscResponse_no_separator (k : Nat) (rest stale : List Nat) (foundUID : Nat)
    (hne : 0 < k + rest.length) (hfe : rest.head? ≠ some 0xFE)
    (haa : rest.head? ≠ some 0xAA) :
    parseDiscResponse ((k + rest.length : Nat) : Int)
        (List.replicate k 0xFE ++ rest ++ stale) foundUID
      = if rest.length = 0 then (-1, foundUID)
        else if rest.length < 12 then (0, foundUID)
        else (1, UnpackUID (decodePairs rest 0)) := by
  have hneg : ¬ (((k + rest.length : Nat) : Int) ≤ 0) := by omega
  have hstrip : stripPreamble (List.replicate k 0xFE ++ (rest ++ stale)) (k + rest.length)
      (k + rest.length) 0 = k := by
    apply stripPreamble_prefix k (rest ++ stale) (k + rest.length) (by omega) _ _ 0
      (by omega) (by omega)
    intro hk
    have hr : rest ≠ [] := by
      intro e; rw [e] at hk; simp at hk
    exact getD_zero_of_head rest stale 0xFE hr hfe
  have hsep : ¬ (k < k + rest.length
      ∧ (List.replicate k 0xFE ++ (rest ++ stale)).getD k 0 = 0xAA) := by
    rintro ⟨hk, h2⟩
    have hr : rest ≠ [] := by
      intro e; rw [e] at hk; simp at hk
    have hg := getD_replicate_append_at k 0xFE (rest ++ stale) 0
    rw [Nat.add_zero] at hg
    rw [hg] at h2
    exact getD_zero_of_head rest stale 0xAA hr haa h2
  unfold parseDiscResponse
  rw [List.append_assoc]
  simp only [if_neg hneg, Int.toNat_ofNat, hstrip, if_neg hsep]
  by_cases h0 : rest.length = 0
  · rw [if_pos h0, if_pos (by omega), if_neg (by omega)]
  · rw [if_neg h0]
    by_cases h12 : rest.length < 12
    · rw [if_pos h12, if_pos (by omega), if_pos (by omega)]
    · rw [if_neg h12, if_neg (by omega)]
      have hd : decodePairs (List.replicate k 0xFE ++ (rest ++ stale)) k
          = decodePairs rest 0 := by
        have := decodePairs_append_pre (List.replicate k 0xFE) (rest ++ stale)
        rw [List.length_replicate] at this
        rw [this, decodePairs_append_left rest stale (by omega)]
      rw [hd]

/-- A received response of `k` preamble bytes, the separator, and `rest` of
fewer than 12 bytes: collision when `rest` is not empty, no responder when it
is. -/
theorem parseDiscResponse_short (k : Nat) (rest stale : List Nat) (foundUID : Nat)
    (hlen : rest.length < 12) :
    parseDiscResponse ((k + 1 + rest.length : Nat) : Int)
        (List.replicate k 0xFE ++ [0xAA] ++ rest ++ stale) foundUID
      = if rest.length = 0 then (-1, foundUID) else (0, foundUID) := by
  have hneg : ¬ (((k + 1 + rest.length : Nat) : Int) ≤ 0) := by omega
  have hbuf : List.replicate k 0xFE ++ [0xAA] ++ rest ++ stale
      = List.replicate k 0xFE ++ (0xAA :: (rest ++ stale)) := by simp
  have hstrip : stripPreamble (List.replicate k 0xFE ++ (0xAA :: (rest ++ stale)))
      (k + 1 + rest.length) (k + 1 + rest.length) 0 = k :=
    stripPreamble_prefix k (0xAA :: (rest ++ stale)) (k + 1 + rest.length) (by omega)
      (fun _ => by simp) _ 0 (by omega) (by omega)
  have hsep : k < k + 1 + rest.length
      ∧ (List.replicate k 0xFE ++ (0xAA :: (rest ++ stale))).getD k 0 = 0xAA := by
    refine ⟨by omega, ?_⟩
    have hg := getD_replicate_append_at k 0xFE (0xAA :: (rest ++ stale)) 0
    rw [Nat.add_zero] at hg
    rw [hg]
    rfl
  unfold parseDiscResponse
  rw [hbuf]
  simp only [if_neg hneg, Int.toNat_ofNat, hstrip, if_pos hsep]
  rw [if_pos (by omega)]
  by_cases h0 : rest.length = 0
  · rw [if_pos h0, if_neg (by omega)]
  · rw [if_neg h0, if_pos (by omega)]

theorem DiscoverBranchLog_no_responder {σ : Type} (T : Transport σ) (srcUID : Nat)
    (s : Session σ) (lower upper : Nat) (found : List Nat) (depth : Nat)
    (hdepth : depth < 48) (hnone : (TryDiscBranch T s srcUID lower upper 0).2.1 = -1) :
    DiscoverBranchLog T srcUID s lower upper found depth
      = ((TryDiscBranch T s srcUID lower upper 0).1, found, []) := by
  have h : ¬ depth ≥ 48 := by omega
  rw [DiscoverBranchLog]
  simp only [if_neg h, if_pos hnone]

theorem DiscoverBranchLog_single {σ : Type} (T : Transport σ) (srcUID : Nat)
    (s : Session σ) (lower upper : Nat) (found : List Nat) (depth : Nat)
    (hdepth : depth < 48) (hone : (TryDiscBranch T s srcUID lower upper 0).2.1 = 1) :
    DiscoverBranchLog T srcUID s lower upper found depth
      = ((DiscoverBranchLog T srcUID
            (SendDiscMute T (TryDiscBranch T s srcUID lower upper 0).1 srcUID
              (TryDiscBranch T s srcUID lower upper 0).2.2).1 lower upper
            (found ++ [(TryDiscBranch T s srcUID lower upper 0).2.2]) (depth + 1)).1,
         (DiscoverBranchLog T srcUID
            (SendDiscMute T (TryDiscBranch T s srcUID lower upper 0).1 srcUID
              (TryDiscBranch T s srcUID lower upper 0).2.2).1 lower upper
            (found ++ [(TryDiscBranch T s srcUID lower upper 0).2.2]) (depth + 1)).2.1,
         ⟨lower, upper, depth + 1⟩ ::
           (DiscoverBranchLog T srcUID
            (SendDiscMute T (TryDiscBranch T s srcUID lower upper 0).1 srcUID
              (TryDiscBranch T s srcUID lower upper 0).2.2).1 lower upper
            (found ++ [(TryDiscBranch T s srcUID lower upper 0).2.2]) (depth + 1)).2.2) := by
  have h : ¬ depth ≥ 48 := by omega
  have h1 : ¬ (TryDiscBranch T s srcUID lower upper 0).2.1 = -1 := by rw [hone]; decide
  rw [DiscoverBranchLog]
  simp only [if_neg h, if_neg h1, if_pos hone]

/-- On a line that always delivers `resp`, a branch request returns what the
parser makes of `resp`. -/
theorem TryDiscBranch_constTransport (resp : List Nat) (tn srcUID lower upper f : Nat) :
    TryDiscBranch (constTransport resp) ⟨(), tn⟩ srcUID lower upper f
      = (⟨(), (tn + 1) % 256⟩, parseDiscResponse (resp.length : Int) resp f) :=
  TryDiscBranch_of_exchange (constTransport resp) ⟨(), tn⟩ srcUID lower upper f () ()
    (resp.length : Int) resp rfl rfl

/-- Claim C24 (amended): the separator is not required.  When the received
discovery response is `k` preamble bytes `0xFE` followed by `rest`, and `rest`
does not start with the separator `0xAA` (or is empty), `TryDiscBranch` reports
-1 (no responder) only when no byte follows the preamble; with 1 to 11 bytes
after the preamble it reports a collision (0), and with 12 or more it decodes
them as an encoded UID and reports a single responder (1).  When the result is
-1, `DiscoverBranch` returns in the state the request left, with the found list
unchanged and without a recursive call. -/
theorem C24_separator_is_optional {σ : Type} (T : Transport σ) (s : Session σ)
    (srcUID lower upper foundUID k : Nat) (rest stale : List Nat) (d1 d2 : σ)
    (hne : 0 < k + rest.length) (hfe : rest.head? ≠ some 0xFE)
    (haa : rest.head? ≠ some 0xAA)
    (hsend : T.SendRDMDiscovery s.dev
        (BuildRDMPacket RDM_BROADCAST_UID srcUID s.transNum 1 0 0 RDM_CC_DISCOVERY
          PID_DISC_UNIQUE_BRANCH (some (PackUID lower ++ PackUID upper)) 12) = (d1, true))
    (hrx : T.ReceiveRDM d1 512
        = (d2, ((k + rest.length : Nat) : Int), List.replicate k 0xFE ++ rest ++ stale)) :
    (TryDiscBranch T s srcUID lower upper foundUID).2
        = (if rest.length = 0 then (-1, foundUID)
           else if rest.length < 12 then (0, foundUID)
           else (1, UnpackUID (decodePairs rest 0)))
      ∧ (rest = [] → ∀ (found : List Nat) (depth : Nat), depth < 48 →
          DiscoverBranchLog T srcUID s lower upper found depth
              = (⟨d2, (s.transNum + 1) % 256⟩, found, [])
            ∧ DiscoverBranch T srcUID s lower upper found depth
              = (⟨d2, (s.transNum + 1) % 256⟩, found)) := by
  have hx : ∀ f, TryDiscBranch T s srcUID lower upper f
      = (⟨d2, (s.transNum + 1) % 256⟩,
          if rest.length = 0 then (-1, f)
          else if rest.length < 12 then (0, f)
          else (1, UnpackUID (decodePairs rest 0))) := by
    intro f
    rw [TryDiscBranch_of_exchange T s srcUID lower upper f d1 d2 _ _ hsend hrx,
      parseDiscResponse_no_separator k rest stale f hne hfe haa]
  refine ⟨by rw [hx], ?_⟩
  intro hrest found depth hdepth
  have h0 : rest.length = 0 := by rw [hrest]; rfl
  have ht := hx 0
  rw [if_pos h0] at ht
  have hlog := DiscoverBranchLog_no_responder T srcUID s lower upper found depth hdepth
    (by rw [ht])
  rw [ht] at hlog
  refine ⟨hlog, ?_⟩
  rw [← (DiscoverBranchLog_spec T srcUID (48 - depth) depth rfl s lower upper found).1, hlog]

/-- Witness for C24: a line that delivers two bytes `55 55` (no preamble, no
separator) is reported as a collision. -/
theorem C24_separator_is_optional_witness :
    (0 < 0 + [0x55, 0x55].length ∧ [0x55, 0x55].head? ≠ some 0xFE
        ∧ [0x55, 0x55].head? ≠ some 0xAA)
      ∧ (TryDiscBranch (constTransport [0x55, 0x55]) ⟨(), 0⟩ kControllerUID 0 0xFFFEFFFFFFFF
          0).2 = (0, 0) :=
  ⟨⟨by decide, by decide, by decide⟩,
   (C24_separator_is_optional (constTransport [0x55, 0x55]) ⟨(), 0⟩ kControllerUID 0
      0xFFFEFFFFFFFF 0 0 [0x55, 0x55] [] () () (by decide) (by decide) (by decide) rfl
      rfl).1⟩

/-- Counterexample to C24 as stated: the non-empty response `bareUidResponse`
has no preamble and its first byte `0xEF` is not the separator, yet
`TryDiscBranch` returns 1 with the UID `454E:00000001`, and `DiscoverBranch`
(here at depth 47) records that UID and recurses. -/
theorem C24_counterexample :
    bareUidResponse ≠ []
      ∧ stripPreamble bareUidResponse 12 12 0 = 0
      ∧ bareUidResponse.getD 0 0 = 0xEF
      ∧ (TryDiscBranch (constTransport bareUidResponse) ⟨(), 0⟩ kControllerUID 0
          0xFFFEFFFFFFFF 0).2 = (1, testFixtureUID)
      ∧ DiscoverBranchLog (constTransport bareUidResponse) kControllerUID ⟨(), 0⟩ 0
          0xFFFEFFFFFFFF [] 47 = (⟨(), 2⟩, [testFixtureUID], [⟨0, 0xFFFEFFFFFFFF, 48⟩]) := by
  have hp : parseDiscResponse (bareUidResponse.length : Int) bareUidResponse 0
      = (1, testFixtureUID) := by decide
  have ht : TryDiscBranch (constTransport bareUidResponse) ⟨(), 0⟩ kControllerUID 0
      0xFFFEFFFFFFFF 0 = (⟨(), 1⟩, 1, testFixtureUID) := by
    rw [TryDiscBranch_constTransport, hp]
  refine ⟨by decide, by decide, by decide, by rw [ht], ?_⟩
  rw [DiscoverBranchLog_single _ _ _ _ _ _ _ (by decide) (by rw [ht]), ht]
  rw [DiscoverBranchLog_base _ _ _ _ _ _ 48 (by decide)]
  rfl

/-- Claim C25 (amended): when the received discovery response is `k` preamble
bytes, the separator `0xAA`, and then 1 to 11 bytes, `TryDiscBranch` reports a
collision (0), and `DiscoverBranch` (below the depth limit, `lower < upper`)
then bisects, its first recursive call being on `[lower, mid]`.  When no byte
remains after the separator the result is -1 (no responder), not a
collision. -/
theorem C25_short_response_is_collision {σ : Type} (T : Transport σ) (s : Session σ)
    (srcUID lower upper foundUID k : Nat) (rest stale : List Nat) (d1 d2 : σ)
    (hlen : rest.length < 12)
    (hsend : T.SendRDMDiscovery s.dev
        (BuildRDMPacket RDM_BROADCAST_UID srcUID s.transNum 1 0 0 RDM_CC_DISCOVERY
          PID_DISC_UNIQUE_BRANCH (some (PackUID lower ++ PackUID upper)) 12) = (d1, true))
    (hrx : T.ReceiveRDM d1 512
        = (d2, ((k + 1 + rest.length : Nat) : Int),
            List.replicate k 0xFE ++ [0xAA] ++ rest ++ stale)) :
    (0 < rest.length → (TryDiscBranch T s srcUID lower upper foundUID).2 = (0, foundUID))
      ∧ (rest.length = 0 → (TryDiscBranch T s srcUID lower upper foundUID).2 = (-1, foundUID))
      ∧ (0 < rest.length → lower < upper → ∀ (found : List Nat) (depth : Nat), depth < 48 →
          (DiscoverBranchLog T srcUID s lower upper found depth).2.2.head?
            = some ⟨lower, lower + (upper - lower) / 2, depth + 1⟩) := by
  have hx : ∀ f, TryDiscBranch T s srcUID lower upper f
      = (⟨d2, (s.transNum + 1) % 256⟩,
          if rest.length = 0 then (-1, f) else (0, f)) := by
    intro f
    rw [TryDiscBranch_of_exchange T s srcUID lower upper f d1 d2 _ _ hsend hrx,
      parseDiscResponse_short k rest stale f hlen]
  refine ⟨?_, ?_, ?_⟩
  · intro h
    rw [hx, if_neg (by omega)]
  · intro h
    rw [hx, if_pos h]
  · intro h hlt found depth hdepth
    have hc : (TryDiscBranch T s srcUID lower upper 0).2.1 = 0 := by
      rw [hx, if_neg (by omega)]
    rw [DiscoverBranchLog_collision T srcUID s lower upper found depth hdepth hc,
      if_neg (by omega)]
    rfl

/-- Witness for C25: the garbled frame `FE AA FF FF FF` (three bytes after the
separator). -/
theorem C25_short_response_is_collision_witness :
    ([0xFF, 0xFF, 0xFF].length < 12 ∧ 0 < [0xFF, 0xFF, 0xFF].length)
      ∧ (TryDiscBranch (constTransport garbledResponse) ⟨(), 0⟩ kControllerUID 0
          0xFFFEFFFFFFFF 0).2 = (0, 0) :=
  ⟨⟨by decide, by decide⟩,
   (C25_short_response_is_collision (constTransport garbledResponse) ⟨(), 0⟩ kControllerUID 0
      0xFFFEFFFFFFFF 0 1 [0xFF, 0xFF, 0xFF] [] () () (by decide) rfl rfl).1 (by decide)⟩

/-- Counterexample to C25 as stated: in `separatorOnlyResponse` the separator
is present after the preamble and 0 bytes remain after it (fewer than 12), yet
`TryDiscBranch` returns -1, not 0, and `DiscoverBranch` does not bisect. -/
theorem C25_counterexample :
    separatorOnlyResponse = List.replicate 1 0xFE ++ [0xAA] ++ []
      ∧ (TryDiscBranch (constTransport separatorOnlyResponse) ⟨(), 0⟩ kControllerUID 0
          0xFFFEFFFFFFFF 0).2 = (-1, 0)
      ∧ DiscoverBranchLog (constTransport separatorOnlyResponse) kControllerUID ⟨(), 0⟩ 0
          0xFFFEFFFFFFFF [] 0 = (⟨(), 1⟩, [], []) := by
  have hp : parseDiscResponse (separatorOnlyResponse.length : Int) separatorOnlyResponse 0
      = (-1, 0) := by decide
  have ht : TryDiscBranch (constTransport separatorOnlyResponse) ⟨(), 0⟩ kControllerUID 0
      0xFFFEFFFFFFFF 0 = (⟨(), 1⟩, -1, 0) := by
    rw [TryDiscBranch_constTransport, hp]
  refine ⟨by decide, by rw [ht], ?_⟩
  rw [DiscoverBranchLog_no_responder _ _ _ _ _ _ _ (by decide) (by rw [ht]), ht]

/-! ## Transaction numbers -/

theorem BuildRDMPacket_transNum (destUID srcUID transNum portOrRespType msgCount subDevice
    commandClass pid : Nat) (paramData : Option (List Nat)) (paramLen : Nat) :
    (BuildRDMPacket destUID srcUID transNum portOrRespType msgCount subDevice commandClass
      pid paramData paramLen).getD 15 0 = transNum := by
  simp [BuildRDMPacket, packetBody, PackUID]

/-- Every request hands exactly one packet to the transport, carrying the
current transaction number at offset 15, and advances the counter by one
modulo 256. -/
theorem issue_recordSends {σ : Type} (T : Transport σ) (srcUID : Nat) (dev : σ)
    (log : List (List Nat)) (tn : Nat) (req : Request) :
    ∃ (pkt : List Nat),
      (issue (recordSends T) srcUID ⟨(dev, log), tn⟩ req).dev.2 = log ++ [pkt]
        ∧ (issue (recordSends T) srcUID ⟨(dev, log), tn⟩ req).transNum = (tn + 1) % 256
        ∧ pkt.getD 15 0 = tn := by
  cases req with
  | get destUID pid paramData paramLen =>
    refine ⟨BuildRDMPacket destUID srcUID tn 1 0 0 RDM_CC_GET pid paramData paramLen, ?_, ?_,
      BuildRDMPacket_transNum _ _ _ _ _ _ _ _ _ _⟩
    · simp only [issue, RDMGetCommand, recordSends]
      split <;> rfl
    · simp only [issue, RDMGetCommand, recordSends]
      split <;> rfl
  | mute uid =>
    refine ⟨BuildRDMPacket uid srcUID tn 1 0 0 RDM_CC_DISCOVERY PID_DISC_MUTE none 0, ?_, ?_,
      BuildRDMPacket_transNum _ _ _ _ _ _ _ _ _ _⟩
    · simp only [issue, SendDiscMute, recordSends]
      split <;> rfl
    · simp only [issue, SendDiscMute, recordSends]
      split <;> rfl
  | unMute =>
    exact ⟨BuildRDMPacket RDM_BROADCAST_UID srcUID tn 1 0 0 RDM_CC_DISCOVERY PID_DISC_UN_MUTE
      none 0, rfl, rfl, BuildRDMPacket_transNum _ _ _ _ _ _ _ _ _ _⟩
  | branch lower upper =>
    refine ⟨BuildRDMPacket RDM_BROADCAST_UID srcUID tn 1 0 0 RDM_CC_DISCOVERY
      PID_DISC_UNIQUE_BRANCH (some (PackUID lower ++ PackUID upper)) 12, ?_, ?_,
      BuildRDMPacket_transNum _ _ _ _ _ _ _ _ _ _⟩
    · simp only [issue, TryDiscBranch, recordSends]
      split <;> rfl
    · simp only [issue, TryDiscBranch, recordSends]
      split <;> rfl

theorem issueAll_recordSends {σ : Type} (T : Transport σ) (srcUID : Nat) :
    ∀ (reqs : List Request) (dev : σ) (log : List (List Nat)) (tn : Nat), tn < 256 →
      ∃ (sent : List (List Nat)),
        (issueAll (recordSends T) srcUID ⟨(dev, log), tn⟩ reqs).dev.2 = log ++ sent
          ∧ (issueAll (recordSends T) srcUID ⟨(dev, log), tn⟩ reqs).transNum
              = (tn + reqs.length) % 256
          ∧ sent.length = reqs.length
          ∧ ∀ k, k < reqs.length → (sent.getD k []).getD 15 0 = (tn + k) % 256 := by
  intro reqs
  induction reqs with
  | nil =>
    intro dev log tn htn
    refine ⟨[], by simp [issueAll], ?_, rfl, ?_⟩
    · simp only [issueAll, List.foldl_nil, List.length_nil, Nat.add_zero]
      exact (Nat.mod_eq_of_lt htn).symm
    · intro k hk; simp at hk
  | cons req rest ih =>
    intro dev log tn htn
    obtain ⟨pkt, h1, h2, h3⟩ := issue_recordSends T srcUID dev log tn req
    have hstep : issueAll (recordSends T) srcUID ⟨(dev, log), tn⟩ (req :: rest)
        = issueAll (recordSends T) srcUID
            ⟨((issue (recordSends T) srcUID ⟨(dev, log), tn⟩ req).dev.1, log ++ [pkt]),
              (tn + 1) % 256⟩ rest := by
      simp only [issueAll, List.foldl_cons]
      congr 1
      rw [← h1, ← h2]
    obtain ⟨sent, g1, g2, g3, g4⟩ := ih (issue (recordSends T) srcUID ⟨(dev, log), tn⟩ req).dev.1
      (log ++ [pkt]) ((tn + 1) % 256) (Nat.mod_lt _ (by decide))
    refine ⟨pkt :: sent, ?_, ?_, ?_, ?_⟩
    · rw [hstep, g1]; simp
    · rw [hstep, g2, List.length_cons]; omega
    · simp [g3]
    · intro k hk
      cases k with
      | zero =>
        simp only [List.getD_cons_zero, Nat.add_zero]
        rw [h3, Nat.mod_eq_of_lt htn]
      | succ j =>
        simp only [List.getD_cons_succ]
        rw [g4 j (by simpa using hk)]
        omega

/-- Claim C27: for every transport and every sequence of requests made through
`RDMGetCommand`, `SendDiscMute`, `SendDiscUnMute` and `TryDiscBranch` in one
session (counter starting at 0, as `s_transNum` is initialised), each request
builds one packet; the `k`-th packet built (from 0) carries `k mod 256` at
offset 15, so each packet carries the previous packet's number plus one modulo
256, and the counter after the sequence is the number of packets modulo 256. -/
theorem C27_transaction_number_counts_packets {σ : Type} (T : Transport σ) (srcUID : Nat)
    (dev : σ) (reqs : List Request) :
    (issueAll (recordSends T) srcUID ⟨(dev, []), 0⟩ reqs).dev.2.length = reqs.length
      ∧ (∀ k, k < reqs.length →
          (((issueAll (recordSends T) srcUID ⟨(dev, []), 0⟩ reqs).dev.2).getD k []).getD 15 0
            = k % 256)
      ∧ (∀ k, k + 1 < reqs.length →
          (((issueAll (recordSends T) srcUID ⟨(dev, []), 0⟩ reqs).dev.2).getD (k + 1) []).getD
              15 0
            = ((((issueAll (recordSends T) srcUID ⟨(dev, []), 0⟩ reqs).dev.2).getD k []).getD
                15 0 + 1) % 256)
      ∧ (issueAll (recordSends T) srcUID ⟨(dev, []), 0⟩ reqs).transNum = reqs.length % 256 := by
  obtain ⟨sent, g1, g2, g3, g4⟩ := issueAll_recordSends T srcUID reqs dev [] 0 (by decide)
  rw [List.nil_append] at g1
  rw [g1, g2]
  refine ⟨g3, ?_, ?_, by rw [Nat.zero_add]⟩
  · intro k hk
    rw [g4 k hk, Nat.zero_add]
  · intro k hk
    rw [g4 (k + 1) hk, g4 k (by omega), Nat.zero_add, Nat.zero_add]
    omega

/-- The counter wraps: after 256 broadcasts of `DISC_UN_MUTE` the next packet
built, a GET, carries transaction number 0 again. -/
theorem transNum_wraps_after_256 (srcUID : Nat) :
    (((issueAll (recordSends deadTransport) srcUID ⟨((), []), 0⟩
        (List.replicate 256 Request.unMute
          ++ [Request.get testFixtureUID PID_DEVICE_INFO none 0])).dev.2).getD 256 []).getD 15 0
      = 0 := by
  obtain ⟨sent, g1, -, -, g4⟩ := issueAll_recordSends deadTransport srcUID
    (List.replicate 256 Request.unMute ++ [Request.get testFixtureUID PID_DEVICE_INFO none 0])
    () [] 0 (by decide)
  rw [List.nil_append] at g1
  rw [g1, g4 256 (by rw [List.length_append, List.length_replicate]; decide)]

/-! ## Which bytes of the receive buffer a GET result depends on -/

/-- The type and the data of the result depend only on the received bytes, and
so does the reason code when at least 26 bytes were received. -/
theorem classifyResponse_prefix (rxLen : Int) (a b : List Nat)
    (h : ∀ i : Nat, (i : Int) < rxLen → a.getD i 0 = b.getD i 0) :
    (classifyResponse rxLen a).type = (classifyResponse rxLen b).type
      ∧ (classifyResponse rxLen a).data = (classifyResponse rxLen b).data
      ∧ (26 ≤ rxLen → (classifyResponse rxLen a).nackReason
          = (classifyResponse rxLen b).nackReason) := by
  by_cases h0 : rxLen ≤ 0
  · simp only [classifyResponse, if_pos h0]
    exact ⟨trivial, trivial, fun _ => trivial⟩
  by_cases h24 : rxLen < 24
  · simp only [classifyResponse, if_neg h0, if_pos h24]
    exact ⟨trivial, trivial, fun _ => trivial⟩
  have e0 : a.getD 0 0 = b.getD 0 0 := h 0 (by omega)
  have e16 : a.getD 16 0 = b.getD 16 0 := h 16 (by omega)
  have e23 : a.getD 23 0 = b.getD 23 0 := h 23 (by omega)
  have edata : (if b.getD 23 0 > 0 ∧ (24 + b.getD 23 0 : Int) ≤ rxLen then
        (List.range (b.getD 23 0)).map (fun i => a.getD (24 + i) 0) else [])
      = (if b.getD 23 0 > 0 ∧ (24 + b.getD 23 0 : Int) ≤ rxLen then
        (List.range (b.getD 23 0)).map (fun i => b.getD (24 + i) 0) else []) := by
    by_cases hc : b.getD 23 0 > 0 ∧ (24 + b.getD 23 0 : Int) ≤ rxLen
    · rw [if_pos hc, if_pos hc]
      apply List.map_congr_left
      intro i hi
      have hi2 : i < b.getD 23 0 := List.mem_range.mp hi
      exact h (24 + i) (by have := hc.2; omega)
    · rw [if_neg hc, if_neg hc]
  unfold classifyResponse
  simp only [if_neg h0, if_neg h24, e0, e16, e23]
  split
  · exact ⟨rfl, rfl, fun _ => rfl⟩
  · split
    · exact ⟨rfl, edata, fun _ => rfl⟩
    · split
      · exact ⟨rfl, rfl, fun _ => rfl⟩
      · split
        · refine ⟨rfl, rfl, ?_⟩
          intro h26
          show (if b.getD 23 0 ≥ 2 then ((a.getD 24 0 <<< 8) ||| a.getD 25 0) % 65536 else 0)
            = (if b.getD 23 0 ≥ 2 then ((b.getD 24 0 <<< 8) ||| b.getD 25 0) % 65536 else 0)
          rw [h 24 (by omega), h 25 (by omega)]
        · exact ⟨rfl, rfl, fun _ => rfl⟩

/-- Claim C30: the result of `RDMGetCommand` depends only on the bytes the
transport delivered.  The code does not do this for the NACK reason code: it
reads `rxBuf[24]` and `rxBuf[25]` whenever the length byte at offset 23 is at
least 2, without comparing with `rxLen`.  When the transport delivers the 24
header bytes `testNackHeaderOnly` (`rxLen = 24`), two runs whose buffers agree
on these 24 bytes and differ only behind them return different reason codes. -/
theorem C30_nack_reason_read_beyond_received_length :
    testNackHeaderOnly.length = 24
      ∧ (testNackHeaderOnly ++ [0x12, 0x34]).take 24 = (testNackHeaderOnly ++ [0, 0]).take 24
      ∧ (RDMGetCommand (staleTransport testNackHeaderOnly [0x12, 0x34]) ⟨(), 0⟩ kControllerUID
          testFixtureUID PID_DEVICE_INFO none 0).2
        = { type := RDMResponseType.NACK, nackReason := 0x1234, data := [] }
      ∧ (RDMGetCommand (staleTransport testNackHeaderOnly [0, 0]) ⟨(), 0⟩ kControllerUID
          testFixtureUID PID_DEVICE_INFO none 0).2
        = { type := RDMResponseType.NACK, nackReason := 0, data := [] } := by
  decide

/-! ## Serial framing -/

theorem bytesAt_self (payload : List Nat) : bytesAt payload payload.length = payload := by
  unfold bytesAt
  apply List.ext_getElem
  · simp
  · intro i h1 h2
    simp only [List.getElem_map, List.getElem_range]
    exact List.getD_eq_getElem _ _ h2

theorem SendPacket_frame {δ : Type} (F : Ftdi δ)
    (hok : ∀ (h : δ) (bytes : List Nat), (F.Write h bytes).2 = (FT_OK, bytes.length))
    (h : δ) (log : List Nat) (label : Nat) (payload : List Nat)
    (hL : payload.length < 65536) :
    ((SendPacket (recordWrites F) (some (h, log)) label (some payload) payload.length).1.map
        Prod.snd
        = some (log ++ ([0x7E, label, payload.length % 256, payload.length / 256]
            ++ payload ++ [0xE7])))
      ∧ (SendPacket (recordWrites F) (some (h, log)) label (some payload) payload.length).2
        = true := by
  have hw : ∀ (x : δ × List Nat) (bytes : List Nat),
      (recordWrites F).Write x bytes
        = (((F.Write x.1 bytes).1, x.2 ++ bytes), FT_OK, bytes.length) := by
    intro x bytes
    have e := hok x.1 bytes
    have e2 : (F.Write x.1 bytes).2.2 = bytes.length := by rw [e]
    simp only [recordWrites, e2, List.take_length]
    rw [e]
  have hlo : (payload.length &&& 0xFF) % 256 = payload.length % 256 := by
    rw [and_ff]; omega
  have hhi : (payload.length >>> 8) % 256 = payload.length / 256 := by
    rw [Nat.shiftRight_eq_div_pow]
    have hp : (2 : Nat) ^ 8 = 256 := by norm_num
    rw [hp]; omega
  unfold SendPacket
  simp only [hw, hlo, hhi, bytesAt_self]
  by_cases h0 : payload.length > 0
  · simp [h0, PRO_HEADER_LENGTH, PRO_START_CODE, PRO_END_CODE]
  · have hnil : payload = [] := List.length_eq_zero.mp (by omega)
    subst hnil
    simp [PRO_HEADER_LENGTH, PRO_START_CODE, PRO_END_CODE]

/-- Claim C23: for every label and every payload of length `L < 65536`, on an
open handle whose writes all succeed in full, `EnttecPro::SendPacket` returns
true and the bytes written are exactly `0x7E`, the label, `L mod 256`,
`L div 256`, the `L` payload bytes in order, and `0xE7`; `SendRDM`, `SendDMX`
and `SendRDMDiscovery` write that frame with labels 7, 6 and 11. -/
theorem C23_send_packet_frame {δ : Type} (F : Ftdi δ)
    (hok : ∀ (h : δ) (bytes : List Nat), (F.Write h bytes).2 = (FT_OK, bytes.length))
    (h : δ) (log : List Nat) (label : Nat) (payload : List Nat)
    (hL : payload.length < 65536) :
    ((SendPacket (recordWrites F) (some (h, log)) label (some payload) payload.length).1.map
          Prod.snd
        = some (log ++ ([0x7E, label, payload.length % 256, payload.length / 256]
            ++ payload ++ [0xE7]))
      ∧ (SendPacket (recordWrites F) (some (h, log)) label (some payload) payload.length).2
        = true)
    ∧ ((EnttecPro.SendRDM (recordWrites F) (some (h, log)) (some payload)
          payload.length).1.map Prod.snd
        = some (log ++ ([0x7E, 7, payload.length % 256, payload.length / 256]
            ++ payload ++ [0xE7])))
    ∧ ((EnttecPro.SendDMX (recordWrites F) (some (h, log)) (some payload)
          payload.length).1.map Prod.snd
        = some (log ++ ([0x7E, 6, payload.length % 256, payload.length / 256]
            ++ payload ++ [0xE7])))
    ∧ ((EnttecPro.SendRDMDiscovery (recordWrites F) (some (h, log)) (some payload)
          payload.length).1.map Prod.snd
        = some (log ++ ([0x7E, 11, payload.length % 256, payload.length / 256]
            ++ payload ++ [0xE7]))) :=
  ⟨SendPacket_frame F hok h log label payload hL,
   (SendPacket_frame F hok h log LABEL_TX_RDM payload hL).1,
   (SendPacket_frame F hok h log LABEL_TX_DMX payload hL).1,
   (SendPacket_frame F hok (F.Purge (F.Purge h FT_PURGE_TX) FT_PURGE_RX) log
      LABEL_TX_RDM_DISCOVERY payload hL).1⟩

/-- Witness for C23: the 26-byte GET packet of the scenario sent with
`SendRDM` on a driver whose writes succeed; the length field is `1A 00`. -/
theorem C23_send_packet_frame_witness :
    ((∀ (h : Unit) (bytes : List Nat), (okDriver.Write h bytes).2 = (FT_OK, bytes.length))
        ∧ scenarioPacket.length < 65536)
      ∧ (EnttecPro.SendRDM (recordWrites okDriver) (some ((), [])) (some scenarioPacket)
          scenarioPacket.length).1.map Prod.snd
        = some ([] ++ ([0x7E, 7, scenarioPacket.length % 256, scenarioPacket.length / 256]
            ++ scenarioPacket ++ [0xE7])) :=
  ⟨⟨fun _ _ => rfl, by decide⟩,
   (C23_send_packet_frame okDriver (fun _ _ => rfl) () [] 7 scenarioPacket (by decide)).2.1⟩

set_option maxRecDepth 100000 in
/-- The frame of the scenario packet, spelled out, and the length field of a
300-byte payload (`2C 01`, low byte first). -/
theorem SendPacket_examples :
    (EnttecPro.SendRDM (recordWrites okDriver) (some ((), [])) (some scenarioPacket)
        scenarioPacket.length).1.map Prod.snd
      = some ([0x7E, 7, 26, 0] ++ scenarioPacket ++ [0xE7])
    ∧ ((SendPacket (recordWrites okDriver) (some ((), [])) 6 (some (List.replicate 300 0))
        300).1.map (fun x => x.2.take 4)) = some [0x7E, 6, 0x2C, 0x01]
    ∧ (SendPacket (recordWrites shortDriver) (some ((), [])) 6 (some [1, 2, 3]) 3)
      = (some ((), [0x7E, 6]), false)
    ∧ SendPacket (recordWrites okDriver) none 6 (some [1, 2, 3]) 3 = (none, false) := by
  decide

/-! ## Copies into `RDX_Response.data` -/

theorem memcpyInto_zeros (src : List Nat) (start n : Nat) (hn : n ≤ 231) :
    (memcpyInto (List.replicate 231 0) src start n).length = 231
      ∧ (memcpyInto (List.replicate 231 0) src start n).take n
          = (List.range n).map (fun i => src.getD (start + i) 0)
      ∧ (memcpyInto (List.replicate 231 0) src start n).drop n
          = List.replicate (231 - n) 0 := by
  have hl : ((List.range n).map (fun i => src.getD (start + i) 0)).length = n := by simp
  unfold memcpyInto
  refine ⟨?_, ?_, ?_⟩
  · simp only [List.length_append, hl, List.length_drop, List.length_replicate]
    omega
  · exact List.take_left' hl
  · rw [List.drop_left' hl, List.drop_replicate]

theorem memcpyInto_zero_bytes (dst src : List Nat) (start : Nat) :
    memcpyInto dst src start 0 = dst := by
  simp [memcpyInto]

/-- Whatever was received, the response holds a copy of at most 231 bytes in
front of what the array held before: from offset 0 of the buffer for a checksum
error, from offset 24 otherwise. -/
theorem fillResponse_data (out : RDX_Response) (rxLen : Int) (rxBuf : List Nat)
    (zeros : List Nat) (hlen : out.dataLen = 0) (hdata : out.data = zeros) :
    0 ≤ (fillResponse out rxLen rxBuf).dataLen
      ∧ (fillResponse out rxLen rxBuf).dataLen ≤ 231
      ∧ (fillResponse out rxLen rxBuf).data
          = memcpyInto zeros rxBuf
              (if (fillResponse out rxLen rxBuf).status = RDX_STATUS_CHECKSUM_ERR then 0
               else 24)
              (fillResponse out rxLen rxBuf).dataLen.toNat := by
  have hz : ∀ start, zeros = memcpyInto zeros rxBuf start (0 : Int).toNat := by
    intro start
    rw [Int.toNat_zero, memcpyInto_zero_bytes]
  unfold fillResponse
  by_cases h0 : rxLen ≤ 0
  · rw [if_pos h0]
    dsimp only
    rw [hlen, hdata]
    exact ⟨by omega, by omega, hz _⟩
  rw [if_neg h0]
  by_cases hck : rxLen ≥ 26 ∧ checksumValid rxBuf rxLen.toNat = false
  · rw [if_pos hck]
    dsimp only
    rw [hdata, if_pos rfl]
    refine ⟨?_, ?_, rfl⟩
    · split <;> omega
    · split <;> omega
  rw [if_neg hck]
  dsimp only
  by_cases h24 : rxLen < 24
  · rw [if_pos h24]
    dsimp only
    rw [hlen, hdata]
    exact ⟨by omega, by omega, hz _⟩
  rw [if_neg h24]
  by_cases hsc : rxBuf.getD 0 0 ≠ 0xCC
  · rw [if_pos hsc]
    dsimp only
    rw [hlen, hdata]
    exact ⟨by omega, by omega, hz _⟩
  rw [if_neg hsc]
  by_cases ht0 : rxBuf.getD 16 0 = 0x00
  · rw [if_pos ht0]
    by_cases hp : rxBuf.getD 23 0 > 0 ∧ (24 + rxBuf.getD 23 0 : Int) ≤ rxLen
    · rw [if_pos hp]
      dsimp only
      have hs : (RDX_STATUS_ACK = RDX_STATUS_CHECKSUM_ERR) = False := by decide
      rw [hdata]
      simp only [hs, if_false]
      by_cases hbig : rxBuf.getD 23 0 > 231
      · simp only [if_pos hbig]
        exact ⟨by omega, by omega, trivial⟩
      · simp only [if_neg hbig]
        exact ⟨by omega, by omega, trivial⟩
    · rw [if_neg hp]
      dsimp only
      rw [hlen, hdata]
      exact ⟨by omega, by omega, hz _⟩
  rw [if_neg ht0]
  by_cases ht1 : rxBuf.getD 16 0 = 0x01
  · rw [if_pos ht1]
    dsimp only
    rw [hlen, hdata]
    exact ⟨by omega, by omega, hz _⟩
  rw [if_neg ht1]
  by_cases ht2 : rxBuf.getD 16 0 = 0x02
  · rw [if_pos ht2]
    dsimp only
    rw [hlen, hdata]
    exact ⟨by omega, by omega, hz _⟩
  · rw [if_neg ht2]
    dsimp only
    rw [hlen, hdata]
    exact ⟨by omega, by omega, hz _⟩

theorem SendRDMCommand_of_exchange {σ : Type} (T : Transport σ) (s : Session σ)
    (srcUID destUID pid commandClass : Nat) (paramData : Option (List Nat)) (paramLen : Nat)
    (latencyUs : Int) (rxLen : Int) (rxBuf : List Nat)
    (hsend : (T.SendRDM (T.Purge s.dev)
        (BuildRDMPacket destUID srcUID s.transNum 1 0 0 commandClass pid paramData
          (paramLen % 256))).2 = true)
    (hrx : (T.ReceiveRDM (T.SendRDM (T.Purge s.dev)
        (BuildRDMPacket destUID srcUID s.transNum 1 0 0 commandClass pid paramData
          (paramLen % 256))).1 512).2 = (rxLen, rxBuf)) :
    (SendRDMCommand T true s srcUID destUID pid commandClass paramData paramLen latencyUs).2
      = (fillResponse { latencyUs := latencyUs } rxLen rxBuf, true) := by
  unfold SendRDMCommand
  simp only [hsend, hrx, Bool.true_eq_false, if_false]

/-- When the device is not open or the send fails, nothing is copied. -/
theorem SendRDMCommand_no_exchange {σ : Type} (T : Transport σ) (devOpen : Bool)
    (s : Session σ) (srcUID destUID pid commandClass : Nat) (paramData : Option (List Nat))
    (paramLen : Nat) (latencyUs : Int)
    (h : devOpen = false ∨ (T.SendRDM (T.Purge s.dev)
        (BuildRDMPacket destUID srcUID s.transNum 1 0 0 commandClass pid paramData
          (paramLen % 256))).2 = false) :
    (SendRDMCommand T devOpen s srcUID destUID pid commandClass paramData paramLen
        latencyUs).2 = ({ status := RDX_STATUS_TIMEOUT }, false) := by
  unfold SendRDMCommand
  cases devOpen with
  | false => simp only [if_true]
  | true =>
    rcases h with h | h
    · exact absurd h (by decide)
    · simp only [h, Bool.true_eq_false, if_true, if_false]

/-- Claim C29: for every buffer the transport delivers (any length, any
contents, checksum right or wrong), the response of `SendRDMCommand` has
`0 ≤ dataLen ≤ 231`, its `data` array still has 231 elements (no copy ran past
it), its first `dataLen` elements are the copied bytes (the buffer from offset
0 for a checksum error, from offset 24 for an ACK), and the elements from
`dataLen` on are the zeros `memset` left. -/
theorem C29_copied_data_fits_the_array {σ : Type} (T : Transport σ) (s : Session σ)
    (srcUID destUID pid commandClass : Nat) (paramData : Option (List Nat)) (paramLen : Nat)
    (latencyUs : Int) (rxLen : Int) (rxBuf : List Nat)
    (hsend : (T.SendRDM (T.Purge s.dev)
        (BuildRDMPacket destUID srcUID s.transNum 1 0 0 commandClass pid paramData
          (paramLen % 256))).2 = true)
    (hrx : (T.ReceiveRDM (T.SendRDM (T.Purge s.dev)
        (BuildRDMPacket destUID srcUID s.transNum 1 0 0 commandClass pid paramData
          (paramLen % 256))).1 512).2 = (rxLen, rxBuf)) :
    0 ≤ (SendRDMCommand T true s srcUID destUID pid commandClass paramData paramLen
          latencyUs).2.1.dataLen
      ∧ (SendRDMCommand T true s srcUID destUID pid commandClass paramData paramLen
          latencyUs).2.1.dataLen ≤ 231
      ∧ (SendRDMCommand T true s srcUID destUID pid commandClass paramData paramLen
          latencyUs).2.1.data.length = 231
      ∧ (SendRDMCommand T true s srcUID destUID pid commandClass paramData paramLen
          latencyUs).2.1.data.take
            (SendRDMCommand T true s srcUID destUID pid commandClass paramData paramLen
              latencyUs).2.1.dataLen.toNat
          = (List.range (SendRDMCommand T true s srcUID destUID pid commandClass paramData
              paramLen latencyUs).2.1.dataLen.toNat).map
              (fun i => rxBuf.getD
                ((if (SendRDMCommand T true s srcUID destUID pid commandClass paramData
                    paramLen latencyUs).2.1.status = RDX_STATUS_CHECKSUM_ERR then 0 else 24)
                  + i) 0)
      ∧ (SendRDMCommand T true s srcUID destUID pid commandClass paramData paramLen
          latencyUs).2.1.data.drop
            (SendRDMCommand T true s srcUID destUID pid commandClass paramData paramLen
              latencyUs).2.1.dataLen.toNat
          = List.replicate (231 - (SendRDMCommand T true s srcUID destUID pid commandClass
              paramData paramLen latencyUs).2.1.dataLen.toNat) 0 := by
  rw [SendRDMCommand_of_exchange T s srcUID destUID pid commandClass paramData paramLen
    latencyUs rxLen rxBuf hsend hrx]
  obtain ⟨h1, h2, h3⟩ := fillResponse_data { latencyUs := latencyUs } rxLen rxBuf
    (List.replicate 231 0) rfl rfl
  have hn : (fillResponse { latencyUs := latencyUs } rxLen rxBuf).dataLen.toNat ≤ 231 := by
    omega
  obtain ⟨m1, m2, m3⟩ := memcpyInto_zeros rxBuf
    (if (fillResponse { latencyUs := latencyUs } rxLen rxBuf).status
      = RDX_STATUS_CHECKSUM_ERR then 0 else 24)
    (fillResponse { latencyUs := latencyUs } rxLen rxBuf).dataLen.toNat hn
  refine ⟨h1, h2, ?_, ?_, ?_⟩
  · exact (congrArg List.length h3).trans m1
  · exact (congrArg (fun l => List.take
      (fillResponse { latencyUs := latencyUs } rxLen rxBuf).dataLen.toNat l) h3).trans m2
  · exact (congrArg (fun l => List.drop
      (fillResponse { latencyUs := latencyUs } rxLen rxBuf).dataLen.toNat l) h3).trans m3

/-- Witness for C29: the 29-byte ACK with a corrupted data byte; the checksum
test fails and the 29 received bytes are copied. -/
theorem C29_copied_data_fits_the_array_witness :
    (SendRDMCommand (constTransport testAckCorrupted) true ⟨(), 0⟩ kControllerUID
        testFixtureUID PID_DEVICE_INFO RDM_CC_GET none 0 0).2.1.dataLen ≤ 231
      ∧ (SendRDMCommand (constTransport testAckCorrupted) true ⟨(), 0⟩ kControllerUID
        testFixtureUID PID_DEVICE_INFO RDM_CC_GET none 0 0).2.1.data.length = 231 :=
  ⟨(C29_copied_data_fits_the_array (constTransport testAckCorrupted) ⟨(), 0⟩ kControllerUID
      testFixtureUID PID_DEVICE_INFO RDM_CC_GET none 0 0 (testAckCorrupted.length : Int)
      testAckCorrupted rfl rfl).2.1,
   (C29_copied_data_fits_the_array (constTransport testAckCorrupted) ⟨(), 0⟩ kControllerUID
      testFixtureUID PID_DEVICE_INFO RDM_CC_GET none 0 0 (testAckCorrupted.length : Int)
      testAckCorrupted rfl rfl).2.2.1⟩

set_option maxRecDepth 100000 in
/-- The three kinds of response on concrete buffers: a checksum error copies
the whole 29-byte message, a good ACK copies its 3 parameter bytes, and a
response of 300 bytes `0xFF` (checksum wrong) is cut to 231 bytes. -/
theorem SendRDMCommand_examples :
    ((SendRDMCommand (constTransport testAckCorrupted) true ⟨(), 0⟩ kControllerUID
        testFixtureUID PID_DEVICE_INFO RDM_CC_GET none 0 0).2.1.status
          = RDX_STATUS_CHECKSUM_ERR
      ∧ (SendRDMCommand (constTransport testAckCorrupted) true ⟨(), 0⟩ kControllerUID
        testFixtureUID PID_DEVICE_INFO RDM_CC_GET none 0 0).2.1.dataLen = 29)
    ∧ ((SendRDMCommand (constTransport testAck) true ⟨(), 0⟩ kControllerUID
        testFixtureUID PID_DEVICE_INFO RDM_CC_GET none 0 0).2.1.status = RDX_STATUS_ACK
      ∧ (SendRDMCommand (constTransport testAck) true ⟨(), 0⟩ kControllerUID
        testFixtureUID PID_DEVICE_INFO RDM_CC_GET none 0 0).2.1.dataLen = 3
      ∧ (SendRDMCommand (constTransport testAck) true ⟨(), 0⟩ kControllerUID
        testFixtureUID PID_DEVICE_INFO RDM_CC_GET none 0 0).2.1.data.take 4
          = [0x0A, 0x1B, 0xFF, 0])
    ∧ (SendRDMCommand (constTransport (List.replicate 300 0xFF)) true ⟨(), 0⟩ kControllerUID
        testFixtureUID PID_DEVICE_INFO RDM_CC_GET none 0 0).2.1.dataLen = 231 := by
  decide

/-! ## Parameter catalog loader -/

theorem stringFind_none_iff (needle : List Char) :
    ∀ (hay : List Char) (i : Nat), stringFind hay needle i = none ↔ ¬ needle <:+: hay := by
  intro hay
  induction hay with
  | nil =>
    intro i
    unfold stringFind
    by_cases h : needle = []
    · simp [h]
    · simp [h]
  | cons c cs ih =>
    intro i
    unfold stringFind
    by_cases h : needle.isPrefixOf (c :: cs) = true
    · have hp : needle <+: c :: cs := List.isPrefixOf_iff_prefix.mp h
      simp only [h, if_true]
      constructor
      · intro e; cases e
      · intro hn; exact absurd hp.isInfix hn
    · have hp : ¬ needle <+: c :: cs := fun hp => h (List.isPrefixOf_iff_prefix.mpr hp)
      simp only [h]
      rw [if_neg (by decide), ih (i + 1), List.infix_cons_iff]
      constructor
      · rintro hn (h1 | h2)
        · exact hp h1
        · exact hn h2
      · intro hn h2
        exact hn (Or.inr h2)

theorem isGetRow_iff (fields : List (List Char)) :
    isGetRow fields = true
      ↔ 5 ≤ fields.length ∧ "GET_COMMAND".data <:+: fields.getD 2 []
          ∧ ParseHexPID (fields.getD 3 []) ≠ 0 := by
  simp only [isGetRow, Bool.and_eq_true, decide_eq_true_eq, and_assoc]

theorem loadRecord_eq (params : List RDMParameter) (rec : List Char) :
    loadRecord params rec
      = params ++ (if isGetRow (SplitCSVLine rec) = true then [rowParameter (SplitCSVLine rec)]
          else []) := by
  unfold loadRecord
  simp only []
  by_cases h5 : (SplitCSVLine rec).length < 5
  · have hfalse : ¬ isGetRow (SplitCSVLine rec) = true := by
      rw [isGetRow_iff]; rintro ⟨a, -, -⟩; omega
    rw [if_pos h5, if_neg hfalse, List.append_nil]
  · have h5b : 5 ≤ (SplitCSVLine rec).length := by omega
    rw [if_neg h5]
    by_cases hf : stringFind ((SplitCSVLine rec).getD 2 []) "GET_COMMAND".data 0 = none
    · have hn := (stringFind_none_iff _ _ 0).mp hf
      have hfalse : ¬ isGetRow (SplitCSVLine rec) = true := by
        rw [isGetRow_iff]; rintro ⟨-, b, -⟩; exact hn b
      rw [if_pos hf, if_neg hfalse, List.append_nil]
    · have hn : "GET_COMMAND".data <:+: (SplitCSVLine rec).getD 2 [] := by
        by_contra hc
        exact hf ((stringFind_none_iff _ _ 0).mpr hc)
      rw [if_neg hf]
      by_cases hp : ParseHexPID ((SplitCSVLine rec).getD 3 []) = 0
      · have hfalse : ¬ isGetRow (SplitCSVLine rec) = true := by
          rw [isGetRow_iff]; rintro ⟨-, -, c⟩; exact c hp
        rw [if_pos hp, if_neg hfalse, List.append_nil]
      · have htrue : isGetRow (SplitCSVLine rec) = true :=
          (isGetRow_iff _).mpr ⟨h5b, hn, hp⟩
        rw [if_neg hp, if_pos htrue]
        rfl

theorem loadRecord_foldl (records : List (List Char)) :
    ∀ (params : List RDMParameter),
      records.foldl loadRecord params
        = params ++ ((records.map SplitCSVLine).filter isGetRow).map rowParameter := by
  induction records with
  | nil => intro params; simp
  | cons rec rest ih =>
    intro params
    rw [List.foldl_cons, ih, loadRecord_eq]
    by_cases h : isGetRow (SplitCSVLine rec) = true
    · simp [h]
    · simp [h]

theorem LoadParameters_eq (content : List Char) :
    LoadParameters (some content)
      = ((((splitRecords content).drop 2).map SplitCSVLine).filter isGetRow).map
          rowParameter := by
  unfold LoadParameters
  simp only []
  rw [loadRecord_foldl, List.nil_append]

set_option maxRecDepth 100000 in
theorem hexDigit_not_trimmed : ∀ n < 16, hexDigit n ∉ " \t\r\n".data := by
  decide

theorem hexDigit_mod_not_trimmed (x : Nat) : hexDigit (x % 16) ∉ " \t\r\n".data :=
  hexDigit_not_trimmed (x % 16) (Nat.mod_lt _ (by decide))

theorem findLastNotOf_append_last (set : List Char) (z : Char) (hz : z ∉ set) :
    ∀ (l : List Char), findLastNotOf (l ++ [z]) set = some l.length := by
  intro l
  induction l with
  | nil =>
    rw [List.nil_append, findLastNotOf, findLastNotOf, if_neg hz]
    rfl
  | cons c t ih =>
    rw [List.cons_append, findLastNotOf, ih]
    rfl

theorem findFirstNotOf_head (set : List Char) (a : Char) (l : List Char) (ha : a ∉ set) :
    findFirstNotOf (a :: l) set = some 0 := by
  rw [findFirstNotOf, if_neg ha]

/-- `Trim` leaves a text alone whose first and last characters are no white
space. -/
theorem Trim_of_ends (a : Char) (mid : List Char) (z : Char)
    (ha : a ∉ " \t\r\n".data) (hz : z ∉ " \t\r\n".data) :
    Trim (a :: (mid ++ [z])) = a :: (mid ++ [z]) := by
  have h1 := findFirstNotOf_head " \t\r\n".data a (mid ++ [z]) ha
  have h2 : findLastNotOf (a :: (mid ++ [z])) " \t\r\n".data = some (mid.length + 1) :=
    findLastNotOf_append_last " \t\r\n".data z hz (a :: mid)
  unfold Trim
  rw [h1, h2]
  simp only [List.drop_zero, Nat.sub_zero]
  apply List.take_of_length_le
  simp

theorem strtoul16_four_digits (m : Nat) (hm : m < 65536) : strtoul16 (hexPad 4 m) = m := by
  have hscan : scanHexDigits (hexPad 4 m) 0 0 = (m, 4, []) := by
    rw [hexPad_four]
    simp only [scanHexDigits_digit, scanHexDigits_nil]
    congr 1
    omega
  have hdw : List.dropWhile isSpaceC (hexPad 4 m) = hexPad 4 m := by
    rw [hexPad_four]
    simp [List.dropWhile, isSpaceC_hexDigit]
  have hsign : dropSign (hexPad 4 m) = (false, hexPad 4 m) := by
    rw [hexPad_four]
    simp [dropSign, hexDigit_ne_minus, hexDigit_ne_plus]
  have hmark : dropHexMark (hexPad 4 m) = hexPad 4 m := by
    rw [hexPad_four]
    unfold dropHexMark
    simp only [hexDigit_ne_x, hexDigit_ne_X, or_self, false_and, and_false, if_false]
  unfold strtoul16
  simp only [hdw, hsign, hmark, hscan]
  rw [if_neg (by decide), if_neg (by omega)]
  rfl

theorem takeWhile_hexPad_four (m : Nat) :
    (hexPad 4 m).takeWhile (fun c => decide (c ≠ '\x00')) = hexPad 4 m := by
  rw [hexPad_four]
  simp only [List.takeWhile, ne_eq, hexDigit_ne_nul, not_false_eq_true, decide_True]

/-- A PID written as four hexadecimal digits, with or without `0x` or `0X` in
front, is parsed to its value. -/
theorem ParseHexPID_four_digits (m : Nat) (hm : m < 65536) :
    ParseHexPID (hexPad 4 m) = m
      ∧ ParseHexPID ('0' :: 'x' :: hexPad 4 m) = m
      ∧ ParseHexPID ('0' :: 'X' :: hexPad 4 m) = m := by
  have h4 := hexPad_four m
  have hne : hexPad 4 m ≠ [] := by rw [h4]; exact List.cons_ne_nil _ _
  have hval : strtoul16 ((hexPad 4 m).takeWhile (fun c => decide (c ≠ '\x00'))) % 65536 = m := by
    rw [takeWhile_hexPad_four, strtoul16_four_digits m hm]
    exact Nat.mod_eq_of_lt hm
  have ht0 : Trim (hexPad 4 m) = hexPad 4 m := by
    rw [h4]
    exact Trim_of_ends _ [_, _] _ (hexDigit_mod_not_trimmed _) (hexDigit_mod_not_trimmed _)
  have hzero : '0' ∉ " \t\r\n".data := by decide
  have ht1 : ∀ c : Char, Trim ('0' :: c :: hexPad 4 m) = '0' :: c :: hexPad 4 m := by
    intro c
    rw [h4]
    exact Trim_of_ends '0' [c, _, _, _] _ hzero (hexDigit_mod_not_trimmed _)
  refine ⟨?_, ?_, ?_⟩
  · unfold ParseHexPID
    simp only [ht0]
    have hnot : ¬ ((hexPad 4 m).length ≥ 2 ∧ (hexPad 4 m).getD 0 ' ' = '0'
        ∧ ((hexPad 4 m).getD 1 ' ' = 'x' ∨ (hexPad 4 m).getD 1 ' ' = 'X')) := by
      rw [h4]
      simp only [List.getD_cons_succ, List.getD_cons_zero, hexDigit_ne_x, hexDigit_ne_X,
        or_self, and_false, not_false_eq_true]
    rw [if_neg hnot, if_neg hne]
    exact hval
  · unfold ParseHexPID
    simp only [ht1]
    have hyes : ('0' :: 'x' :: hexPad 4 m).length ≥ 2 ∧ ('0' :: 'x' :: hexPad 4 m).getD 0 ' ' = '0'
        ∧ (('0' :: 'x' :: hexPad 4 m).getD 1 ' ' = 'x'
          ∨ ('0' :: 'x' :: hexPad 4 m).getD 1 ' ' = 'X') :=
      ⟨by simp, rfl, Or.inl rfl⟩
    rw [if_pos hyes]
    simp only [List.drop_succ_cons, List.drop_zero]
    rw [if_neg hne]
    exact hval
  · unfold ParseHexPID
    simp only [ht1]
    have hyes : ('0' :: 'X' :: hexPad 4 m).length ≥ 2 ∧ ('0' :: 'X' :: hexPad 4 m).getD 0 ' ' = '0'
        ∧ (('0' :: 'X' :: hexPad 4 m).getD 1 ' ' = 'x'
          ∨ ('0' :: 'X' :: hexPad 4 m).getD 1 ' ' = 'X') :=
      ⟨by simp, rfl, Or.inr rfl⟩
    rw [if_pos hyes]
    simp only [List.drop_succ_cons, List.drop_zero]
    rw [if_neg hne]
    exact hval

theorem ParseHexPID_lt (s : List Char) : ParseHexPID s < 65536 := by
  unfold ParseHexPID
  simp only []
  split_ifs
  all_goals first | exact Nat.mod_lt _ (by omega) | omega

/-- Claim C22: for every file content, `LoadParameters` returns, in file order,
exactly one parameter for each logical record after the first two whose fields
satisfy `isGetRow` (at least five fields, `GET_COMMAND` inside field 2, a PID in
field 3 that `ParseHexPID` turns into a value other than 0); every returned
parameter has `pid ≠ 0`, a `pid` below `2 ^ 16` and a `commandClass` containing
`GET_COMMAND`; `isMandatory` is true exactly when field 1, trimmed, is `Y`; a
record with fewer than five fields, without `GET_COMMAND` in field 2, or with
PID 0 gives no parameter; and a PID written as four hexadecimal digits, with or
without `0x`, is parsed to its value. -/
theorem C22_load_parameters_keeps_get_rows (content : List Char) :
    LoadParameters (some content)
        = ((((splitRecords content).drop 2).map SplitCSVLine).filter isGetRow).map
            rowParameter
      ∧ (∀ p ∈ LoadParameters (some content),
          p.pid ≠ 0 ∧ p.pid < 65536 ∧ "GET_COMMAND".data <:+: p.commandClass.data)
      ∧ (∀ fields : List (List Char),
          (rowParameter fields).isMandatory = true ↔ Trim (fields.getD 1 []) = "Y".data)
      ∧ (∀ fields : List (List Char),
          (fields.length < 5 ∨ ¬ "GET_COMMAND".data <:+: fields.getD 2 []
            ∨ ParseHexPID (fields.getD 3 []) = 0) → isGetRow fields = false)
      ∧ (∀ m, m < 65536 →
          ParseHexPID (hexPad 4 m) = m ∧ ParseHexPID ('0' :: 'x' :: hexPad 4 m) = m) := by
  refine ⟨LoadParameters_eq content, ?_, ?_, ?_, ?_⟩
  · intro p hp
    rw [LoadParameters_eq] at hp
    obtain ⟨fields, hf, rfl⟩ := List.mem_map.mp hp
    have hrow := (isGetRow_iff fields).mp (List.mem_filter.mp hf).2
    refine ⟨hrow.2.2, ?_, hrow.2.1⟩
    exact ParseHexPID_lt _
  · intro fields
    show decide (Trim (fields.getD 1 []) = "Y".data) = true ↔ _
    exact decide_eq_true_iff
  · intro fields h
    cases hrow : isGetRow fields with
    | false => rfl
    | true =>
      have := (isGetRow_iff fields).mp hrow
      rcases h with h | h | h
      · omega
      · exact absurd this.2.1 h
      · exact absurd h this.2.2
  · intro m hm
    exact ⟨(ParseHexPID_four_digits m hm).1, (ParseHexPID_four_digits m hm).2.1⟩

set_option maxRecDepth 1000000 in
/-- The catalog `csvMixed`: of its five data records only the two GET rows
with at least five fields and a PID other than 0 are returned, in file order;
the second has a `0x` PID, a mandatory mark with blanks around it, and a quoted
description that spans two lines. -/
theorem LoadParameters_csvMixed :
    LoadParameters (some csvMixed.data)
      = [{ pid := 0x0060, name := "Get Device Info", commandClass := "GET_COMMAND (0x20)",
           isMandatory := false, description := "See RDM Standard" },
         { pid := 0x00F0, name := "Get DMX start address",
           commandClass := "GET_COMMAND (0x20)", isMandatory := true,
           description := "first line,\nsecond" }] := by
  decide

theorem LoadParameters_edge_cases :
    LoadParameters none = []
      ∧ LoadParameters (some []) = []
      ∧ LoadParameters (some csvHeaders.data) = []
      ∧ ParseHexPID "10000".data = 0
      ∧ ParseHexPID "0060".data = 0x60
      ∧ ParseHexPID " 0x00f0 ".data = 0xF0 := by
  decide

end RdmX
